import Mathlib

/-!
# DobieStation core: a shallow embedding

Lean model of the parts of the emulator core that the specification talks about:
the EE register file and the SPECIAL-class integer handlers
(`core/ee/emotion.hpp`, `core/ee/interpreter/emotion_special.cpp`), the IOP
processor (`core/iop/iop.hpp`, `core/iop/iop.cpp`) and the EE physical bus
dispatcher with the COP2/VU interlock (`core/emulator.cpp`).

Conventions.
* A C++ unsigned integer of width `w` is a `Nat` below `2 ^ w`; a signed one is an
  `Int`.  Conversions are explicit (`wrap32`, `signed32`, ...).
* Byte arrays (`uint8_t gpr[512]`, `uint8_t* ram`) are functions `Nat → Nat`
  from byte index to byte; a load reduces every byte modulo 256, a store writes
  the little-endian bytes of the value (the host is little-endian x86-64).
* `Errors::die` is the `none` of an `Option`.
-/

/-! ## Machine integers -/

/-- Conversion of an integer to `uint32_t` (reduction modulo 2^32). -/
def wrap32 (x : Int) : Nat := (x % 4294967296).toNat

/-- Conversion of an integer to `uint64_t` (reduction modulo 2^64). -/
def wrap64 (x : Int) : Nat := (x % 18446744073709551616).toNat

/-- The value of the low 32 bits of `n` read as an `int32_t`. -/
def signed32 (n : Nat) : Int :=
  if n % 4294967296 < 2147483648 then ((n % 4294967296 : Nat) : Int)
  else ((n % 4294967296 : Nat) : Int) - 4294967296

/-- The value of the low 64 bits of `n` read as an `int64_t`. -/
def signed64 (n : Nat) : Int :=
  if n % 18446744073709551616 < 9223372036854775808 then ((n % 18446744073709551616 : Nat) : Int)
  else ((n % 18446744073709551616 : Nat) : Int) - 18446744073709551616

/-- The cast chain `(int64_t)(int32_t)x` stored into a 64-bit slot: the low 32 bits
of `x`, sign-extended to 64 bits. -/
def sext32 (n : Nat) : Nat := wrap64 (signed32 n)

/-! ## Byte-addressed storage -/

/-- Little-endian load of `n` bytes starting at byte index `a`
(`*(T*)&mem[a]` with `sizeof(T) = n`). -/
def loadLE (mem : Nat → Nat) (a : Nat) : Nat → Nat
  | 0 => 0
  | n + 1 => mem a % 256 + 256 * loadLE mem (a + 1) n

/-- Little-endian store of the low `n` bytes of `v` starting at byte index `a`
(`*(T*)&mem[a] = v` with `sizeof(T) = n`). -/
def storeLE (mem : Nat → Nat) (a n v : Nat) : Nat → Nat :=
  fun j => if a ≤ j ∧ j < a + n then (v / 256 ^ (j - a)) % 256 else mem j

/-! ## EE register file (`core/ee/emotion.hpp`) -/

namespace ee

/-- A `uint128_t`: two 64-bit words, `_u64[0]` (low) and `_u64[1]` (high). -/
structure uint128_t where
  lo : Nat
  hi : Nat
  deriving DecidableEq, Repr

/-- The fields of `class EmotionEngine` that the integer handlers and the save state
touch. -/
structure EmotionEngine where
  cycle_count : Nat
  cycles_to_run : Int
  /-- The array `uint8_t gpr[32 * sizeof(uint64_t) * 2]`, 16 bytes a register. -/
  gpr : Nat → Nat
  LO : uint128_t
  HI : uint128_t
  PC : Nat
  new_PC : Nat
  SA : Nat
  wait_for_IRQ : Bool
  branch_on : Bool
  delay_slot : Int
  /-- The bytes of the array `EE_ICacheLine icache[128]`. -/
  icache : Nat → Nat
  /-- The bytes of the array `Deci2Handler deci2handlers[128]`. -/
  deci2handlers : Nat → Nat
  deci2size : Int

namespace EmotionEngine

/-- The template `T EmotionEngine::get_gpr<T>(int id, int offset)` for an unsigned `T`
of `sz` bytes: `*(T*)&gpr[(id * sizeof(uint64_t) * 2) + (offset * sizeof(T))]`. -/
def get_gpr (cpu : EmotionEngine) (sz id offset : Nat) : Nat :=
  loadLE cpu.gpr (id * 8 * 2 + offset * sz) sz

/-- The template `void EmotionEngine::set_gpr<T>(int id, T value, int offset)` for a `T`
of `sz` bytes: nothing happens for `id == 0`, otherwise `sz` bytes are stored. -/
def set_gpr (cpu : EmotionEngine) (sz id value offset : Nat) : EmotionEngine :=
  if id ≠ 0 then
    { cpu with gpr := storeLE cpu.gpr (id * 8 * 2 + offset * sz) sz value }
  else cpu

/-- The getter `uint32_t EmotionEngine::get_PC()`. -/
def get_PC (cpu : EmotionEngine) : Nat := cpu.PC

/-- Modelled from the spec: `EmotionEngine::set_LO_HI(uint64_t a, uint64_t b, bool hi)` is
declared in `emotion.hpp` but its body (in `emotion.cpp`) is not among the sources.  The
spec describes `LO`/`HI` as the 128-bit pair of multiply/divide result registers into which
a handler puts quotient (`a`, into `LO`) and remainder (`b`, into `HI`); `hi` selects the
upper 64-bit halves, used by the second pipeline, and is `false` by default. -/
def set_LO_HI (cpu : EmotionEngine) (a b : Nat) (hi : Bool) : EmotionEngine :=
  if hi then
    { cpu with LO := { cpu.LO with hi := a }, HI := { cpu.HI with hi := b } }
  else
    { cpu with LO := { cpu.LO with lo := a }, HI := { cpu.HI with lo := b } }

/-- Modelled from the spec: `EmotionEngine::jp(uint32_t new_addr)` is declared in
`emotion.hpp` but its body (in `emotion.cpp`) is not among the sources.  By the spec a
branch instruction sets a flag and a target and touches nothing else. -/
def jp (cpu : EmotionEngine) (new_addr : Nat) : EmotionEngine :=
  { cpu with branch_on := true, new_PC := new_addr }

end EmotionEngine

/-! ## EE SPECIAL-class handlers (`core/ee/interpreter/emotion_special.cpp`)

Signed 32-bit arithmetic wraps modulo 2^32, as the compiled code does on the host.
The C++ division operators are partial: `none` stands for the undefined cases. -/

namespace interpreter

/-- Result of a C++ `int32_t` computation whose mathematical value is `x`, wrapped to the
32-bit two's complement range. -/
def wrap_int32 (x : Int) : Int := signed32 (wrap32 x)

/-- The C++ expression `a / b` on `int32_t`: undefined for a zero divisor and for
`INT32_MIN / -1` (both trap on the host), otherwise truncated toward zero. -/
def idiv32 (a b : Int) : Option Int :=
  if b = 0 ∨ (a = -2147483648 ∧ b = -1) then none else some (Int.tdiv a b)

/-- The C++ expression `a % b` on `int32_t`, undefined where `a / b` is. -/
def imod32 (a b : Int) : Option Int :=
  if b = 0 ∨ (a = -2147483648 ∧ b = -1) then none else some (Int.tmod a b)

/-- The C++ expression `a / b` on `uint32_t`: undefined for a zero divisor. -/
def udiv32 (a b : Nat) : Option Nat := if b = 0 then none else some (a / b)

/-- The C++ expression `a % b` on `uint32_t`: undefined for a zero divisor. -/
def umod32 (a b : Nat) : Option Nat := if b = 0 then none else some (a % b)

/-- The field `(instruction >> 21) & 0x1F`. -/
def field_rs (instruction : Nat) : Nat := (instruction >>> 21) &&& 0x1F

/-- The field `(instruction >> 16) & 0x1F`. -/
def field_rt (instruction : Nat) : Nat := (instruction >>> 16) &&& 0x1F

/-- The field `(instruction >> 11) & 0x1F`. -/
def field_rd (instruction : Nat) : Nat := (instruction >>> 11) &&& 0x1F

/-- The field `(instruction >> 6) & 0x1F`. -/
def field_sa (instruction : Nat) : Nat := (instruction >>> 6) &&& 0x1F

/-- The handler `sll`: the `uint64_t` shift result is cast to `int32_t` and stored as `int64_t`. -/
def sll (cpu : EmotionEngine) (instruction : Nat) : EmotionEngine :=
  let source := cpu.get_gpr 4 (field_rt instruction) 0
  let source := (source <<< field_sa instruction) % 18446744073709551616
  cpu.set_gpr 8 (field_rd instruction) (sext32 source) 0

/-- The handler `srl`. -/
def srl (cpu : EmotionEngine) (instruction : Nat) : EmotionEngine :=
  let source := cpu.get_gpr 4 (field_rt instruction) 0
  let source := source >>> field_sa instruction
  cpu.set_gpr 8 (field_rd instruction) (sext32 source) 0

/-- The handler `sra`: an arithmetic shift of the `int32_t` view of `rt`. -/
def sra (cpu : EmotionEngine) (instruction : Nat) : EmotionEngine :=
  let source : Int := signed32 (cpu.get_gpr 4 (field_rt instruction) 0) >>> field_sa instruction
  cpu.set_gpr 8 (field_rd instruction) (wrap64 source) 0

/-- The handler `sllv`: a `uint32_t` shift by the low five bits of `rs`. -/
def sllv (cpu : EmotionEngine) (instruction : Nat) : EmotionEngine :=
  let source := cpu.get_gpr 4 (field_rt instruction) 0
  let source := (source <<< (cpu.get_gpr 1 (field_rs instruction) 0 &&& 0x1F)) % 4294967296
  cpu.set_gpr 8 (field_rd instruction) (sext32 source) 0

/-- The handler `srlv`. -/
def srlv (cpu : EmotionEngine) (instruction : Nat) : EmotionEngine :=
  let source := cpu.get_gpr 4 (field_rt instruction) 0
  let source := source >>> (cpu.get_gpr 1 (field_rs instruction) 0 &&& 0x1F)
  cpu.set_gpr 8 (field_rd instruction) (sext32 source) 0

/-- The handler `srav`. -/
def srav (cpu : EmotionEngine) (instruction : Nat) : EmotionEngine :=
  let source : Int := signed32 (cpu.get_gpr 4 (field_rt instruction) 0)
  let source : Int := source >>> (cpu.get_gpr 1 (field_rs instruction) 0 &&& 0x1F)
  cpu.set_gpr 8 (field_rd instruction) (wrap64 source) 0

/-- The handler `jalr`: the `uint32_t` return address is passed to `set_gpr<uint64_t>`. -/
def jalr (cpu : EmotionEngine) (instruction : Nat) : EmotionEngine :=
  let return_addr := (cpu.get_PC + 8) % 4294967296
  let cpu1 := cpu.jp (cpu.get_gpr 4 (field_rs instruction) 0)
  cpu1.set_gpr 8 (field_rd instruction) return_addr 0

/-- The guard `op1 == 0x80000000 && op2 == 0xFFFFFFFF` of `div`; both sides of each
comparison are converted to `unsigned int`. -/
def div_overflow_guard (op1 op2 : Int) : Bool :=
  wrap32 op1 = 0x80000000 && wrap32 op2 = 0xFFFFFFFF

/-- The handler `div`; `none` would mean that an undefined C++ division was evaluated. -/
def div (cpu : EmotionEngine) (instruction : Nat) : Option EmotionEngine :=
  let op1 : Int := signed32 (cpu.get_gpr 4 (field_rs instruction) 0)
  let op2 : Int := signed32 (cpu.get_gpr 4 (field_rt instruction) 0)
  if div_overflow_guard op1 op2 then
    some (cpu.set_LO_HI (sext32 0x80000000) 0 false)
  else if op2 ≠ 0 then
    match idiv32 op1 op2, imod32 op1 op2 with
    | some q, some r => some (cpu.set_LO_HI (wrap64 q) (wrap64 r) false)
    | _, _ => none
  else
    let lo : Int := if op1 ≥ 0 then -1 else 1
    some (cpu.set_LO_HI (wrap64 lo) (wrap64 op1) false)

/-- The handler `divu`; `none` would mean that an undefined C++ division was evaluated. -/
def divu (cpu : EmotionEngine) (instruction : Nat) : Option EmotionEngine :=
  let op1 := cpu.get_gpr 4 (field_rs instruction) 0
  let op2 := cpu.get_gpr 4 (field_rt instruction) 0
  if op2 ≠ 0 then
    match udiv32 op1 op2, umod32 op1 op2 with
    | some q, some r => some (cpu.set_LO_HI (sext32 q) (sext32 r) false)
    | _, _ => none
  else
    some (cpu.set_LO_HI (wrap64 (-1)) (sext32 op1) false)

/-- The handler `add`: operands are the `int64_t` registers truncated to `int32_t`. -/
def add (cpu : EmotionEngine) (instruction : Nat) : EmotionEngine :=
  let op1 : Int := signed32 (cpu.get_gpr 8 (field_rs instruction) 0)
  let op2 : Int := signed32 (cpu.get_gpr 8 (field_rt instruction) 0)
  let result : Int := wrap_int32 (op1 + op2)
  cpu.set_gpr 8 (field_rd instruction) (wrap64 result) 0

/-- The handler `addu`. -/
def addu (cpu : EmotionEngine) (instruction : Nat) : EmotionEngine :=
  let op1 : Int := signed32 (cpu.get_gpr 8 (field_rs instruction) 0)
  let op2 : Int := signed32 (cpu.get_gpr 8 (field_rt instruction) 0)
  let result : Int := wrap_int32 (op1 + op2)
  cpu.set_gpr 8 (field_rd instruction) (wrap64 result) 0

/-- The handler `sub`. -/
def sub (cpu : EmotionEngine) (instruction : Nat) : EmotionEngine :=
  let op1 : Int := signed32 (cpu.get_gpr 4 (field_rs instruction) 0)
  let op2 : Int := signed32 (cpu.get_gpr 4 (field_rt instruction) 0)
  let result : Int := wrap_int32 (op1 - op2)
  cpu.set_gpr 8 (field_rd instruction) (wrap64 result) 0

/-- The handler `subu`. -/
def subu (cpu : EmotionEngine) (instruction : Nat) : EmotionEngine :=
  let op1 : Int := signed32 (cpu.get_gpr 4 (field_rs instruction) 0)
  let op2 : Int := signed32 (cpu.get_gpr 4 (field_rt instruction) 0)
  let result : Int := wrap_int32 (op1 - op2)
  cpu.set_gpr 8 (field_rd instruction) (wrap64 result) 0

/-- The handler `dadd`: 64-bit addition; signed overflow wraps modulo 2^64. -/
def dadd (cpu : EmotionEngine) (instruction : Nat) : EmotionEngine :=
  let op1 : Int := signed64 (cpu.get_gpr 8 (field_rs instruction) 0)
  let op2 : Int := signed64 (cpu.get_gpr 8 (field_rt instruction) 0)
  cpu.set_gpr 8 (field_rd instruction) (wrap64 (op1 + op2)) 0

/-- The handler `daddu`. -/
def daddu (cpu : EmotionEngine) (instruction : Nat) : EmotionEngine :=
  let op1 : Int := signed64 (cpu.get_gpr 8 (field_rs instruction) 0)
  let op2 : Int := signed64 (cpu.get_gpr 8 (field_rt instruction) 0)
  cpu.set_gpr 8 (field_rd instruction) (wrap64 (op1 + op2)) 0

/-- The handler `dsub`. -/
def dsub (cpu : EmotionEngine) (instruction : Nat) : EmotionEngine :=
  let op1 : Int := signed64 (cpu.get_gpr 8 (field_rs instruction) 0)
  let op2 : Int := signed64 (cpu.get_gpr 8 (field_rt instruction) 0)
  cpu.set_gpr 8 (field_rd instruction) (wrap64 (op1 - op2)) 0

/-- The handler `dsubu`. -/
def dsubu (cpu : EmotionEngine) (instruction : Nat) : EmotionEngine :=
  let op1 : Int := signed64 (cpu.get_gpr 8 (field_rs instruction) 0)
  let op2 : Int := signed64 (cpu.get_gpr 8 (field_rt instruction) 0)
  cpu.set_gpr 8 (field_rd instruction) (wrap64 (op1 - op2)) 0

/-- The handler `dsll`: a 64-bit shift left by the `sa` field. -/
def dsll (cpu : EmotionEngine) (instruction : Nat) : EmotionEngine :=
  let source := cpu.get_gpr 8 (field_rt instruction) 0
  cpu.set_gpr 8 (field_rd instruction)
    ((source <<< field_sa instruction) % 18446744073709551616) 0

/-- The handler `dsrl`. -/
def dsrl (cpu : EmotionEngine) (instruction : Nat) : EmotionEngine :=
  let source := cpu.get_gpr 8 (field_rt instruction) 0
  cpu.set_gpr 8 (field_rd instruction) (source >>> field_sa instruction) 0

/-- The handler `dsra`. -/
def dsra (cpu : EmotionEngine) (instruction : Nat) : EmotionEngine :=
  let source : Int := signed64 (cpu.get_gpr 8 (field_rt instruction) 0)
  cpu.set_gpr 8 (field_rd instruction) (wrap64 (source >>> field_sa instruction)) 0

/-- The handler `dsll32`. -/
def dsll32 (cpu : EmotionEngine) (instruction : Nat) : EmotionEngine :=
  let source := cpu.get_gpr 8 (field_rt instruction) 0
  cpu.set_gpr 8 (field_rd instruction)
    ((source <<< (field_sa instruction + 32)) % 18446744073709551616) 0

/-- The handler `dsrl32`. -/
def dsrl32 (cpu : EmotionEngine) (instruction : Nat) : EmotionEngine :=
  let source := cpu.get_gpr 8 (field_rt instruction) 0
  cpu.set_gpr 8 (field_rd instruction) (source >>> (field_sa instruction + 32)) 0

/-- The handler `dsra32`. -/
def dsra32 (cpu : EmotionEngine) (instruction : Nat) : EmotionEngine :=
  let source : Int := signed64 (cpu.get_gpr 8 (field_rt instruction) 0)
  cpu.set_gpr 8 (field_rd instruction) (wrap64 (source >>> (field_sa instruction + 32))) 0

/-! ### The decoder `special` -/

/-- The functions that `special` can put in `info.interpreter_fn`. -/
inductive Handler where
  | sll | srl | sra | sllv | srlv | srav | jr | jalr | movz | movn | syscall_ee | break_ee
  | nop | mfhi | mthi | mflo | mtlo | dsllv | dsrlv | dsrav | mult | multu | div | divu
  | add | addu | sub | subu | and_ee | or_ee | xor_ee | nor | mfsa | mtsa | slt | sltu
  | dadd | daddu | dsub | dsubu | teq | dsll | dsrl | dsra | dsll32 | dsrl32 | dsra32
  deriving DecidableEq, Repr

/-- The enumeration `EE_InstrInfo::Pipeline`, as far as `special` uses it. -/
inductive Pipeline where
  | Unknown | IntGeneric | Branch | COP0 | SYNC | MAC0 | SA
  deriving DecidableEq, Repr

/-- The enumeration `EE_InstrInfo::InstructionType`, as far as `special` uses it. -/
inductive InstructionType where
  | OTHER | MULT | DIV
  deriving DecidableEq, Repr

/-- The enumeration `DependencyType`. -/
inductive DependencyType where
  | Read | Write
  deriving DecidableEq, Repr

/-- One record made by `info.add_dependency(type, RegType::GPR, index)`. -/
structure Dependency where
  type : DependencyType
  index : Nat
  deriving DecidableEq, Repr

/-- The descriptor `EE_InstrInfo`, as far as `special` fills it. -/
structure EE_InstrInfo where
  interpreter_fn : Option Handler
  pipeline : Pipeline
  throughput : Nat
  latency : Nat
  instruction_type : InstructionType
  dependencies : List Dependency
  deriving DecidableEq, Repr

/-- The values `(uint8_t)Registers::LO0`, `HI0` and `SA`; the enumeration is declared in a
header that is not among the sources, so its values are parameters. -/
structure Registers where
  LO0 : Nat
  HI0 : Nat
  SA : Nat

/-- The call `info.add_dependency(type, RegType::GPR, index)`. -/
def EE_InstrInfo.add_dependency (info : EE_InstrInfo) (type : DependencyType) (index : Nat) :
    EE_InstrInfo :=
  { info with dependencies := info.dependencies ++ [{ type := type, index := index }] }

/-- The shape shared by most cases of `special`: `Write rd`, `Read rt`, `Read rs`. -/
def three_operand (info : EE_InstrInfo) (h : Handler) (instruction : Nat) : EE_InstrInfo :=
  (({ info with interpreter_fn := some h, pipeline := Pipeline.IntGeneric }.add_dependency
      DependencyType.Write (field_rd instruction)).add_dependency
      DependencyType.Read (field_rt instruction)).add_dependency
      DependencyType.Read (field_rs instruction)

/-- The shape of the cases `SLL`, `SRL`, `SRA` of `special`: `Write rd`, `Read rt`. -/
def two_operand (info : EE_InstrInfo) (h : Handler) (instruction : Nat) : EE_InstrInfo :=
  ({ info with interpreter_fn := some h, pipeline := Pipeline.IntGeneric }.add_dependency
      DependencyType.Write (field_rd instruction)).add_dependency
      DependencyType.Read (field_rt instruction)

/-- The decoder `special` (lines 9-342): the `switch` on `instruction & 0x3F`; `none` is the
`default` case, which ends in `unknown_op`. -/
def special (regs : Registers) (info : EE_InstrInfo) (instruction : Nat) : Option EE_InstrInfo :=
  let op := instruction &&& 0x3F
  if op = 0x00 then some (two_operand info Handler.sll instruction)
  else if op = 0x02 then some (two_operand info Handler.srl instruction)
  else if op = 0x03 then some (two_operand info Handler.sra instruction)
  else if op = 0x04 then some (three_operand info Handler.sllv instruction)
  else if op = 0x06 then some (three_operand info Handler.srlv instruction)
  else if op = 0x07 then some (three_operand info Handler.srav instruction)
  else if op = 0x08 then
    some ({ info with interpreter_fn := some Handler.jr, pipeline := Pipeline.Branch }.add_dependency
      DependencyType.Read (field_rs instruction))
  else if op = 0x09 then
    some ({ info with interpreter_fn := some Handler.jalr, pipeline := Pipeline.Branch }.add_dependency
      DependencyType.Read (field_rs instruction))
  else if op = 0x0A then some (three_operand info Handler.movz instruction)
  else if op = 0x0B then some (three_operand info Handler.movn instruction)
  else if op = 0x0C then
    some { info with interpreter_fn := some Handler.syscall_ee, pipeline := Pipeline.COP0 }
  else if op = 0x0D then
    some { info with interpreter_fn := some Handler.break_ee, pipeline := Pipeline.COP0 }
  else if op = 0x0F then
    some { info with interpreter_fn := some Handler.nop, pipeline := Pipeline.SYNC }
  else if op = 0x10 then
    some (({ info with interpreter_fn := some Handler.mfhi, pipeline := Pipeline.MAC0 }.add_dependency
      DependencyType.Write (field_rd instruction)).add_dependency DependencyType.Read regs.HI0)
  else if op = 0x11 then
    some (({ info with interpreter_fn := some Handler.mthi, pipeline := Pipeline.MAC0 }.add_dependency
      DependencyType.Write regs.HI0).add_dependency DependencyType.Read (field_rs instruction))
  else if op = 0x12 then
    some (({ info with interpreter_fn := some Handler.mflo, pipeline := Pipeline.MAC0 }.add_dependency
      DependencyType.Write (field_rd instruction)).add_dependency DependencyType.Read regs.LO0)
  else if op = 0x13 then
    some (({ info with interpreter_fn := some Handler.mtlo, pipeline := Pipeline.MAC0 }.add_dependency
      DependencyType.Write regs.LO0).add_dependency DependencyType.Read (field_rs instruction))
  else if op = 0x14 then some (three_operand info Handler.dsllv instruction)
  else if op = 0x16 then some (three_operand info Handler.dsrlv instruction)
  else if op = 0x17 then some (three_operand info Handler.dsrav instruction)
  else if op = 0x18 ∨ op = 0x19 then
    some ((((({ info with
        interpreter_fn := some (if op = 0x18 then Handler.mult else Handler.multu),
        pipeline := Pipeline.MAC0, throughput := 2, latency := 4,
        instruction_type := InstructionType.MULT }.add_dependency
      DependencyType.Write regs.LO0).add_dependency
      DependencyType.Write regs.HI0).add_dependency
      DependencyType.Write (field_rd instruction)).add_dependency
      DependencyType.Read (field_rs instruction)).add_dependency
      DependencyType.Read (field_rt instruction))
  else if op = 0x1A ∨ op = 0x1B then
    some (((({ info with
        interpreter_fn := some (if op = 0x1A then Handler.div else Handler.divu),
        pipeline := Pipeline.MAC0, throughput := 37, latency := 37,
        instruction_type := InstructionType.DIV }.add_dependency
      DependencyType.Write regs.LO0).add_dependency
      DependencyType.Write regs.HI0).add_dependency
      DependencyType.Read (field_rs instruction)).add_dependency
      DependencyType.Read (field_rt instruction))
  else if op = 0x20 then some (three_operand info Handler.add instruction)
  else if op = 0x21 then some (three_operand info Handler.addu instruction)
  else if op = 0x22 then some (three_operand info Handler.sub instruction)
  else if op = 0x23 then some (three_operand info Handler.subu instruction)
  else if op = 0x24 then some (three_operand info Handler.and_ee instruction)
  else if op = 0x25 then some (three_operand info Handler.or_ee instruction)
  else if op = 0x26 then some (three_operand info Handler.xor_ee instruction)
  else if op = 0x27 then some (three_operand info Handler.nor instruction)
  else if op = 0x28 then
    some (({ info with interpreter_fn := some Handler.mfsa, pipeline := Pipeline.SA }.add_dependency
      DependencyType.Write (field_rd instruction)).add_dependency DependencyType.Read regs.SA)
  else if op = 0x29 then
    some (({ info with interpreter_fn := some Handler.mtsa, pipeline := Pipeline.SA }.add_dependency
      DependencyType.Write regs.SA).add_dependency DependencyType.Read (field_rs instruction))
  else if op = 0x2A then some (three_operand info Handler.slt instruction)
  else if op = 0x2B then some (three_operand info Handler.sltu instruction)
  else if op = 0x2C then some (three_operand info Handler.dadd instruction)
  else if op = 0x2D then some (three_operand info Handler.daddu instruction)
  else if op = 0x2E then some (three_operand info Handler.dsub instruction)
  else if op = 0x2F then some (three_operand info Handler.dsubu instruction)
  else if op = 0x34 then
    some (({ info with interpreter_fn := some Handler.teq, pipeline := Pipeline.COP0 }.add_dependency
      DependencyType.Read (field_rt instruction)).add_dependency
      DependencyType.Read (field_rs instruction))
  else if op = 0x38 then some (three_operand info Handler.dsll instruction)
  else if op = 0x3A then some (three_operand info Handler.dsrl instruction)
  else if op = 0x3B then some (three_operand info Handler.dsra instruction)
  else if op = 0x3C then some (three_operand info Handler.dsll32 instruction)
  else if op = 0x3E then some (three_operand info Handler.dsrl32 instruction)
  else if op = 0x3F then some (three_operand info Handler.dsra32 instruction)
  else none

/-- A fresh descriptor for tests: nothing selected, no dependency recorded. -/
def bench_info : EE_InstrInfo where
  interpreter_fn := none
  pipeline := Pipeline.Unknown
  throughput := 1
  latency := 1
  instruction_type := InstructionType.OTHER
  dependencies := []

/-- Register numbers for tests, outside the 32 general registers. -/
def bench_registers : Registers := { LO0 := 32, HI0 := 33, SA := 34 }

end interpreter

/-- The ten handlers with a 32-bit result. -/
inductive Alu32 where
  | SLL | SRL | SRA | SLLV | SRLV | SRAV | ADD | ADDU | SUB | SUBU
  deriving DecidableEq, Repr

/-- The handler that `special` selects for each 32-bit operation. -/
def Alu32.handler : Alu32 → EmotionEngine → Nat → EmotionEngine
  | .SLL => interpreter.sll
  | .SRL => interpreter.srl
  | .SRA => interpreter.sra
  | .SLLV => interpreter.sllv
  | .SRLV => interpreter.srlv
  | .SRAV => interpreter.srav
  | .ADD => interpreter.add
  | .ADDU => interpreter.addu
  | .SUB => interpreter.sub
  | .SUBU => interpreter.subu

/-- The architectural 32-bit result of each operation, written from the instruction set
rather than from the handlers: `rs32` and `rt32` are the low words of the source
registers, `sa` the shift-amount field; arithmetic is modulo 2^32, variable shifts use
the low five bits of `rs`, and `SRA`/`SRAV` shift the signed value with rounding down. -/
def Alu32.result32 (op : Alu32) (rs32 rt32 sa : Nat) : Nat :=
  match op with
  | .SLL => (rt32 * 2 ^ sa) % 4294967296
  | .SRL => rt32 / 2 ^ sa
  | .SRA => wrap32 (signed32 rt32 / ((2 ^ sa : Nat) : Int))
  | .SLLV => (rt32 * 2 ^ (rs32 % 32)) % 4294967296
  | .SRLV => rt32 / 2 ^ (rs32 % 32)
  | .SRAV => wrap32 (signed32 rt32 / ((2 ^ (rs32 % 32) : Nat) : Int))
  | .ADD => (rs32 + rt32) % 4294967296
  | .ADDU => (rs32 + rt32) % 4294967296
  | .SUB => (rs32 + 4294967296 - rt32) % 4294967296
  | .SUBU => (rs32 + 4294967296 - rt32) % 4294967296

/-- A register file for tests: `r1 = -5`, `r2 = 0`, `r3 = 0x80000000`, `r4 = -1` as 32-bit
values in the low words, everything else zero; `PC` is the BIOS reset vector. -/
def bench_cpu : EmotionEngine where
  cycle_count := 0
  cycles_to_run := 0
  gpr := storeLE (storeLE (storeLE (fun _ => 0) 16 4 0xFFFFFFFB) 48 4 0x80000000) 64 4 0xFFFFFFFF
  LO := { lo := 0, hi := 0 }
  HI := { lo := 0, hi := 0 }
  PC := 0xBFC00000
  new_PC := 0
  SA := 0
  wait_for_IRQ := false
  branch_on := false
  delay_slot := 0
  icache := fun _ => 0
  deci2handlers := fun _ => 0
  deci2size := 0

end ee

/-! ## IOP processor state (`core/iop/iop.hpp`) -/

namespace iop

/-- The bits of `cop0.status` that `iop.cpp` reads or writes. -/
structure Cop0Status where
  IEc : Bool
  KUc : Bool
  IEp : Bool
  KUp : Bool
  IEo : Bool
  KUo : Bool
  Im : Nat
  IsC : Bool
  deriving DecidableEq, Repr

/-- The fields of `cop0.cause` that `iop.cpp` reads or writes. -/
structure Cop0Cause where
  code : Nat
  int_pending : Nat
  bd : Bool
  deriving DecidableEq, Repr

/-- The part of `iop::Cop0` used by the processor core. -/
structure Cop0 where
  status : Cop0Status
  cause : Cop0Cause
  EPC : Nat
  deriving DecidableEq, Repr

/-- One line of the IOP instruction cache (`struct IOP_ICacheLine`). -/
structure IOP_ICacheLine where
  valid : Bool
  tag : Nat
  deriving DecidableEq, Repr

/-- The data members of `class IOP`. -/
structure IOP where
  cop0 : Cop0
  /-- The array `uint32_t gpr[32]`. -/
  gpr : Nat → Nat
  PC : Nat
  LO : Nat
  HI : Nat
  /-- The 2 MiB array `uint8_t* ram`. -/
  ram : Nat → Nat
  scratchpad : Nat → Nat
  scratchpad_start : Nat
  icache : Nat → IOP_ICacheLine
  new_PC : Nat
  cache_control : Nat
  branch_delay : Int
  can_disassemble : Bool
  will_branch : Bool
  wait_for_IRQ : Bool
  muldiv_delay : Int
  cycles_to_run : Int

namespace IOP

/-- The getter `uint32_t IOP::get_gpr(int index)`. -/
def get_gpr (cpu : IOP) (index : Nat) : Nat := cpu.gpr index

/-- The setter `void IOP::set_gpr(int index, uint32_t value)`: `if (index) gpr[index] = value;`. -/
def set_gpr (cpu : IOP) (index value : Nat) : IOP :=
  if index ≠ 0 then
    { cpu with gpr := fun i => if i = index then value else cpu.gpr i }
  else cpu

/-- The method `IOP::translate_addr`: KSEG0 and KSEG1 are mapped onto physical addresses. -/
def translate_addr (addr : Nat) : Nat :=
  if addr ≥ 0x80000000 ∧ addr < 0xA0000000 then addr - 0x80000000
  else if addr ≥ 0xA0000000 ∧ addr < 0xC0000000 then addr - 0xA0000000
  else addr

/-- The method `IOP::halt`. -/
def halt (cpu : IOP) : IOP := { cpu with wait_for_IRQ := true }

/-- The method `IOP::unhalt`. -/
def unhalt (cpu : IOP) : IOP := { cpu with wait_for_IRQ := false }

/-- The method `IOP::get_LO`: a pending multiply/divide latency is charged to the cycle
budget before `LO` is returned. -/
def get_LO (cpu : IOP) : Nat × IOP :=
  if cpu.muldiv_delay ≠ 0 then
    (cpu.LO, { cpu with cycles_to_run := cpu.cycles_to_run - cpu.muldiv_delay, muldiv_delay := 0 })
  else (cpu.LO, cpu)

/-- The method `IOP::get_HI`. -/
def get_HI (cpu : IOP) : Nat × IOP :=
  if cpu.muldiv_delay ≠ 0 then
    (cpu.HI, { cpu with cycles_to_run := cpu.cycles_to_run - cpu.muldiv_delay, muldiv_delay := 0 })
  else (cpu.HI, cpu)

/-- The method `IOP::set_muldiv_delay`. -/
def set_muldiv_delay (cpu : IOP) (delay : Int) : IOP :=
  let cpu1 := if cpu.muldiv_delay ≠ 0 then
      { cpu with cycles_to_run := cpu.cycles_to_run - cpu.muldiv_delay }
    else cpu
  { cpu1 with muldiv_delay := delay }

/-- The method `IOP::jp`: a jump is recorded only when no branch is pending. -/
def jp (cpu : IOP) (addr : Nat) : IOP :=
  if ¬ cpu.will_branch then
    { cpu with new_PC := addr, will_branch := true, branch_delay := 1 }
  else cpu

/-- The method `IOP::branch`: `if (condition) jp(PC + offset + 4);` in `uint32_t` arithmetic. -/
def branch (cpu : IOP) (condition : Bool) (offset : Int) : IOP :=
  if condition then cpu.jp (wrap32 ((cpu.PC : Int) + offset + 4)) else cpu

/-- The method `IOP::handle_exception`. -/
def handle_exception (cpu : IOP) (addr cause : Nat) : IOP :=
  let cause1 : Cop0Cause := { cpu.cop0.cause with code := cause }
  let epc_bd : Nat × Bool :=
    if cpu.will_branch then (wrap32 ((cpu.PC : Int) - 4), true) else (cpu.PC, false)
  let status1 : Cop0Status :=
    { cpu.cop0.status with IEo := cpu.cop0.status.IEp, IEp := cpu.cop0.status.IEc, IEc := false }
  { cpu with
    cop0 := { status := status1, cause := { cause1 with bd := epc_bd.2 }, EPC := epc_bd.1 }
    PC := wrap32 ((addr : Int) - 4)
    branch_delay := 0
    will_branch := false }

/-- The method `IOP::syscall_exception`. -/
def syscall_exception (cpu : IOP) : IOP := cpu.handle_exception 0x80000080 0x08

/-- The method `IOP::interrupt_check`: bit 2 of `cause.int_pending` follows the line. -/
def interrupt_check (cpu : IOP) (i_pass : Bool) : IOP :=
  let pending := cpu.cop0.cause.int_pending
  let pending1 := if i_pass then pending ||| 0x4 else pending - (pending &&& 0x4)
  { cpu with cop0 := { cpu.cop0 with cause := { cpu.cop0.cause with int_pending := pending1 } } }

/-- The method `IOP::interrupt` (the log line is not modelled). -/
def interrupt (cpu : IOP) : IOP := (cpu.handle_exception 0x80000084 0x00).unhalt

/-- The method `IOP::rfe`. -/
def rfe (cpu : IOP) : IOP :=
  let s := cpu.cop0.status
  { cpu with cop0 := { cpu.cop0 with
      status := { s with KUc := s.KUp, KUp := s.KUo, IEc := s.IEp, IEp := s.IEo } } }

end IOP

/-- What `IOP::run` reaches outside `iop.cpp`, taken as parameters over an arbitrary
state `E` of the rest of the machine: the bus read `Emulator::iop_read32`, the
instruction interpreter `interpreter::interpret` (`none` when it ends in `Errors::die`)
and the logging hook `Emulator::iop_puts`. -/
structure Collaborators (E : Type) where
  iop_read32 : IOP → E → Nat → Nat × E
  interpret : IOP → E → Nat → Option (IOP × E)
  iop_puts : IOP → E → E
  /-- The bus read `Emulator::iop_read8`. -/
  iop_read8 : IOP → E → Nat → Nat × E
  /-- The bus read `Emulator::iop_read16`. -/
  iop_read16 : IOP → E → Nat → Nat × E
  /-- The bus write `Emulator::iop_write8`; it may store into `iop->ram`. -/
  iop_write8 : IOP → E → Nat → Nat → IOP × E
  /-- The bus write `Emulator::iop_write16`. -/
  iop_write16 : IOP → E → Nat → Nat → IOP × E
  /-- The bus write `Emulator::iop_write32`. -/
  iop_write32 : IOP → E → Nat → Nat → IOP × E

/-- The processor together with the rest of the machine.  The list `executed` is an
observation added to the model: the (address, word) pairs handed to the interpreter,
oldest first. -/
structure Machine (E : Type) where
  cpu : IOP
  env : E
  executed : List (Nat × Nat)

/-- Outcome of a bounded run: a final state, a fatal `Errors::die`, or an exhausted
iteration bound of the model. -/
inductive RunResult (α : Type) where
  | ok : α → RunResult α
  | die : RunResult α
  | out_of_fuel : RunResult α

/-- The method `IOP::read_instr`: an uncached fetch costs four cycles; the word comes from
the bus at `addr & 0x1FFFFFFF` (the instruction-cache code is commented out in the source). -/
def read_instr {E : Type} (b : Collaborators E) (cpu : IOP) (env : E) (addr : Nat) :
    Nat × IOP × E :=
  let cpu1 :=
    if addr ≥ 0xA0000000 ∨ (cpu.cache_control &&& (1 <<< 11)) = 0 then
      { cpu with cycles_to_run := cpu.cycles_to_run - 4,
                 muldiv_delay := max (cpu.muldiv_delay - 4) 0 }
    else cpu
  let r := b.iop_read32 cpu1 env (addr &&& 0x1FFFFFFF)
  (r.1, cpu1, r.2)

/-- First part of one iteration of the loop of `IOP::run` (lines 61-64): the cycle is
charged, the multiply/divide latency counts down and the word at `PC` is fetched. -/
def fetch_phase {E : Type} (b : Collaborators E) (m : Machine E) : Nat × Machine E :=
  let cpu1 := { m.cpu with cycles_to_run := m.cpu.cycles_to_run - 1 }
  let cpu2 := if cpu1.muldiv_delay > 0 then
      { cpu1 with muldiv_delay := cpu1.muldiv_delay - 1 }
    else cpu1
  let r := read_instr b cpu2 m.env cpu2.PC
  (r.1, { cpu := r.2.1, env := r.2.2, executed := m.executed ++ [(cpu2.PC, r.1)] })

/-- Last part of one iteration (lines 79-94): `PC += 4`, then a pending branch is either
applied (fatal when the target is misaligned) or its delay counts down. -/
def advance (cpu : IOP) : Option IOP :=
  let cpu1 := { cpu with PC := (cpu.PC + 4) % 4294967296 }
  if cpu1.will_branch then
    if cpu1.branch_delay = 0 then
      let cpu2 := { cpu1 with will_branch := false, PC := cpu1.new_PC }
      if cpu2.PC &&& 0x3 ≠ 0 then none else some cpu2
    else some { cpu1 with branch_delay := cpu1.branch_delay - 1 }
  else some cpu1

/-- What the interpreter makes of the instruction at the current `PC`: the state handed
back by `interpreter::interpret` in this iteration, before `PC` is advanced. -/
def exec_result {E : Type} (b : Collaborators E) (m : Machine E) : Option (IOP × E) :=
  b.interpret (fetch_phase b m).2.cpu (fetch_phase b m).2.env (fetch_phase b m).1

/-- One iteration of the loop of `IOP::run` (lines 61-94). -/
def step {E : Type} (b : Collaborators E) (m : Machine E) : Option (Machine E) :=
  match exec_result b m with
  | none => none
  | some (cpu1, env1) =>
    let env2 :=
      if cpu1.PC = 0x00012C48 ∨ cpu1.PC = 0x0001420C ∨ cpu1.PC = 0x0001430C then
        b.iop_puts cpu1 env1
      else env1
    match advance cpu1 with
    | none => none
    | some cpu2 => some { cpu := cpu2, env := env2, executed := (fetch_phase b m).2.executed }

/-- The loop `while (cycles_to_run > 0)` of `IOP::run`, at most `fuel` iterations. -/
def run_loop {E : Type} (b : Collaborators E) : Nat → Machine E → RunResult (Machine E)
  | 0, m => if m.cpu.cycles_to_run > 0 then RunResult.out_of_fuel else RunResult.ok m
  | fuel + 1, m =>
    if m.cpu.cycles_to_run > 0 then
      match step b m with
      | none => RunResult.die
      | some m1 => run_loop b fuel m1
    else RunResult.ok m

/-- The interrupt test that ends `IOP::run` (lines 100-101). -/
def interrupt_poll (cpu : IOP) : IOP :=
  if cpu.cop0.status.IEc ∧ (cpu.cop0.status.Im &&& cpu.cop0.cause.int_pending) ≠ 0 then
    cpu.interrupt
  else cpu

/-- The method `IOP::run(int cycles)`, its loop bounded by `fuel` iterations. -/
def run {E : Type} (b : Collaborators E) (fuel : Nat) (m : Machine E) (cycles : Int) :
    RunResult (Machine E) :=
  if ¬ m.cpu.wait_for_IRQ then
    match run_loop b fuel { m with cpu := { m.cpu with cycles_to_run := m.cpu.cycles_to_run + cycles } } with
    | RunResult.ok m1 => RunResult.ok { m1 with cpu := interrupt_poll m1.cpu }
    | RunResult.die => RunResult.die
    | RunResult.out_of_fuel => RunResult.out_of_fuel
  else
    let cpu1 := if m.cpu.muldiv_delay ≠ 0 then
        { m.cpu with muldiv_delay := m.cpu.muldiv_delay - 1 }
      else m.cpu
    RunResult.ok { m with cpu := interrupt_poll cpu1 }

/-- Outcome of a memory access of the processor: it returns a value in a state, or it
ends in `Errors::die` in the state reached by then. -/
inductive Access (σ : Type) (α : Type) where
  | ok : α → σ → Access σ α
  | die : σ → Access σ α

/-- The method `IOP::read8`. -/
def read8 {E : Type} (b : Collaborators E) (cpu : IOP) (env : E) (addr : Nat) : Access E Nat :=
  Access.ok (b.iop_read8 cpu env (IOP.translate_addr addr)).1
    (b.iop_read8 cpu env (IOP.translate_addr addr)).2

/-- The method `IOP::read16`: fatal for an odd address, before the bus is reached. -/
def read16 {E : Type} (b : Collaborators E) (cpu : IOP) (env : E) (addr : Nat) : Access E Nat :=
  if addr &&& 0x1 ≠ 0 then Access.die env
  else Access.ok (b.iop_read16 cpu env (IOP.translate_addr addr)).1
    (b.iop_read16 cpu env (IOP.translate_addr addr)).2

/-- The method `IOP::read32`: fatal for an address with a low bit set; `0xFFFE0130` is the
cache control register of the processor. -/
def read32 {E : Type} (b : Collaborators E) (cpu : IOP) (env : E) (addr : Nat) : Access E Nat :=
  if addr &&& 0x3 ≠ 0 then Access.die env
  else if addr = 0xFFFE0130 then Access.ok cpu.cache_control env
  else Access.ok (b.iop_read32 cpu env (IOP.translate_addr addr)).1
    (b.iop_read32 cpu env (IOP.translate_addr addr)).2

/-- The method `IOP::write8`: nothing is written while the cache is isolated. -/
def write8 {E : Type} (b : Collaborators E) (cpu : IOP) (env : E) (addr value : Nat) :
    Access (IOP × E) Unit :=
  if cpu.cop0.status.IsC then Access.ok () (cpu, env)
  else Access.ok () (b.iop_write8 cpu env (IOP.translate_addr addr) value)

/-- The method `IOP::write16`: the test of `IsC` comes before the alignment test. -/
def write16 {E : Type} (b : Collaborators E) (cpu : IOP) (env : E) (addr value : Nat) :
    Access (IOP × E) Unit :=
  if cpu.cop0.status.IsC then Access.ok () (cpu, env)
  else if addr &&& 0x1 ≠ 0 then Access.die (cpu, env)
  else Access.ok () (b.iop_write16 cpu env (IOP.translate_addr addr) value)

/-- The method `IOP::write32`: with the cache isolated the line `(addr >> 4) & 0xFF` of the
instruction cache is invalidated and nothing else happens; otherwise the alignment is
tested, a write to `0xFFFE0130` sets `cache_control`, and the bus is written. -/
def write32 {E : Type} (b : Collaborators E) (cpu : IOP) (env : E) (addr value : Nat) :
    Access (IOP × E) Unit :=
  if cpu.cop0.status.IsC then
    Access.ok ()
      ({ cpu with icache := fun i =>
          if i = (addr >>> 4) &&& 0xFF then { cpu.icache i with valid := false }
          else cpu.icache i }, env)
  else if addr &&& 0x3 ≠ 0 then Access.die (cpu, env)
  else
    let cpu1 := if addr = 0xFFFE0130 then { cpu with cache_control := value } else cpu
    Access.ok () (b.iop_write32 cpu1 env (IOP.translate_addr addr) value)

/-! ### A small IOP test bench -/

/-- A test interpreter: the word 1 is a jump to `0x200`, every other word does nothing. -/
def bench_collaborators : Collaborators Unit where
  iop_read32 := fun _ env addr => (if addr = 0x100 then 1 else 0, env)
  interpret := fun cpu env instr => some (if instr = 1 then cpu.jp 0x200 else cpu, env)
  iop_puts := fun _ env => env
  iop_read8 := fun cpu env addr => (cpu.ram addr % 256, env)
  iop_read16 := fun cpu env addr => (loadLE cpu.ram addr 2, env)
  iop_write8 := fun cpu env addr value => ({ cpu with ram := storeLE cpu.ram addr 1 value }, env)
  iop_write16 := fun cpu env addr value => ({ cpu with ram := storeLE cpu.ram addr 2 value }, env)
  iop_write32 := fun cpu env addr value => ({ cpu with ram := storeLE cpu.ram addr 4 value }, env)

/-- A processor at `PC = 0x100` with ten cycles of budget, cached fetches and nothing pending. -/
def bench_iop : IOP where
  cop0 := { status := { IEc := false, KUc := false, IEp := false, KUp := false,
                        IEo := false, KUo := false, Im := 0, IsC := false },
            cause := { code := 0, int_pending := 0, bd := false },
            EPC := 0 }
  gpr := fun _ => 0
  PC := 0x100
  LO := 0
  HI := 0
  ram := fun _ => 0
  scratchpad := fun _ => 0
  scratchpad_start := 0x1F800000
  icache := fun _ => { valid := false, tag := 0 }
  new_PC := 0
  cache_control := 0x800
  branch_delay := 0
  can_disassemble := false
  will_branch := false
  wait_for_IRQ := false
  muldiv_delay := 0
  cycles_to_run := 10

/-- The test bench before the jump at `0x100` is executed. -/
def bench_machine : Machine Unit := { cpu := bench_iop, env := (), executed := [] }

/-- The test bench after the jump at `0x100`: the branch to `0x200` is pending. -/
def bench_machine1 : Machine Unit :=
  { cpu := { bench_iop with cycles_to_run := 9, PC := 0x104, new_PC := 0x200,
                            will_branch := true, branch_delay := 0 },
    env := (), executed := [(0x100, 1)] }

/-- The test bench halted (`wait_for_IRQ` set) with a multiply/divide latency of 3. -/
def bench_halted : Machine Unit :=
  { cpu := { bench_iop with wait_for_IRQ := true, muldiv_delay := 3 }, env := (), executed := [] }

/-- The test bench halted with interrupts enabled and interrupt line 2 pending. -/
def bench_halted_irq : Machine Unit :=
  { cpu := { bench_iop with
      wait_for_IRQ := true,
      cop0 := { bench_iop.cop0 with
        status := { bench_iop.cop0.status with IEc := true, Im := 0x4 },
        cause := { bench_iop.cop0.cause with int_pending := 0x4 } } },
    env := (), executed := [] }

/-- The test processor with the cache isolated (`IsC` set) and every cache line valid. -/
def bench_iop_isolated : IOP :=
  { bench_iop with
    cop0 := { bench_iop.cop0 with status := { bench_iop.cop0.status with IsC := true } },
    icache := fun _ => { valid := true, tag := 0 } }

/-- A test interpreter whose word 1 is a jump to the misaligned address `0x202`. -/
def bench_collaborators_misaligned : Collaborators Unit :=
  { bench_collaborators with
    interpret := fun cpu env instr => some (if instr = 1 then cpu.jp 0x202 else cpu, env) }

/-- A test interpreter whose word 1 is the `syscall` instruction: its handler calls
`syscall_exception`. -/
def bench_collaborators_syscall : Collaborators Unit :=
  { bench_collaborators with
    interpret := fun cpu env instr => some (if instr = 1 then cpu.syscall_exception else cpu, env) }

/-- The test bench running at `PC = 0x104` with an empty cycle budget, interrupts enabled
and interrupt line 2 pending. -/
def bench_running_irq : Machine Unit :=
  { cpu := { bench_iop with
      cycles_to_run := 0,
      PC := 0x104,
      cop0 := { bench_iop.cop0 with
        status := { bench_iop.cop0.status with IEc := true, Im := 0x4 },
        cause := { bench_iop.cop0.cause with int_pending := 0x4 } } },
    env := (), executed := [] }

/-- The test bench before the jump at `0x100`, with an empty cycle budget, interrupts
enabled and interrupt line 2 pending. -/
def bench_jump_irq : Machine Unit :=
  { bench_running_irq with cpu := { bench_running_irq.cpu with PC := 0x100 } }

/-- The assumption on the instruction handlers under which the cycle budget bounds a
run: started with a non-negative multiply/divide latency, a handler that returns has not
raised `cycles_to_run` and leaves a non-negative latency. -/
def handlers_keep_budget {E : Type} (b : Collaborators E) : Prop :=
  ∀ (cpu : IOP) (env : E) (instr : Nat) (cpu1 : IOP) (env1 : E),
    0 ≤ cpu.muldiv_delay → b.interpret cpu env instr = some (cpu1, env1) →
    cpu1.cycles_to_run ≤ cpu.cycles_to_run ∧ 0 ≤ cpu1.muldiv_delay

/-- The test processor in user mode under a kernel-mode history: `KUc` is set, `KUp` and
`KUo` are clear. -/
def bench_iop_user : IOP :=
  { bench_iop with
    cop0 := { bench_iop.cop0 with status := { bench_iop.cop0.status with KUc := true } } }

end iop

/-! ## EE physical bus and interlock (`core/emulator.cpp`)

The peripherals behind the bus (timers, GS, DMAC, vector units, ...) are classes
outside `emulator.cpp`; their state is an arbitrary type `P` and every call into them
is a `Call`, interpreted by a parameter `ext : Call → P → Nat × P` (result, new state).
Each bus function is a chain of `if (range) return ...;` followed by a `switch` and a
final log line; the chain is kept as the list of its tests, tried first to last. -/

namespace core

/-- The calls that the EE bus functions make into the peripherals, named
`object_method`; a leading `sz` is the `sizeof` of a template argument. -/
inductive Call where
  | timers_read32 (addr : Nat)
  | timers_write32 (addr value : Nat)
  | gs_read32_privileged (addr : Nat)
  | gs_read64_privileged (addr : Nat)
  | gs_write32_privileged (addr value : Nat)
  | gs_write64_privileged (addr value : Nat)
  | gs_wake_gs_thread
  | dmac_read (sz addr : Nat)
  | dmac_write (sz addr value : Nat)
  | dmac_read_master_disable
  | dmac_write_master_disable (value : Nat)
  | vu0_read_instr (sz addr : Nat)
  | vu0_read_mem (sz addr : Nat)
  | vu1_read_instr (sz addr : Nat)
  | vu1_read_mem (sz addr : Nat)
  | vu0_write_instr (sz addr value : Nat)
  | vu0_write_mem (sz addr value : Nat)
  | vu1_write_instr (sz addr value : Nat)
  | vu1_write_mem (sz addr value : Nat)
  | cdvd_read_disc_type
  | cdvd_read_S_status
  | cdvd_read_S_data
  | ipu_read_command
  | ipu_read_control
  | ipu_read_BP
  | ipu_read_top
  | ipu_write_command (value : Nat)
  | ipu_write_control (value : Nat)
  | ipu_write_FIFO (value : Nat)
  | gif_read_STAT
  | gif_write_CTRL (value : Nat)
  | gif_write_MODE (value : Nat)
  | gif_send_PATH3_FIFO (value : Nat)
  | vif0_get_stat
  | vif0_get_mode
  | vif0_get_row (addr : Nat)
  | vif0_set_fbrst (value : Nat)
  | vif0_set_err (value : Nat)
  | vif0_set_mark (value : Nat)
  | vif0_transfer_word (value : Nat)
  | vif0_feed_DMA (value : Nat)
  | vif1_get_stat
  | vif1_get_err
  | vif1_get_mark
  | vif1_get_mode
  | vif1_get_code
  | vif1_get_top
  | vif1_get_row (addr : Nat)
  | vif1_readFIFO
  | vif1_set_stat (value : Nat)
  | vif1_set_fbrst (value : Nat)
  | vif1_set_err (value : Nat)
  | vif1_set_mark (value : Nat)
  | vif1_transfer_word (value : Nat)
  | vif1_feed_DMA (value : Nat)
  | intc_read_stat
  | intc_read_mask
  | intc_write_stat (value : Nat)
  | intc_write_mask (value : Nat)
  | sif_get_mscom
  | sif_get_smcom
  | sif_get_msflag
  | sif_get_smflag
  | sif_get_control
  | sif_set_mscom (value : Nat)
  | sif_set_msflag (value : Nat)
  | sif_reset_smflag (value : Nat)
  | sif_set_control_EE (value : Nat)

/-- The lines that the bus functions print (`fmt::print`, `printf`). -/
inductive LogLine where
  | unrecognized_read (bits addr : Nat)
  | unrecognized_write (bits addr value : Nat)
  | unrecognized_iop_write (bits addr value : Nat)
  | register_trace (addr value : Nat)
  | loading_state
  | load_success
  | saving_state
  | save_success
  | kputs_param (param : Nat)
  deriving DecidableEq, Repr

/-- The data members of `class Emulator` used by the bus functions and the interlock,
over a peripheral state `P`; `log` collects the printed lines and `ee_log` the bytes
sent to the `ee_log` stream. -/
structure Emulator (P : Type) where
  iop : iop.IOP
  MCH_RICM : Nat
  MCH_DRD : Nat
  rdram_sdevid : Nat
  IOP_POST : Nat
  cop2_interlock : Bool
  vu_interlock : Bool
  periph : P
  ee_log : List Nat
  log : List LogLine
  load_requested : Bool
  save_requested : Bool
  save_state_path : String

namespace Emulator

variable {P : Type}

/-- The method `Emulator::clear_cop2_interlock`. -/
def clear_cop2_interlock (e : Emulator P) : Emulator P :=
  { e with cop2_interlock := false, vu_interlock := false }

/-- The method `Emulator::check_cop2_interlock`. -/
def check_cop2_interlock (e : Emulator P) : Bool := e.vu_interlock

/-- The method `Emulator::interlock_cop2_check`: the result `true` means "wait". -/
def interlock_cop2_check (e : Emulator P) (isCOP2 : Bool) : Bool × Emulator P :=
  if isCOP2 then
    let e1 := { e with cop2_interlock := true }
    if ¬ e1.vu_interlock then (true, e1) else (false, e1)
  else
    let e1 := { e with vu_interlock := true }
    if ¬ e1.cop2_interlock then (true, e1) else (false, e1)

/-- A call into a peripheral: the result and the emulator with the new peripheral state. -/
def invoke (ext : Call → P → Nat × P) (c : Call) (e : Emulator P) : Nat × Emulator P :=
  ((ext c e.periph).1, { e with periph := (ext c e.periph).2 })

/-- A call into a peripheral whose result is not used. -/
def notify (ext : Call → P → Nat × P) (c : Call) (e : Emulator P) : Emulator P :=
  (invoke ext c e).2

/-- A printed line. -/
def print (l : LogLine) (e : Emulator P) : Emulator P := { e with log := e.log ++ [l] }

/-- A store of `sz` bytes into `iop->ram`.  The array has `0x200000` bytes: the model
follows the source for `index + sz ≤ 0x200000`; a store that reaches past the end
overruns the array in the source and has no defined result there. -/
def store_iop_ram (e : Emulator P) (index sz value : Nat) : Emulator P :=
  { e with iop := { e.iop with ram := storeLE e.iop.ram index sz value } }

end Emulator

/-- The test `address >= lo && address < hi`. -/
def in_range (lo hi address : Nat) : Bool := decide (lo ≤ address) && decide (address < hi)

/-- The test `(address & 0xFF000000) == 0x12000000` of the privileged GS window. -/
def gs_window (address : Nat) : Bool := (address &&& 0xFF000000) == 0x12000000

/-- One `if (test) return body;` of a read function. -/
structure ReadRoute (P : Type) where
  hit : Nat → Bool
  act : Nat → Emulator P → Nat × Emulator P

/-- One `if (test) { body; return; }` of a write function. -/
structure WriteRoute (P : Type) where
  hit : Nat → Bool
  act : Nat → Nat → Emulator P → Emulator P

/-- A read function of `sz` bytes: the first range whose test holds answers, then the
`case` of the `switch` with that address, and otherwise a line is printed and 0 is
returned.  The answer is converted to the return type of `sz` bytes. -/
def dispatch_read {P : Type} (routes : List (ReadRoute P))
    (cases : List (Nat × (Emulator P → Nat × Emulator P))) (sz : Nat)
    (e : Emulator P) (address : Nat) : Nat × Emulator P :=
  match routes.find? (fun r => r.hit address) with
  | some r => ((r.act address e).1 % 256 ^ sz, (r.act address e).2)
  | none =>
    match cases.find? (fun c => c.1 == address) with
    | some c => ((c.2 e).1 % 256 ^ sz, (c.2 e).2)
    | none => (0, e.print (LogLine.unrecognized_read (8 * sz) address))

/-- A write function of `sz` bytes: the first range whose test holds takes the value,
then the `case` of the `switch` with that address, and otherwise a line is printed. -/
def dispatch_write {P : Type} (routes : List (WriteRoute P))
    (cases : List (Nat × (Nat → Emulator P → Emulator P))) (sz : Nat)
    (e : Emulator P) (address value : Nat) : Emulator P :=
  match routes.find? (fun r => r.hit address) with
  | some r => r.act address value e
  | none =>
    match cases.find? (fun c => c.1 == address) with
    | some c => c.2 value e
    | none => e.print (LogLine.unrecognized_write (8 * sz) address value)

section tables

variable {P : Type} (ext : Call → P → Nat × P)

/-- The four vector-unit windows of the read functions, for an access of `sz` bytes. -/
def vu_read_routes (sz : Nat) : List (ReadRoute P) :=
  [ { hit := in_range 0x11000000 0x11004000,
      act := fun a e => e.invoke ext (Call.vu0_read_instr sz a) },
    { hit := in_range 0x11004000 0x11008000,
      act := fun a e => e.invoke ext (Call.vu0_read_mem sz a) },
    { hit := in_range 0x11008000 0x1100C000,
      act := fun a e => e.invoke ext (Call.vu1_read_instr sz a) },
    { hit := in_range 0x1100C000 0x11010000,
      act := fun a e => e.invoke ext (Call.vu1_read_mem sz a) } ]

/-- The four vector-unit windows of `write8` .. `write64`, for an access of `sz` bytes. -/
def vu_write_routes (sz : Nat) : List (WriteRoute P) :=
  [ { hit := in_range 0x11000000 0x11004000,
      act := fun a v e => e.notify ext (Call.vu0_write_instr sz a v) },
    { hit := in_range 0x11004000 0x11008000,
      act := fun a v e => e.notify ext (Call.vu0_write_mem sz a v) },
    { hit := in_range 0x11008000 0x1100C000,
      act := fun a v e => e.notify ext (Call.vu1_write_instr sz a v) },
    { hit := in_range 0x1100C000 0x11010000,
      act := fun a v e => e.notify ext (Call.vu1_write_mem sz a v) } ]

/-- The range tests of `Emulator::read8` (lines 535-550). -/
def read8_routes : List (ReadRoute P) :=
  [ { hit := in_range 0x1C000000 0x1C200000,
      act := fun a e => (e.iop.ram (a &&& 0x1FFFFF) % 256, e) },
    { hit := in_range 0x10000000 0x10002000,
      act := fun a e =>
        ((e.invoke ext (Call.timers_read32 (a &&& 0xFFFFFFF0))).1 >>> (8 * (a &&& 0x3)),
         (e.invoke ext (Call.timers_read32 (a &&& 0xFFFFFFF0))).2) },
    { hit := gs_window,
      act := fun a e =>
        ((e.invoke ext (Call.gs_read32_privileged (a &&& 0xFFFFFFFC))).1 >>> (8 * (a &&& 0x3)),
         (e.invoke ext (Call.gs_read32_privileged (a &&& 0xFFFFFFFC))).2) },
    { hit := in_range 0x10008000 0x1000F000,
      act := fun a e => e.invoke ext (Call.dmac_read 1 a) } ] ++ vu_read_routes ext 1

/-- The `switch` of `Emulator::read8` (lines 551-559). -/
def read8_cases : List (Nat × (Emulator P → Nat × Emulator P)) :=
  [ (0x1F40200F, fun e => e.invoke ext Call.cdvd_read_disc_type),
    (0x1F402017, fun e => e.invoke ext Call.cdvd_read_S_status),
    (0x1F402018, fun e => e.invoke ext Call.cdvd_read_S_data) ]

/-- The method `Emulator::read8`. -/
def Emulator.read8 (e : Emulator P) (address : Nat) : Nat × Emulator P :=
  dispatch_read (read8_routes ext) (read8_cases ext) 1 e address

/-- The range tests of `Emulator::read16` (lines 567-582). -/
def read16_routes : List (ReadRoute P) :=
  [ { hit := in_range 0x10000000 0x10002000,
      act := fun a e => e.invoke ext (Call.timers_read32 a) },
    { hit := in_range 0x10008000 0x1000F000,
      act := fun a e => e.invoke ext (Call.dmac_read 2 a) },
    { hit := gs_window,
      act := fun a e =>
        ((e.invoke ext (Call.gs_read32_privileged (a &&& 0xFFFFFFFC))).1 >>> (8 * (a &&& 0x2)),
         (e.invoke ext (Call.gs_read32_privileged (a &&& 0xFFFFFFFC))).2) },
    { hit := in_range 0x1C000000 0x1C200000,
      act := fun a e => (loadLE e.iop.ram (a &&& 0x1FFFFF) 2, e) } ] ++ vu_read_routes ext 2

/-- The `switch` of `Emulator::read16` (lines 583-589). -/
def read16_cases : List (Nat × (Emulator P → Nat × Emulator P)) :=
  [ (0x10003C30, fun e =>
      ((e.invoke ext Call.vif1_get_mark).1 &&& 0xFFFF, (e.invoke ext Call.vif1_get_mark).2)),
    (0x1A000006, fun e => (1, e)) ]

/-- The method `Emulator::read16`. -/
def Emulator.read16 (e : Emulator P) (address : Nat) : Nat × Emulator P :=
  dispatch_read (read16_routes ext) (read16_cases ext) 2 e address

/-- The range tests of `Emulator::read32` (lines 597-612). -/
def read32_routes : List (ReadRoute P) :=
  [ { hit := in_range 0x10000000 0x10002000,
      act := fun a e => e.invoke ext (Call.timers_read32 a) },
    { hit := gs_window,
      act := fun a e => e.invoke ext (Call.gs_read32_privileged a) },
    { hit := in_range 0x10008000 0x1000F000,
      act := fun a e => e.invoke ext (Call.dmac_read 4 a) },
    { hit := in_range 0x1C000000 0x1C200000,
      act := fun a e => (loadLE e.iop.ram (a &&& 0x1FFFFF) 4, e) } ] ++ vu_read_routes ext 4

/-- The `case 0x1000F440` of `Emulator::read32`: a read of `MCH_DRD` (lines 673-698). -/
def read_MCH_DRD (e : Emulator P) : Nat × Emulator P :=
  if (e.MCH_RICM >>> 6) &&& 0xF = 0 then
    if (e.MCH_RICM >>> 16) &&& 0xFFF = 0x21 then
      if e.rdram_sdevid < 2 then (0x1F, { e with rdram_sdevid := e.rdram_sdevid + 1 })
      else (0, e)
    else if (e.MCH_RICM >>> 16) &&& 0xFFF = 0x23 then (0x0D0D, e)
    else if (e.MCH_RICM >>> 16) &&& 0xFFF = 0x24 then (0x0090, e)
    else if (e.MCH_RICM >>> 16) &&& 0xFFF = 0x40 then (e.MCH_RICM &&& 0x1F, e)
    else (0, e)
  else (0, e)

/-- The `switch` of `Emulator::read32` (lines 613-701). -/
def read32_cases : List (Nat × (Emulator P → Nat × Emulator P)) :=
  [ (0x10002000, fun e => e.invoke ext Call.ipu_read_command),
    (0x10002010, fun e => e.invoke ext Call.ipu_read_control),
    (0x10002020, fun e => e.invoke ext Call.ipu_read_BP),
    (0x10002030, fun e => e.invoke ext Call.ipu_read_top),
    (0x10003020, fun e => e.invoke ext Call.gif_read_STAT),
    (0x10003800, fun e => e.invoke ext Call.vif0_get_stat),
    (0x10003850, fun e => e.invoke ext Call.vif0_get_mode),
    (0x10003900, fun e => e.invoke ext (Call.vif0_get_row 0x10003900)),
    (0x10003910, fun e => e.invoke ext (Call.vif0_get_row 0x10003910)),
    (0x10003920, fun e => e.invoke ext (Call.vif0_get_row 0x10003920)),
    (0x10003930, fun e => e.invoke ext (Call.vif0_get_row 0x10003930)),
    (0x10003C00, fun e => e.invoke ext Call.vif1_get_stat),
    (0x10003C20, fun e => e.invoke ext Call.vif1_get_err),
    (0x10003C30, fun e => e.invoke ext Call.vif1_get_mark),
    (0x10003C50, fun e => e.invoke ext Call.vif1_get_mode),
    (0x10003C80, fun e => e.invoke ext Call.vif1_get_code),
    (0x10003CE0, fun e => e.invoke ext Call.vif1_get_top),
    (0x10003D00, fun e => e.invoke ext (Call.vif1_get_row 0x10003D00)),
    (0x10003D10, fun e => e.invoke ext (Call.vif1_get_row 0x10003D10)),
    (0x10003D20, fun e => e.invoke ext (Call.vif1_get_row 0x10003D20)),
    (0x10003D30, fun e => e.invoke ext (Call.vif1_get_row 0x10003D30)),
    (0x1000F000, fun e => e.invoke ext Call.intc_read_stat),
    (0x1000F010, fun e =>
      (((e.invoke ext Call.intc_read_mask).2.invoke ext Call.intc_read_mask).1,
       ((e.invoke ext Call.intc_read_mask).2.invoke ext Call.intc_read_mask).2.print
          (LogLine.register_trace 0x1000F010 (e.invoke ext Call.intc_read_mask).1))),
    (0x1000F130, fun e => (0, e)),
    (0x1000F200, fun e => e.invoke ext Call.sif_get_mscom),
    (0x1000F210, fun e => e.invoke ext Call.sif_get_smcom),
    (0x1000F220, fun e => e.invoke ext Call.sif_get_msflag),
    (0x1000F230, fun e => e.invoke ext Call.sif_get_smflag),
    (0x1000F240, fun e =>
      (((e.invoke ext Call.sif_get_control).2.invoke ext Call.sif_get_control).1 ||| 0xF0000102,
       ((e.invoke ext Call.sif_get_control).2.invoke ext Call.sif_get_control).2.print
          (LogLine.register_trace 0x1000F240
            ((e.invoke ext Call.sif_get_control).1 ||| 0xF0000102)))),
    (0x1000F430, fun e => (0, e)),
    (0x1000F440, read_MCH_DRD),
    (0x1000F520, fun e => e.invoke ext Call.dmac_read_master_disable) ]

/-- The method `Emulator::read32`. -/
def Emulator.read32 (e : Emulator P) (address : Nat) : Nat × Emulator P :=
  dispatch_read (read32_routes ext) (read32_cases ext) 4 e address

/-- The range tests of `Emulator::read64` (lines 709-724). -/
def read64_routes : List (ReadRoute P) :=
  [ { hit := in_range 0x10000000 0x10002000,
      act := fun a e => e.invoke ext (Call.timers_read32 a) },
    { hit := in_range 0x10008000 0x1000F000,
      act := fun a e => e.invoke ext (Call.dmac_read 4 a) },
    { hit := gs_window,
      act := fun a e => e.invoke ext (Call.gs_read64_privileged a) },
    { hit := in_range 0x1C000000 0x1C200000,
      act := fun a e => (loadLE e.iop.ram (a &&& 0x1FFFFF) 8, e) } ] ++ vu_read_routes ext 8

/-- The `switch` of `Emulator::read64` (lines 725-735). -/
def read64_cases : List (Nat × (Emulator P → Nat × Emulator P)) :=
  [ (0x10002000, fun e => e.invoke ext Call.ipu_read_command),
    (0x10002010, fun e => e.invoke ext Call.ipu_read_control),
    (0x10002020, fun e => e.invoke ext Call.ipu_read_BP),
    (0x10002030, fun e => e.invoke ext Call.ipu_read_top) ]

/-- The method `Emulator::read64`. -/
def Emulator.read64 (e : Emulator P) (address : Nat) : Nat × Emulator P :=
  dispatch_read (read64_routes ext) (read64_cases ext) 8 e address

/-- The range tests of `Emulator::read128` (lines 742-749). -/
def read128_routes : List (ReadRoute P) := vu_read_routes ext 16

/-- The exact match `address == 0x10005000` of `Emulator::read128` (lines 751-752). -/
def read128_cases : List (Nat × (Emulator P → Nat × Emulator P)) :=
  [ (0x10005000, fun e => e.invoke ext Call.vif1_readFIFO) ]

/-- The method `Emulator::read128`. -/
def Emulator.read128 (e : Emulator P) (address : Nat) : Nat × Emulator P :=
  dispatch_read (read128_routes ext) (read128_cases ext) 16 e address

/-- The range tests of `Emulator::write8` (lines 760-789). -/
def write8_routes : List (WriteRoute P) :=
  [ { hit := in_range 0x10008000 0x1000F000,
      act := fun a v e => e.notify ext (Call.dmac_write 1 a v) },
    { hit := in_range 0x1C000000 0x1C200000,
      act := fun a v e => e.store_iop_ram (a &&& 0x1FFFFF) 1 v } ] ++ vu_write_routes ext 1

/-- The `switch` of `Emulator::write8` (lines 790-796). -/
def write8_cases : List (Nat × (Nat → Emulator P → Emulator P)) :=
  [ (0x1000F180, fun v e => { e with ee_log := e.ee_log ++ [v] }) ]

/-- The method `Emulator::write8`. -/
def Emulator.write8 (e : Emulator P) (address value : Nat) : Emulator P :=
  dispatch_write (write8_routes ext) (write8_cases) 1 e address value

/-- The range tests of `Emulator::write16` (lines 803-837); the last one only prints
"Unrecognized write16 to IOP address". -/
def write16_routes : List (WriteRoute P) :=
  [ { hit := in_range 0x10008000 0x1000F000,
      act := fun a v e => e.notify ext (Call.dmac_write 2 a v) },
    { hit := in_range 0x1C000000 0x1C200000,
      act := fun a v e => e.store_iop_ram (a &&& 0x1FFFFF) 2 v } ] ++ vu_write_routes ext 2 ++
  [ { hit := in_range 0x1A000000 0x1FC00000,
      act := fun a v e => e.print (LogLine.unrecognized_iop_write 16 a v) } ]

/-- The method `Emulator::write16` has no `switch`. -/
def write16_cases : List (Nat × (Nat → Emulator P → Emulator P)) := []

/-- The method `Emulator::write16`. -/
def Emulator.write16 (e : Emulator P) (address value : Nat) : Emulator P :=
  dispatch_write (write16_routes ext) (write16_cases) 2 e address value

/-- The range tests of `Emulator::write32` (lines 844-889); the fifth one only prints
"Unrecognized write32 to IOP address". -/
def write32_routes : List (WriteRoute P) :=
  [ { hit := in_range 0x1C000000 0x1C200000,
      act := fun a v e => e.store_iop_ram (a &&& 0x1FFFFF) 4 v },
    { hit := in_range 0x10000000 0x10002000,
      act := fun a v e => e.notify ext (Call.timers_write32 a v) },
    { hit := gs_window,
      act := fun a v e =>
        (e.notify ext (Call.gs_write32_privileged a v)).notify ext Call.gs_wake_gs_thread },
    { hit := in_range 0x10008000 0x1000F000,
      act := fun a v e => e.notify ext (Call.dmac_write 4 a v) },
    { hit := in_range 0x1A000000 0x1FC00000,
      act := fun a v e => e.print (LogLine.unrecognized_iop_write 32 a v) } ] ++
  vu_write_routes ext 4

/-- The `case 0x1000F430` of `Emulator::write32`: a write of `MCH_RICM` (lines 957-963). -/
def write_MCH_RICM (value : Nat) (e : Emulator P) : Emulator P :=
  let e1 :=
    if (value >>> 16) &&& 0xFFF = 0x21 ∧ (value >>> 6) &&& 0xF = 1 ∧ (e.MCH_DRD >>> 7) &&& 1 = 0 then
      { e with rdram_sdevid := 0 }
    else e
  { e1 with MCH_RICM := value &&& 0x7FFFFFFF }

/-- The `switch` of `Emulator::write32` (lines 891-971). -/
def write32_cases : List (Nat × (Nat → Emulator P → Emulator P)) :=
  [ (0x10002000, fun v e => e.notify ext (Call.ipu_write_command v)),
    (0x10002010, fun v e => e.notify ext (Call.ipu_write_control v)),
    (0x10003000, fun v e => e.notify ext (Call.gif_write_CTRL v)),
    (0x10003010, fun v e => e.notify ext (Call.gif_write_MODE v)),
    (0x10003810, fun v e => e.notify ext (Call.vif0_set_fbrst v)),
    (0x10003820, fun v e => e.notify ext (Call.vif0_set_err v)),
    (0x10003830, fun v e => e.notify ext (Call.vif0_set_mark v)),
    (0x10003C00, fun v e => e.notify ext (Call.vif1_set_stat v)),
    (0x10003C10, fun v e => e.notify ext (Call.vif1_set_fbrst v)),
    (0x10003C20, fun v e => e.notify ext (Call.vif1_set_err v)),
    (0x10003C30, fun v e => e.notify ext (Call.vif1_set_mark v)),
    (0x10004000, fun v e => e.notify ext (Call.vif0_transfer_word v)),
    (0x10005000, fun v e => e.notify ext (Call.vif1_transfer_word v)),
    (0x1000F000, fun v e =>
      (e.print (LogLine.register_trace 0x1000F000 v)).notify ext (Call.intc_write_stat v)),
    (0x1000F010, fun v e =>
      (e.print (LogLine.register_trace 0x1000F010 v)).notify ext (Call.intc_write_mask v)),
    (0x1000F200, fun v e => e.notify ext (Call.sif_set_mscom v)),
    (0x1000F210, fun _ e => e),
    (0x1000F220, fun v e =>
      (e.print (LogLine.register_trace 0x1000F220 v)).notify ext (Call.sif_set_msflag v)),
    (0x1000F230, fun v e =>
      (e.print (LogLine.register_trace 0x1000F230 v)).notify ext (Call.sif_reset_smflag v)),
    (0x1000F240, fun v e =>
      (e.print (LogLine.register_trace 0x1000F240 v)).notify ext (Call.sif_set_control_EE v)),
    (0x1000F430, write_MCH_RICM),
    (0x1000F440, fun v e => { e with MCH_DRD := v }),
    (0x1000F590, fun v e => e.notify ext (Call.dmac_write_master_disable v)) ]

/-- The method `Emulator::write32`. -/
def Emulator.write32 (e : Emulator P) (address value : Nat) : Emulator P :=
  dispatch_write (write32_routes ext) (write32_cases ext) 4 e address value

/-- The range tests of `Emulator::write64` (lines 977-1017); the timers and the DMAC
take the value as `uint32_t`. -/
def write64_routes : List (WriteRoute P) :=
  [ { hit := in_range 0x1C000000 0x1C200000,
      act := fun a v e => e.store_iop_ram (a &&& 0x1FFFFF) 8 v },
    { hit := in_range 0x10000000 0x10002000,
      act := fun a v e => e.notify ext (Call.timers_write32 a (v % 4294967296)) },
    { hit := in_range 0x10008000 0x1000F000,
      act := fun a v e => e.notify ext (Call.dmac_write 4 a (v % 4294967296)) },
    { hit := gs_window,
      act := fun a v e =>
        (e.notify ext (Call.gs_write64_privileged a v)).notify ext Call.gs_wake_gs_thread } ] ++
  vu_write_routes ext 8

/-- The method `Emulator::write64` has no `switch`. -/
def write64_cases : List (Nat × (Nat → Emulator P → Emulator P)) := []

/-- The method `Emulator::write64`. -/
def Emulator.write64 (e : Emulator P) (address value : Nat) : Emulator P :=
  dispatch_write (write64_routes ext) (write64_cases) 8 e address value

/-- The tests of `Emulator::write128` (lines 1024-1043): the window
`0x11000000 .. 0x1100FFFF` and, inside it, three one-sided comparisons tried in this
order, the last body being unconditional.  Each route is one body of the source; its
test is the window test together with the comparison written before the body, without
the negations of the comparisons that failed before it. -/
def write128_routes : List (WriteRoute P) :=
  [ { hit := fun a => in_range 0x11000000 0x11010000 a && decide (a < 0x11004000),
      act := fun a v e => e.notify ext (Call.vu0_write_instr 16 (a &&& 0xFFF) v) },
    { hit := fun a => in_range 0x11000000 0x11010000 a && decide (a < 0x11008000),
      act := fun a v e => e.notify ext (Call.vu0_write_mem 16 (a &&& 0xFFF) v) },
    { hit := fun a => in_range 0x11000000 0x11010000 a && decide (a < 0x1100C000),
      act := fun a v e => e.notify ext (Call.vu1_write_instr 16 a v) },
    { hit := in_range 0x11000000 0x11010000,
      act := fun a v e => e.notify ext (Call.vu1_write_mem 16 a v) } ]

/-- The `switch` of `Emulator::write128` (lines 1044-1058). -/
def write128_cases : List (Nat × (Nat → Emulator P → Emulator P)) :=
  [ (0x10004000, fun v e => e.notify ext (Call.vif0_feed_DMA v)),
    (0x10005000, fun v e => e.notify ext (Call.vif1_feed_DMA v)),
    (0x10006000, fun v e => e.notify ext (Call.gif_send_PATH3_FIFO v)),
    (0x10007010, fun v e => e.notify ext (Call.ipu_write_FIFO v)) ]

/-- The method `Emulator::write128`. -/
def Emulator.write128 (e : Emulator P) (address value : Nat) : Emulator P :=
  dispatch_write (write128_routes ext) (write128_cases ext) 16 e address value

end tables

/-- The method `Emulator::iop_read32` (lines 1227-1335): an address below `0x00200000`
is answered from `iop->ram`; the BIOS, firewire and register cases that follow the first
test are the parameter `rest`. -/
def Emulator.iop_read32 {P : Type} (rest : Emulator P → Nat → Nat × Emulator P)
    (e : Emulator P) (address : Nat) : Nat × Emulator P :=
  if address < 0x00200000 then (loadLE e.iop.ram address 4, e) else rest e address

/-- The five access widths of the bus, with their size in bytes. -/
inductive Width where
  | w8 | w16 | w32 | w64 | w128
  deriving DecidableEq, Repr

/-- The `sizeof` of an access width. -/
def Width.bytes : Width → Nat
  | .w8 => 1
  | .w16 => 2
  | .w32 => 4
  | .w64 => 8
  | .w128 => 16

section by_width

variable {P : Type} (ext : Call → P → Nat × P)

/-- The range tests of the read function of each width. -/
def read_routes : Width → List (ReadRoute P)
  | .w8 => read8_routes ext
  | .w16 => read16_routes ext
  | .w32 => read32_routes ext
  | .w64 => read64_routes ext
  | .w128 => read128_routes ext

/-- The exact-match cases of the read function of each width. -/
def read_cases : Width → List (Nat × (Emulator P → Nat × Emulator P))
  | .w8 => read8_cases ext
  | .w16 => read16_cases ext
  | .w32 => read32_cases ext
  | .w64 => read64_cases ext
  | .w128 => read128_cases ext

/-- The read function of each width: `read8`, `read16`, `read32`, `read64`, `read128`. -/
def Emulator.read (w : Width) (e : Emulator P) (address : Nat) : Nat × Emulator P :=
  match w with
  | .w8 => e.read8 ext address
  | .w16 => e.read16 ext address
  | .w32 => e.read32 ext address
  | .w64 => e.read64 ext address
  | .w128 => e.read128 ext address

/-- The range tests of the write function of each width. -/
def write_routes : Width → List (WriteRoute P)
  | .w8 => write8_routes ext
  | .w16 => write16_routes ext
  | .w32 => write32_routes ext
  | .w64 => write64_routes ext
  | .w128 => write128_routes ext

/-- The exact-match cases of the write function of each width. -/
def write_cases : Width → List (Nat × (Nat → Emulator P → Emulator P))
  | .w8 => write8_cases
  | .w16 => write16_cases
  | .w32 => write32_cases ext
  | .w64 => write64_cases
  | .w128 => write128_cases ext

/-- The write function of each width: `write8`, ..., `write128`. -/
def Emulator.write (w : Width) (e : Emulator P) (address value : Nat) : Emulator P :=
  match w with
  | .w8 => e.write8 ext address value
  | .w16 => e.write16 ext address value
  | .w32 => e.write32 ext address value
  | .w64 => e.write64 ext address value
  | .w128 => e.write128 ext address value

end by_width

/-- Two range tests that no address passes together. -/
def disjoint_tests (h1 h2 : Nat → Bool) : Prop := ∀ a : Nat, ¬ (h1 a = true ∧ h2 a = true)

/-- The range tests of a list, taken in order, are pairwise non-overlapping. -/
def non_overlapping (hits : List (Nat → Bool)) : Prop := hits.Pairwise disjoint_tests

/-- The range tests of a list are pairwise non-overlapping except that the IOP memory
window `0x1C000000 .. 0x1C1FFFFF` may come before the window `0x1A000000 .. 0x1FBFFFFF`. -/
def non_overlapping_but_iop_window (hits : List (Nat → Bool)) : Prop :=
  hits.Pairwise (fun h1 h2 => disjoint_tests h1 h2 ∨
    (h1 = in_range 0x1C000000 0x1C200000 ∧ h2 = in_range 0x1A000000 0x1FC00000))

/-- The range tests of a list are nested: every address that passes a test passes the
next one. -/
def nested_tests (hits : List (Nat → Bool)) : Prop :=
  hits.Chain' (fun h1 h2 => ∀ a : Nat, h1 a = true → h2 a = true)

/-- No address of the list passes any of the range tests. -/
def outside_ranges (hits : List (Nat → Bool)) (addrs : List Nat) : Bool :=
  addrs.all (fun c => hits.all (fun h => !h c))

/-- Whether a call into a peripheral is `vu1->write_mem`. -/
def Call.is_vu1_write_mem : Call → Bool
  | Call.vu1_write_mem _ _ _ => true
  | _ => false

/-- Peripherals for tests that record, for every call, whether it was `vu1->write_mem`. -/
def bench_ext_recording : Call → List Bool → Nat × List Bool :=
  fun c p => (0, p ++ [c.is_vu1_write_mem])

/-- A machine for tests: no peripheral state, every call into a peripheral answers 7. -/
def bench_ext : Call → Unit → Nat × Unit := fun _ _ => (7, ())

/-- A machine for tests: IOP memory zeroed, interlock flags clear, nothing logged. -/
def bench_emulator : Emulator Unit where
  iop := iop.bench_iop
  MCH_RICM := 0
  MCH_DRD := 0
  rdram_sdevid := 0
  IOP_POST := 0
  cop2_interlock := false
  vu_interlock := false
  periph := ()
  ee_log := []
  log := []
  load_requested := false
  save_requested := false
  save_state_path := ""

/-- The test machine over the recording peripherals, nothing recorded yet. -/
def bench_emulator_recording : Emulator (List Bool) where
  iop := iop.bench_iop
  MCH_RICM := 0
  MCH_DRD := 0
  rdram_sdevid := 0
  IOP_POST := 0
  cop2_interlock := false
  vu_interlock := false
  periph := []
  ee_log := []
  log := []
  load_requested := false
  save_requested := false
  save_state_path := ""

/-! ### Interlock request sequences -/

/-- A sequence of calls of `interlock_cop2_check`, one for each entry of the list
(`true` for the COP2 side, `false` for the VU side): the results, in order, and the
final state. -/
def Emulator.interlock_requests {P : Type} (e : Emulator P) : List Bool → List Bool × Emulator P
  | [] => ([], e)
  | isCOP2 :: rest =>
    ((e.interlock_cop2_check isCOP2).1 ::
       ((e.interlock_cop2_check isCOP2).2.interlock_requests rest).1,
     ((e.interlock_cop2_check isCOP2).2.interlock_requests rest).2)

/-! ### Loading a save state (`core/serialize.cpp`) -/

/-- The call `state.read(buffer, n)` on a stream with the bytes `stream` left: the bytes
that are there are copied, the rest of the buffer keeps what it held (its
uninitialised content); the result is the buffer and the rest of the stream. -/
def stream_read (stream : List Nat) (n : Nat) (buffer : List Nat) : List Nat × List Nat :=
  (stream.take n ++ (buffer.take n).drop (stream.take n).length, stream.drop n)

/-- The little-endian value of a buffer of bytes (a `uint32_t` read through `char*`). -/
def le_value (bytes : List Nat) : Nat := bytes.foldr (fun b acc => b % 256 + 256 * acc) 0

/-- The characters of the signature `"DOBIE"`. -/
def dobie_signature : List Nat := [0x44, 0x4F, 0x42, 0x49, 0x45]

/-- The constants `VER_MAJOR`, `VER_MINOR` and `VER_REV`. -/
def VER_MAJOR : Nat := 0

/-- The constant `VER_MINOR`. -/
def VER_MINOR : Nat := 0

/-- The constant `VER_REV`. -/
def VER_REV : Nat := 50

/-- How `Emulator::load_state` ends: normally, or in one of its three calls of
`Errors::non_fatal`. -/
inductive LoadOutcome where
  | loaded
  | failed_to_load
  | invalid
  | version_mismatch
  deriving DecidableEq, Repr

/-- The uninitialised content of the locals `dobie_buffer`, `major`, `minor` and `rev`
of `Emulator::load_state`. -/
structure LoadLocals where
  dobie_buffer : List Nat
  major : List Nat
  minor : List Nat
  rev : List Nat

/-- What `Emulator::load_state` calls after its sanity checks, taken as parameters:
`Emulator::reset` and the component reads of lines 89-137 (which consume the rest of the
stream). -/
structure StateLoader (P : Type) where
  reset : Emulator P → Emulator P
  load_components : Emulator P → List Nat → Emulator P

/-- The method `Emulator::load_state`; `file` is the content of the named file, `none`
when it cannot be opened. -/
def Emulator.load_state {P : Type} (l : StateLoader P) (locals : LoadLocals)
    (file : Option (List Nat)) (e : Emulator P) : LoadOutcome × Emulator P :=
  let e1 := { e with load_requested := false }
  let e2 := e1.print LogLine.loading_state
  match file with
  | none => (LoadOutcome.failed_to_load, e2)
  | some state =>
    let r0 := stream_read state 5 locals.dobie_buffer
    if r0.1 ≠ dobie_signature then (LoadOutcome.invalid, e2)
    else
      let r1 := stream_read r0.2 4 locals.major
      let r2 := stream_read r1.2 4 locals.minor
      let r3 := stream_read r2.2 4 locals.rev
      if le_value r1.1 ≠ VER_MAJOR ∨ le_value r2.1 ≠ VER_MINOR ∨ le_value r3.1 ≠ VER_REV then
        (LoadOutcome.version_mismatch, e2)
      else
        (LoadOutcome.loaded, (l.load_components (l.reset e2) r3.2).print LogLine.load_success)

/-- Locals for tests: every buffer starts zeroed. -/
def bench_locals : LoadLocals where
  dobie_buffer := [0, 0, 0, 0, 0]
  major := [0, 0, 0, 0]
  minor := [0, 0, 0, 0]
  rev := [0, 0, 0, 0]

end core

/-! ## VU lower-instruction dispatch (`core/ee/vu_interpreter.cpp`) -/

namespace VU_Interpreter

/-- The handlers that `lower1`, `lower1_special` and `lower2` call.  The case `0x7B` of
`lower1_special` (WAITP) calls `vu.flush_pipes()` directly. -/
inductive LowerOp where
  | iadd | isub | iaddi | iand | ior
  | move | mr32 | lqi | sqi | lqd | sqd | div | vu_sqrt | rsqrt | waitq | mtir | mfir | ilwr
  | iswr | rnext | rget | rinit | rxor | mfp | xtop | xitop | xgkick | eleng | erleng | esqrt
  | ersqrt | flush_pipes | eexp
  | lq | sq | ilw | isw | iaddiu | isubiu | fcset | fcand | fcor | fsset | fsand | fmeq | fmand
  | fmor | fcget | b | bal | jr | jalr | ibeq | ibne | ibltz | ibgtz | iblez | ibgez
  deriving DecidableEq, Repr

/-- The `switch` of `lower1_special` on its opcode; `none` is the `default` case, which
ends in `unknown_op`. -/
def lower1_special_op (op : Nat) : Option LowerOp :=
  if op = 0x30 then some LowerOp.move
  else if op = 0x31 then some LowerOp.mr32
  else if op = 0x34 then some LowerOp.lqi
  else if op = 0x35 then some LowerOp.sqi
  else if op = 0x36 then some LowerOp.lqd
  else if op = 0x37 then some LowerOp.sqd
  else if op = 0x38 then some LowerOp.div
  else if op = 0x39 then some LowerOp.vu_sqrt
  else if op = 0x3A then some LowerOp.rsqrt
  else if op = 0x3B then some LowerOp.waitq
  else if op = 0x3C then some LowerOp.mtir
  else if op = 0x3D then some LowerOp.mfir
  else if op = 0x3E then some LowerOp.ilwr
  else if op = 0x3F then some LowerOp.iswr
  else if op = 0x40 then some LowerOp.rnext
  else if op = 0x41 then some LowerOp.rget
  else if op = 0x42 then some LowerOp.rinit
  else if op = 0x43 then some LowerOp.rxor
  else if op = 0x64 then some LowerOp.mfp
  else if op = 0x68 then some LowerOp.xtop
  else if op = 0x69 then some LowerOp.xitop
  else if op = 0x6C then some LowerOp.xgkick
  else if op = 0x72 then some LowerOp.eleng
  else if op = 0x73 then some LowerOp.erleng
  else if op = 0x78 then some LowerOp.esqrt
  else if op = 0x79 then some LowerOp.ersqrt
  else if op = 0x7B then some LowerOp.flush_pipes
  else if op = 0x7E then some LowerOp.eexp
  else none

/-- The method `lower1_special`: `op = (instr & 0x3) | ((instr >> 4) & 0x7C)`. -/
def lower1_special (instr : Nat) : Option LowerOp :=
  lower1_special_op ((instr &&& 0x3) ||| ((instr >>> 4) &&& 0x7C))

/-- The `switch` of `lower1` on `op = instr & 0x3F`. -/
def lower1_op (op : Nat) (instr : Nat) : Option LowerOp :=
  if op = 0x30 then some LowerOp.iadd
  else if op = 0x31 then some LowerOp.isub
  else if op = 0x32 then some LowerOp.iaddi
  else if op = 0x34 then some LowerOp.iand
  else if op = 0x35 then some LowerOp.ior
  else if op = 0x3C ∨ op = 0x3D ∨ op = 0x3E ∨ op = 0x3F then lower1_special instr
  else none

/-- The method `lower1`. -/
def lower1 (instr : Nat) : Option LowerOp := lower1_op (instr &&& 0x3F) instr

/-- The `switch` of `lower2` on its opcode. -/
def lower2_op (op : Nat) : Option LowerOp :=
  if op = 0x00 then some LowerOp.lq
  else if op = 0x01 then some LowerOp.sq
  else if op = 0x04 then some LowerOp.ilw
  else if op = 0x05 then some LowerOp.isw
  else if op = 0x08 then some LowerOp.iaddiu
  else if op = 0x09 then some LowerOp.isubiu
  else if op = 0x11 then some LowerOp.fcset
  else if op = 0x12 then some LowerOp.fcand
  else if op = 0x13 then some LowerOp.fcor
  else if op = 0x15 then some LowerOp.fsset
  else if op = 0x16 then some LowerOp.fsand
  else if op = 0x18 then some LowerOp.fmeq
  else if op = 0x1A then some LowerOp.fmand
  else if op = 0x1B then some LowerOp.fmor
  else if op = 0x1C then some LowerOp.fcget
  else if op = 0x20 then some LowerOp.b
  else if op = 0x21 then some LowerOp.bal
  else if op = 0x24 then some LowerOp.jr
  else if op = 0x25 then some LowerOp.jalr
  else if op = 0x28 then some LowerOp.ibeq
  else if op = 0x29 then some LowerOp.ibne
  else if op = 0x2C then some LowerOp.ibltz
  else if op = 0x2D then some LowerOp.ibgtz
  else if op = 0x2E then some LowerOp.iblez
  else if op = 0x2F then some LowerOp.ibgez
  else none

/-- The method `lower2`: `op = (instr >> 25) & 0x7F`. -/
def lower2 (instr : Nat) : Option LowerOp := lower2_op ((instr >>> 25) &&& 0x7F)

/-- The method `lower`: bit 31 selects `lower1`. -/
def lower (instr : Nat) : Option LowerOp :=
  if instr &&& (1 <<< 31) ≠ 0 then lower1 instr else lower2 instr

/-- The test in `interpret` (line 25) after which `vu.waitq()` is called before the
instruction pair is executed. -/
def prestall_test (lower_instr : Nat) : Bool := (lower_instr &&& 0x800007FC) == 0x800003BC

/-- The handlers named by the comment on that test: `WaitQ, DIV, RSQRT, SQRT`. -/
def q_pipeline_ops : List LowerOp :=
  [LowerOp.div, LowerOp.vu_sqrt, LowerOp.rsqrt, LowerOp.waitq]

/-- Whether `lower` dispatches the word to one of the handlers of `q_pipeline_ops`. -/
def dispatches_to_q_pipeline (instr : Nat) : Bool :=
  match lower instr with
  | some h => decide (h ∈ q_pipeline_ops)
  | none => false

end VU_Interpreter

/-! ## Save states (`core/serialize.cpp`)

A stream is the list of its bytes.  A member is written as its object representation
and read back over the bytes it held. -/

namespace core

/-- The object representation of an unsigned value of `n` bytes, least significant byte
first. -/
def le_bytes : Nat → Nat → List Nat
  | 0, _ => []
  | n + 1, v => v % 256 :: le_bytes n (v / 256)

/-- The `n` bytes that `state.write((char*)array, n)` sends from a byte array. -/
def dump (mem : Nat → Nat) (n : Nat) : List Nat := (List.range n).map (fun j => mem j % 256)

/-- A byte array after `state.read((char*)array, n)` delivered `buffer` to its start. -/
def fill (mem : Nat → Nat) (buffer : List Nat) : Nat → Nat :=
  fun j => if j < buffer.length then buffer.getD j 0 else mem j

/-- The byte that holds a `bool`. -/
def bool_byte (b : Bool) : Nat := if b then 1 else 0

/-- The `bool` that a byte holds. -/
def byte_bool (bytes : List Nat) : Bool := decide (le_value bytes ≠ 0)

end core

namespace ee

/-- The values of `sizeof(icache)` and `sizeof(Deci2Handler)`, which depend on the ABI. -/
structure Sizes where
  icache : Nat
  Deci2Handler : Nat

namespace EmotionEngine

/-- The byte count `sizeof(Deci2Handler) * deci2size`, computed in `size_t`. -/
def deci2_bytes (sz : Sizes) (deci2size : Int) : Nat :=
  (sz.Deci2Handler * wrap64 deci2size) % 18446744073709551616

/-- The method `EmotionEngine::save_state` (lines 363-384): the bytes written, in order.
The third 64-bit word is read from `&LO.lo` (line 371). -/
def save_state (cpu : EmotionEngine) (sz : Sizes) : List Nat :=
  core.le_bytes 8 cpu.cycle_count ++
  (core.le_bytes 4 (wrap32 cpu.cycles_to_run) ++
  (core.dump cpu.icache sz.icache ++
  (core.dump cpu.gpr 512 ++
  (core.le_bytes 8 cpu.LO.lo ++
  (core.le_bytes 8 cpu.HI.lo ++
  (core.le_bytes 8 cpu.LO.lo ++
  (core.le_bytes 8 cpu.HI.hi ++
  (core.le_bytes 4 cpu.PC ++
  (core.le_bytes 4 cpu.new_PC ++
  (core.le_bytes 8 cpu.SA ++
  (core.le_bytes 1 (core.bool_byte cpu.wait_for_IRQ) ++
  (core.le_bytes 1 (core.bool_byte cpu.branch_on) ++
  (core.le_bytes 4 (wrap32 cpu.delay_slot) ++
  (core.le_bytes 4 (wrap32 cpu.deci2size) ++
   core.dump cpu.deci2handlers (deci2_bytes sz cpu.deci2size)))))))))))))))

/-- The method `EmotionEngine::load_state` (lines 340-361): the processor after the reads
and the rest of the stream.  The third 64-bit word goes to `&LO.hi` (line 348); the
handler table is read with the `deci2size` just read. -/
def load_state (cpu : EmotionEngine) (sz : Sizes) (state : List Nat) :
    EmotionEngine × List Nat :=
  let r1 := core.stream_read state 8 (core.le_bytes 8 cpu.cycle_count)
  let r2 := core.stream_read r1.2 4 (core.le_bytes 4 (wrap32 cpu.cycles_to_run))
  let r3 := core.stream_read r2.2 sz.icache (core.dump cpu.icache sz.icache)
  let r4 := core.stream_read r3.2 512 (core.dump cpu.gpr 512)
  let r5 := core.stream_read r4.2 8 (core.le_bytes 8 cpu.LO.lo)
  let r6 := core.stream_read r5.2 8 (core.le_bytes 8 cpu.HI.lo)
  let r7 := core.stream_read r6.2 8 (core.le_bytes 8 cpu.LO.hi)
  let r8 := core.stream_read r7.2 8 (core.le_bytes 8 cpu.HI.hi)
  let r9 := core.stream_read r8.2 4 (core.le_bytes 4 cpu.PC)
  let r10 := core.stream_read r9.2 4 (core.le_bytes 4 cpu.new_PC)
  let r11 := core.stream_read r10.2 8 (core.le_bytes 8 cpu.SA)
  let r12 := core.stream_read r11.2 1 (core.le_bytes 1 (core.bool_byte cpu.wait_for_IRQ))
  let r13 := core.stream_read r12.2 1 (core.le_bytes 1 (core.bool_byte cpu.branch_on))
  let r14 := core.stream_read r13.2 4 (core.le_bytes 4 (wrap32 cpu.delay_slot))
  let r15 := core.stream_read r14.2 4 (core.le_bytes 4 (wrap32 cpu.deci2size))
  let deci2size1 : Int := signed32 (core.le_value r15.1)
  let r16 := core.stream_read r15.2 (deci2_bytes sz deci2size1)
    (core.dump cpu.deci2handlers (deci2_bytes sz deci2size1))
  ({ cycle_count := core.le_value r1.1
     cycles_to_run := signed32 (core.le_value r2.1)
     icache := core.fill cpu.icache r3.1
     gpr := core.fill cpu.gpr r4.1
     LO := { lo := core.le_value r5.1, hi := core.le_value r7.1 }
     HI := { lo := core.le_value r6.1, hi := core.le_value r8.1 }
     PC := core.le_value r9.1
     new_PC := core.le_value r10.1
     SA := core.le_value r11.1
     wait_for_IRQ := core.byte_bool r12.1
     branch_on := core.byte_bool r13.1
     delay_slot := signed32 (core.le_value r14.1)
     deci2handlers := core.fill cpu.deci2handlers r16.1
     deci2size := deci2size1 }, r16.2)

end EmotionEngine

/-- The sizes of the x86-64 ABI: twelve bytes for an instruction-cache line and for a
handler record. -/
def bench_sizes : Sizes := { icache := 1536, Deci2Handler := 12 }

/-- The test processor with distinct halves in `LO` and `HI`. -/
def bench_cpu_lo_hi : EmotionEngine :=
  { bench_cpu with LO := { lo := 1, hi := 2 }, HI := { lo := 3, hi := 4 } }

end ee

namespace core

/-- The values of `sizeof` for the members of `class Scheduler` and for its two record
types; `scheduler.hpp` fixes them. -/
structure SchedulerSizes where
  ee_cycles : Nat
  bus_cycles : Nat
  iop_cycles : Nat
  run_cycles : Nat
  closest_event_time : Nat
  next_event_id : Nat
  SchedulerEvent : Nat
  SchedulerTimer : Nat

/-- The data members of `class Scheduler` that the save state handles, each as its object
representation; `events` is a `std::list<SchedulerEvent>` and `timers` a
`std::vector<SchedulerTimer>`. -/
structure Scheduler where
  ee_cycles : List Nat
  bus_cycles : List Nat
  iop_cycles : List Nat
  run_cycles : List Nat
  closest_event_time : List Nat
  events : List (List Nat)
  next_event_id : List Nat
  timers : List (List Nat)
  deriving DecidableEq, Repr

/-- The loops of `Scheduler::load_state`: `count` times a record of `size` bytes is read
into a local (which holds `local_bytes` before the read) and appended. -/
def read_records (size : Nat) : Nat → List Nat → List Nat → List (List Nat) × List Nat
  | 0, _, state => ([], state)
  | count + 1, local_bytes, state =>
    let r := stream_read state size local_bytes
    let rest := read_records size count r.1 r.2
    (r.1 :: rest.1, rest.2)

namespace Scheduler

/-- The method `Scheduler::save_state` (lines 311-335): the bytes written and the
scheduler afterwards.  The sizes go through `int`; the events are written by iterator,
the timers by an index below `timer_size`. -/
def save_state (s : Scheduler) : List Nat × Scheduler :=
  let event_size : Int := signed32 s.events.length
  let timer_size : Int := signed32 s.timers.length
  (s.ee_cycles ++ (s.bus_cycles ++ (s.iop_cycles ++ (s.run_cycles ++
    (s.closest_event_time ++ (le_bytes 4 (wrap32 event_size) ++ (s.events.flatten ++
    (s.next_event_id ++ (le_bytes 4 (wrap32 timer_size) ++
      (s.timers.take timer_size.toNat).flatten)))))))), s)

/-- The method `Scheduler::load_state` (lines 274-309); `event_local` and `timer_local`
are the uninitialised contents of the locals `event` and `timer`. -/
def load_state (s : Scheduler) (sz : SchedulerSizes) (event_local timer_local : List Nat)
    (state : List Nat) : Scheduler × List Nat :=
  let r1 := stream_read state sz.ee_cycles s.ee_cycles
  let r2 := stream_read r1.2 sz.bus_cycles s.bus_cycles
  let r3 := stream_read r2.2 sz.iop_cycles s.iop_cycles
  let r4 := stream_read r3.2 sz.run_cycles s.run_cycles
  let r5 := stream_read r4.2 sz.closest_event_time s.closest_event_time
  let r6 := stream_read r5.2 4 (le_bytes 4 0)
  let event_size : Int := signed32 (le_value r6.1)
  let ev := read_records sz.SchedulerEvent event_size.toNat event_local r6.2
  let r7 := stream_read ev.2 sz.next_event_id s.next_event_id
  let r8 := stream_read r7.2 4 (le_bytes 4 0)
  let timer_size : Int := signed32 (le_value r8.1)
  let tm := read_records sz.SchedulerTimer timer_size.toNat timer_local r8.2
  ({ ee_cycles := r1.1, bus_cycles := r2.1, iop_cycles := r3.1, run_cycles := r4.1,
     closest_event_time := r5.1, events := ev.1, next_event_id := r7.1, timers := tm.1 },
   tm.2)

/-- A scheduler whose members have the sizes `sz` and whose lists are short enough for
their length to fit an `int`. -/
def well_formed (s : Scheduler) (sz : SchedulerSizes) : Prop :=
  s.ee_cycles.length = sz.ee_cycles ∧ s.bus_cycles.length = sz.bus_cycles ∧
  s.iop_cycles.length = sz.iop_cycles ∧ s.run_cycles.length = sz.run_cycles ∧
  s.closest_event_time.length = sz.closest_event_time ∧
  s.next_event_id.length = sz.next_event_id ∧
  (∀ ev ∈ s.events, ev.length = sz.SchedulerEvent) ∧
  (∀ tm ∈ s.timers, tm.length = sz.SchedulerTimer) ∧
  s.events.length < 2147483648 ∧ s.timers.length < 2147483648

end Scheduler

/-- Sizes for tests: 64-bit counters, a 32-bit event id, records of three and two bytes. -/
def bench_scheduler_sizes : SchedulerSizes :=
  { ee_cycles := 8, bus_cycles := 8, iop_cycles := 8, run_cycles := 8,
    closest_event_time := 8, next_event_id := 4, SchedulerEvent := 3, SchedulerTimer := 2 }

/-- A scheduler for tests with two events and one timer. -/
def bench_scheduler : Scheduler :=
  { ee_cycles := [1, 0, 0, 0, 0, 0, 0, 0], bus_cycles := [2, 0, 0, 0, 0, 0, 0, 0],
    iop_cycles := [3, 0, 0, 0, 0, 0, 0, 0], run_cycles := [4, 0, 0, 0, 0, 0, 0, 0],
    closest_event_time := [5, 0, 0, 0, 0, 0, 0, 0],
    events := [[10, 11, 12], [20, 21, 22]], next_event_id := [7, 0, 0, 0],
    timers := [[30, 31]] }

/-- A scheduler for tests that holds other counters, three events and no timer. -/
def bench_scheduler_old : Scheduler :=
  { ee_cycles := [9, 9, 9, 9, 9, 9, 9, 9], bus_cycles := [9, 9, 9, 9, 9, 9, 9, 9],
    iop_cycles := [9, 9, 9, 9, 9, 9, 9, 9], run_cycles := [9, 9, 9, 9, 9, 9, 9, 9],
    closest_event_time := [9, 9, 9, 9, 9, 9, 9, 9],
    events := [[1, 1, 1], [2, 2, 2], [3, 3, 3]], next_event_id := [9, 9, 9, 9],
    timers := [] }

/-- What `Emulator::reset`, `Emulator::save_state` and `Emulator::load_state` call on the
other objects, over the peripheral state `P` (which also stands for the members
`VBLANK_sent`, `frames`, the RAM arrays and the scheduler): the component resets of
`reset` (lines 173-212), its event registrations (lines 220-227), `IOP::reset`, and the
writes (lines 162-212) and reads (lines 89-137) of `serialize.cpp` that follow the
version numbers. -/
structure Components (P : Type) where
  reset : P → P
  register_events : P → P
  iop_reset : iop.IOP → iop.IOP
  save : P → iop.IOP → List Nat × P
  load : P → iop.IOP → List Nat → P × iop.IOP

namespace Emulator

variable {P : Type}

/-- The method `Emulator::reset` (emulator.cpp, lines 167-228). -/
def reset (c : Components P) (e : Emulator P) : Emulator P :=
  let e1 := { e with save_requested := false, load_requested := false }
  let e2 := { e1 with periph := c.reset e1.periph, iop := c.iop_reset e1.iop }
  let e3 := { e2 with MCH_DRD := 0, MCH_RICM := 0, rdram_sdevid := 0, IOP_POST := 0 }
  let e4 := e3.clear_cop2_interlock
  { e4 with periph := c.register_events e4.periph }

/-- The reads of `Emulator::load_state` after `reset()` (lines 89-137). -/
def load_components (c : Components P) (e : Emulator P) (state : List Nat) : Emulator P :=
  { e with periph := (c.load e.periph e.iop state).1, iop := (c.load e.periph e.iop state).2 }

/-- The loader that `Emulator::load_state` runs in the source. -/
def state_loader (c : Components P) : StateLoader P :=
  { reset := reset c, load_components := load_components c }

/-- The method `Emulator::save_state` (lines 143-216): the content of the file written,
`none` when it cannot be opened (`opened` is false), and the emulator afterwards. -/
def save_state (c : Components P) (opened : Bool) (e : Emulator P) :
    Option (List Nat) × Emulator P :=
  let e1 := { e with save_requested := false }
  let e2 := e1.print LogLine.saving_state
  if ¬ opened then (none, e2)
  else
    let body := c.save e2.periph e2.iop
    (some (dobie_signature ++ (le_bytes 4 VER_MAJOR ++ (le_bytes 4 VER_MINOR ++
      (le_bytes 4 VER_REV ++ body.1)))),
     { e2 with periph := body.2 }.print LogLine.save_success)

end Emulator

/-- Components for tests: the peripheral state is trivial and the body of a save state
is the byte 0x55. -/
def bench_components : Components Unit where
  reset := fun p => p
  register_events := fun p => p
  iop_reset := fun i => { i with PC := 0xBFC00000 }
  save := fun p _ => ([0x55], p)
  load := fun p i _ => (p, i)

/-- The test machine with both interlock flags set. -/
def bench_emulator_interlocked : Emulator Unit :=
  { bench_emulator with cop2_interlock := true, vu_interlock := true }

end core

/-! ## Kernel console output (`Emulator::ee_kputs`, `core/emulator.cpp`) -/

namespace core

/-- The byte indices of `cpu->rdram` that a call of `ee_kputs` read; an observation added
to the model. -/
structure KputsTrace where
  pointer_reads : List Nat
  char_reads : List Nat
  deriving DecidableEq, Repr

/-- The loop `do { c = cpu->rdram[param & 0x1FFFFFF]; ee_log << c; param++; } while (c);`
with at most `fuel` iterations: the indices read and the characters sent, `none` when the
bound is exhausted. -/
def kputs_loop (rdram : Nat → Nat) : Nat → Nat → List Nat → List Nat → Option (List Nat × List Nat)
  | 0, _, _, _ => none
  | fuel + 1, param, reads, out =>
    let index := param &&& 0x1FFFFFF
    let c := rdram index % 256
    if c ≠ 0 then
      kputs_loop rdram fuel ((param + 1) % 4294967296) (reads ++ [index]) (out ++ [c])
    else some (reads ++ [index], out ++ [c])

/-- The method `Emulator::ee_kputs` (lines 1062-1076) over the memory `cpu->rdram`. -/
def Emulator.ee_kputs {P : Type} (rdram : Nat → Nat) (fuel : Nat) (param : Nat)
    (e : Emulator P) : Option (KputsTrace × Emulator P) :=
  if param > 1024 * 1024 * 32 then some ({ pointer_reads := [], char_reads := [] }, e)
  else
    let pointer := loadLE rdram param 4
    let e1 := e.print (LogLine.kputs_param pointer)
    match kputs_loop rdram fuel pointer [] [] with
    | none => none
    | some (reads, out) =>
      some ({ pointer_reads := [param, param + 1, param + 2, param + 3], char_reads := reads },
            { e1 with ee_log := e1.ee_log ++ out })

/-- The size of the array `rdram`, 32 MiB. -/
def rdram_size : Nat := 1024 * 1024 * 32

/-- A zeroed memory for tests. -/
def bench_rdram : Nat → Nat := fun _ => 0

end core

/-! ## VU upper-instruction decoding (`core/ee/vu_interpreter.cpp`) -/

namespace VU_Interpreter

/-- The method `check_swapops` (lines 48-60); `lowerfs` is taken from `upper_instr`
(line 53). -/
def check_swapops (upper_instr lower_instr : Nat) : Bool :=
  let upperfd :=
    if (upper_instr >>> 2) &&& 0xf = 0xf then (upper_instr >>> 16) &&& 0x1F
    else (upper_instr >>> 6) &&& 0x1F
  let lowerfs := (upper_instr >>> 11) &&& 0x1F
  let lowerft := (lower_instr >>> 16) &&& 0x1F
  if (upperfd = lowerfs ∨ upperfd = lowerft) ∧ ¬ (upper_instr &&& (1 <<< 31) ≠ 0) then true
  else false

/-- The test that the specification describes, for comparison with `check_swapops`: the
I bit of the upper word is clear and the destination of the upper instruction is the
`fs` or the `ft` field of the lower word. -/
def swapops_by_lower_fields (upper_instr lower_instr : Nat) : Bool :=
  let upperfd :=
    if (upper_instr >>> 2) &&& 0xf = 0xf then (upper_instr >>> 16) &&& 0x1F
    else (upper_instr >>> 6) &&& 0x1F
  let lowerfs := (lower_instr >>> 11) &&& 0x1F
  let lowerft := (lower_instr >>> 16) &&& 0x1F
  decide ((upperfd = lowerfs ∨ upperfd = lowerft) ∧ upper_instr &&& (1 <<< 31) = 0)

/-- The fields of `vu.decoder` that `interpret` clears; each array of two is a pair. -/
structure Decoder where
  vf_read0 : Nat × Nat
  vf_read0_field : Nat × Nat
  vf_read1 : Nat × Nat
  vf_read1_field : Nat × Nat
  vf_write : Nat × Nat
  vf_write_field : Nat × Nat
  vi_read0 : Nat
  vi_read1 : Nat
  vi_write : Nat
  deriving DecidableEq, Repr

/-- The decoder after the assignments that open `interpret` (lines 10-20). -/
def cleared_decoder : Decoder :=
  { vf_read0 := (0, 0), vf_read0_field := (0, 0), vf_read1 := (0, 0),
    vf_read1_field := (0, 0), vf_write := (0, 0), vf_write_field := (0, 0),
    vi_read0 := 0, vi_read1 := 0, vi_write := 0 }

/-- The decode step of `addbc` (lines 180-196); the call `vu.addbc(instr)` that follows
executes the instruction and is not part of the model. -/
def addbc (d : Decoder) (instr : Nat) : Decoder :=
  let bc := instr &&& 0x3
  let dest := (instr >>> 6) &&& 0x1F
  let source := (instr >>> 11) &&& 0x1F
  let bc_reg := (instr >>> 16) &&& 0x1F
  let field := (instr >>> 21) &&& 0xF
  let d1 := { d with vf_write := (dest, d.vf_write.2) }
  let d2 := { d1 with vf_write_field := (field, d1.vf_write_field.2) }
  let d3 := { d2 with vf_read0 := (source, d2.vf_read0.2) }
  let d4 := { d3 with vf_read0_field := (field, d3.vf_read0_field.2) }
  let d5 := { d4 with vf_read1 := (bc_reg, d4.vf_read1.2) }
  { d5 with vf_read1_field := (1 <<< (3 - bc), d5.vf_read1_field.2) }

/-- The decode step of `subbc`. -/
def subbc (d : Decoder) (instr : Nat) : Decoder :=
  let bc := instr &&& 0x3
  let dest := (instr >>> 6) &&& 0x1F
  let source := (instr >>> 11) &&& 0x1F
  let bc_reg := (instr >>> 16) &&& 0x1F
  let field := (instr >>> 21) &&& 0xF
  let d1 := { d with vf_write := (dest, d.vf_write.2) }
  let d2 := { d1 with vf_write_field := (field, d1.vf_write_field.2) }
  let d3 := { d2 with vf_read0 := (source, d2.vf_read0.2) }
  let d4 := { d3 with vf_read0_field := (field, d3.vf_read0_field.2) }
  let d5 := { d4 with vf_read1 := (bc_reg, d4.vf_read1.2) }
  { d5 with vf_read1_field := (1 <<< (3 - bc), d5.vf_read1_field.2) }

/-- The decode step of `maddbc`. -/
def maddbc (d : Decoder) (instr : Nat) : Decoder :=
  let bc := instr &&& 0x3
  let dest := (instr >>> 6) &&& 0x1F
  let source := (instr >>> 11) &&& 0x1F
  let bc_reg := (instr >>> 16) &&& 0x1F
  let field := (instr >>> 21) &&& 0xF
  let d1 := { d with vf_write := (dest, d.vf_write.2) }
  let d2 := { d1 with vf_write_field := (field, d1.vf_write_field.2) }
  let d3 := { d2 with vf_read0 := (source, d2.vf_read0.2) }
  let d4 := { d3 with vf_read0_field := (field, d3.vf_read0_field.2) }
  let d5 := { d4 with vf_read1 := (bc_reg, d4.vf_read1.2) }
  { d5 with vf_read1_field := (1 <<< (3 - bc), d5.vf_read1_field.2) }

/-- The decode step of `msubbc`. -/
def msubbc (d : Decoder) (instr : Nat) : Decoder :=
  let bc := instr &&& 0x3
  let dest := (instr >>> 6) &&& 0x1F
  let source := (instr >>> 11) &&& 0x1F
  let bc_reg := (instr >>> 16) &&& 0x1F
  let field := (instr >>> 21) &&& 0xF
  let d1 := { d with vf_write := (dest, d.vf_write.2) }
  let d2 := { d1 with vf_write_field := (field, d1.vf_write_field.2) }
  let d3 := { d2 with vf_read0 := (source, d2.vf_read0.2) }
  let d4 := { d3 with vf_read0_field := (field, d3.vf_read0_field.2) }
  let d5 := { d4 with vf_read1 := (bc_reg, d4.vf_read1.2) }
  { d5 with vf_read1_field := (1 <<< (3 - bc), d5.vf_read1_field.2) }

/-- The decode step of `maxbc`. -/
def maxbc (d : Decoder) (instr : Nat) : Decoder :=
  let bc := instr &&& 0x3
  let dest := (instr >>> 6) &&& 0x1F
  let source := (instr >>> 11) &&& 0x1F
  let bc_reg := (instr >>> 16) &&& 0x1F
  let field := (instr >>> 21) &&& 0xF
  let d1 := { d with vf_write := (dest, d.vf_write.2) }
  let d2 := { d1 with vf_write_field := (field, d1.vf_write_field.2) }
  let d3 := { d2 with vf_read0 := (source, d2.vf_read0.2) }
  let d4 := { d3 with vf_read0_field := (field, d3.vf_read0_field.2) }
  let d5 := { d4 with vf_read1 := (bc_reg, d4.vf_read1.2) }
  { d5 with vf_read1_field := (1 <<< (3 - bc), d5.vf_read1_field.2) }

/-- The decode step of `minibc`. -/
def minibc (d : Decoder) (instr : Nat) : Decoder :=
  let bc := instr &&& 0x3
  let dest := (instr >>> 6) &&& 0x1F
  let source := (instr >>> 11) &&& 0x1F
  let bc_reg := (instr >>> 16) &&& 0x1F
  let field := (instr >>> 21) &&& 0xF
  let d1 := { d with vf_write := (dest, d.vf_write.2) }
  let d2 := { d1 with vf_write_field := (field, d1.vf_write_field.2) }
  let d3 := { d2 with vf_read0 := (source, d2.vf_read0.2) }
  let d4 := { d3 with vf_read0_field := (field, d3.vf_read0_field.2) }
  let d5 := { d4 with vf_read1 := (bc_reg, d4.vf_read1.2) }
  { d5 with vf_read1_field := (1 <<< (3 - bc), d5.vf_read1_field.2) }

/-- The decode step of `mulbc` (lines 293-310); the register `bc_reg` is stored into
`vf_read0[0]` (line 307). -/
def mulbc (d : Decoder) (instr : Nat) : Decoder :=
  let bc := instr &&& 0x3
  let dest := (instr >>> 6) &&& 0x1F
  let source := (instr >>> 11) &&& 0x1F
  let bc_reg := (instr >>> 16) &&& 0x1F
  let field := (instr >>> 21) &&& 0xF
  let d1 := { d with vf_write := (dest, d.vf_write.2) }
  let d2 := { d1 with vf_write_field := (field, d1.vf_write_field.2) }
  let d3 := { d2 with vf_read0 := (source, d2.vf_read0.2) }
  let d4 := { d3 with vf_read0_field := (field, d3.vf_read0_field.2) }
  let d5 := { d4 with vf_read0 := (bc_reg, d4.vf_read0.2) }
  { d5 with vf_read1_field := (1 <<< (3 - bc), d5.vf_read1_field.2) }

/-- The first seven groups of cases of `upper` (opcodes `0x00`..`0x1B`), which call the
broadcast handlers; `none` stands for the other cases of the `switch`, which are not part
of the model. -/
def upper_broadcast (d : Decoder) (instr : Nat) : Option Decoder :=
  let op := instr &&& 0x3F
  if op ≤ 0x03 then some (addbc d instr)
  else if op ≤ 0x07 then some (subbc d instr)
  else if op ≤ 0x0B then some (maddbc d instr)
  else if op ≤ 0x0F then some (msubbc d instr)
  else if op ≤ 0x13 then some (maxbc d instr)
  else if op ≤ 0x17 then some (minibc d instr)
  else if op ≤ 0x1B then some (mulbc d instr)
  else none

/-- What the specification expects of the decoder after a broadcast instruction. -/
def broadcast_records (d : Decoder) (instr : Nat) : Prop :=
  d.vf_write.1 = (instr >>> 6) &&& 0x1F ∧ d.vf_write_field.1 = (instr >>> 21) &&& 0xF ∧
  d.vf_read0.1 = (instr >>> 11) &&& 0x1F ∧ d.vf_read0_field.1 = (instr >>> 21) &&& 0xF ∧
  d.vf_read1.1 = (instr >>> 16) &&& 0x1F ∧
  d.vf_read1_field.1 = 1 <<< (3 - (instr &&& 0x3))

instance (d : Decoder) (instr : Nat) : Decidable (broadcast_records d instr) := by
  unfold broadcast_records
  infer_instance

end VU_Interpreter

/-! ## Save state of the subsystem interface (`core/serialize.cpp`, `core/sif.hpp`) -/

namespace core

/-- The data members of `class SubsystemInterface` that the save state handles; each
`std::queue<uint32_t>` is the list of its words, front first. -/
structure SubsystemInterface where
  mscom : Nat
  smcom : Nat
  msflag : Nat
  smflag : Nat
  control : Nat
  SIF0_FIFO : List Nat
  SIF1_FIFO : List Nat
  deriving DecidableEq, Repr

/-- The constant `SubsystemInterface::MAX_FIFO_SIZE`. -/
def MAX_FIFO_SIZE : Nat := 32

/-- The loop `buffer[i] = FIFO.front(); FIFO.pop();` from index `i`, `count` times, over
the bytes of the local `uint32_t buffer[32]`: the buffer and the queue afterwards, `none`
when `front()` is called on an empty queue or the store falls outside the buffer. -/
def drain_fifo : Nat → Nat → (Nat → Nat) → List Nat → Option ((Nat → Nat) × List Nat)
  | 0, _, buffer, fifo => some (buffer, fifo)
  | count + 1, i, buffer, fifo =>
    match fifo with
    | [] => none
    | w :: rest =>
      if i < 32 then drain_fifo count (i + 1) (storeLE buffer (4 * i) 4 w) rest else none

/-- The loop `FIFO.push(buffer[i]);` from index `i`, `count` times. -/
def refill_fifo : Nat → Nat → (Nat → Nat) → List Nat → List Nat
  | 0, _, _, fifo => fifo
  | count + 1, i, buffer, fifo =>
    refill_fifo count (i + 1) buffer (fifo ++ [loadLE buffer (4 * i) 4])

/-- The byte count `sizeof(uint32_t) * size`, computed in `size_t`. -/
def fifo_bytes (size : Int) : Nat := (4 * wrap64 size) % 18446744073709551616

namespace SubsystemInterface

/-- The method `SubsystemInterface::save_state` (lines 242-272); `buffer` holds the
uninitialised bytes of the local array.  The result is the bytes written and the
interface afterwards, `none` when a queue holds more words than the array. -/
def save_state (sif : SubsystemInterface) (buffer : Nat → Nat) :
    Option (List Nat × SubsystemInterface) :=
  let head := le_bytes 4 sif.mscom ++ (le_bytes 4 sif.smcom ++ (le_bytes 4 sif.msflag ++
    (le_bytes 4 sif.smflag ++ le_bytes 4 sif.control)))
  let size0 : Int := signed32 sif.SIF0_FIFO.length
  match drain_fifo size0.toNat 0 buffer sif.SIF0_FIFO with
  | none => none
  | some (buffer0, fifo0) =>
    let out0 := le_bytes 4 (wrap32 size0) ++ dump buffer0 (fifo_bytes size0)
    let sif0 := { sif with SIF0_FIFO := refill_fifo size0.toNat 0 buffer0 fifo0 }
    let size1 : Int := signed32 sif0.SIF1_FIFO.length
    match drain_fifo size1.toNat 0 buffer0 sif0.SIF1_FIFO with
    | none => none
    | some (buffer1, fifo1) =>
      let out1 := le_bytes 4 (wrap32 size1) ++ dump buffer1 (fifo_bytes size1)
      some (head ++ (out0 ++ out1),
            { sif0 with SIF1_FIFO := refill_fifo size1.toNat 0 buffer1 fifo1 })

/-- The method `SubsystemInterface::load_state` (lines 218-240); `size_local` and
`buffer` hold the uninitialised bytes of the locals.  The result is the interface and the
rest of the stream, `none` when a size read from the stream exceeds the array. -/
def load_state (sif : SubsystemInterface) (size_local : List Nat) (buffer : Nat → Nat)
    (state : List Nat) : Option (SubsystemInterface × List Nat) :=
  let r1 := stream_read state 4 (le_bytes 4 sif.mscom)
  let r2 := stream_read r1.2 4 (le_bytes 4 sif.smcom)
  let r3 := stream_read r2.2 4 (le_bytes 4 sif.msflag)
  let r4 := stream_read r3.2 4 (le_bytes 4 sif.smflag)
  let r5 := stream_read r4.2 4 (le_bytes 4 sif.control)
  let r6 := stream_read r5.2 4 size_local
  let size0 : Int := signed32 (le_value r6.1)
  if fifo_bytes size0 > 4 * 32 then none
  else
    let r7 := stream_read r6.2 (fifo_bytes size0) (dump buffer (fifo_bytes size0))
    let buffer0 := fill buffer r7.1
    let fifo0 := refill_fifo size0.toNat 0 buffer0 sif.SIF0_FIFO
    let r8 := stream_read r7.2 4 r6.1
    let size1 : Int := signed32 (le_value r8.1)
    if fifo_bytes size1 > 4 * 32 then none
    else
      let r9 := stream_read r8.2 (fifo_bytes size1) (dump buffer0 (fifo_bytes size1))
      let buffer1 := fill buffer0 r9.1
      let fifo1 := refill_fifo size1.toNat 0 buffer1 sif.SIF1_FIFO
      some ({ mscom := le_value r1.1, smcom := le_value r2.1, msflag := le_value r3.1,
              smflag := le_value r4.1, control := le_value r5.1,
              SIF0_FIFO := fifo0, SIF1_FIFO := fifo1 }, r9.2)

/-- An interface whose registers and queued words are 32-bit values. -/
def words_fit (sif : SubsystemInterface) : Prop :=
  sif.mscom < 4294967296 ∧ sif.smcom < 4294967296 ∧ sif.msflag < 4294967296 ∧
  sif.smflag < 4294967296 ∧ sif.control < 4294967296 ∧
  (∀ w ∈ sif.SIF0_FIFO, w < 4294967296) ∧ (∀ w ∈ sif.SIF1_FIFO, w < 4294967296)

end SubsystemInterface

/-- An interface for tests with three words in SIF0 and two in SIF1. -/
def bench_sif : SubsystemInterface :=
  { mscom := 1, smcom := 2, msflag := 3, smflag := 4, control := 5,
    SIF0_FIFO := [0x11111111, 0x22222222, 0x33333333], SIF1_FIFO := [0xAAAAAAAA, 0xBBBBBBBB] }

/-- An interface for tests after `reset`: other registers, both queues empty. -/
def bench_sif_reset : SubsystemInterface :=
  { mscom := 9, smcom := 9, msflag := 9, smflag := 9, control := 9,
    SIF0_FIFO := [], SIF1_FIFO := [] }

/-! ## Requests to load and save a state (`core/serialize.cpp`, `qt/emuthread.cpp`,
`qt/emuwindow.cpp`) -/

/-- The method `Emulator::request_load_state` (lines 32-41); `opened` tells whether the
file can be opened for reading. -/
def Emulator.request_load_state {P : Type} (opened : Bool) (file_name : String)
    (e : Emulator P) : Bool × Emulator P :=
  if ¬ opened then (false, e)
  else (true, { e with save_state_path := file_name, load_requested := true })

/-- The method `Emulator::request_save_state` (lines 43-52); `opened` tells whether the
file can be opened for writing. -/
def Emulator.request_save_state {P : Type} (opened : Bool) (file_name : String)
    (e : Emulator P) : Bool × Emulator P :=
  if ¬ opened then (false, e)
  else (true, { e with save_state_path := file_name, save_requested := true })

end core

/-- The members of `class EmuThread` that the state requests and the pause events use. -/
structure EmuThread (P : Type) where
  e : core.Emulator P
  pause_status : Nat
  block_run_loop : Bool

namespace EmuThread

variable {P : Type}

/-- The method `EmuThread::load_state` (lines 81-91): the value returned and the thread
afterwards. -/
def load_state (opened : Bool) (name : String) (t : EmuThread P) : Bool × EmuThread P :=
  let t1 := { t with block_run_loop := true }
  let fail := false
  let r := t1.e.request_load_state opened name
  let fail := if ¬ r.1 then true else fail
  let t2 := { t1 with e := r.2 }
  (fail, { t2 with block_run_loop := false })

/-- The method `EmuThread::save_state` (lines 93-103). -/
def save_state (opened : Bool) (name : String) (t : EmuThread P) : Bool × EmuThread P :=
  let t1 := { t with block_run_loop := true }
  let fail := false
  let r := t1.e.request_save_state opened name
  let fail := if ¬ r.1 then true else fail
  let t2 := { t1 with e := r.2 }
  (fail, { t2 with block_run_loop := false })

/-- The method `EmuThread::pause`: `pause_status |= 1 << event`. -/
def pause (event : Nat) (t : EmuThread P) : EmuThread P :=
  let t1 := { t with block_run_loop := true }
  let t2 := { t1 with pause_status := t1.pause_status ||| (1 <<< event) }
  { t2 with block_run_loop := false }

/-- The method `EmuThread::unpause`: `pause_status &= ~(1 << event)`. -/
def unpause (event : Nat) (t : EmuThread P) : EmuThread P :=
  let t1 := { t with block_run_loop := true }
  let t2 := { t1 with
    pause_status := t1.pause_status - (t1.pause_status &&& (1 <<< event)) }
  { t2 with block_run_loop := false }

end EmuThread

/-- The lines that `EmuWindow::load_state` and `EmuWindow::save_state` print. -/
inductive WindowLine where
  | failed_to_load (file : String)
  | failed_to_save (file : String)
  deriving DecidableEq, Repr

namespace EmuWindow

variable {P : Type}

/-- The method `EmuWindow::load_state` (lines 767-782) for the state file `file`:
`file_exists` is the result of `QFile::exists`, `FILE_DIALOG` the value of the pause
event.  The result is the lines printed and the emulation thread afterwards. -/
def load_state (FILE_DIALOG : Nat) (file : String) (file_exists opened : Bool)
    (t : EmuThread P) : List WindowLine × EmuThread P :=
  let t1 := t.pause FILE_DIALOG
  if ¬ file_exists then ([WindowLine.failed_to_load file], t1.unpause FILE_DIALOG)
  else
    let r := t1.load_state opened file
    if ¬ r.1 then ([WindowLine.failed_to_load file], r.2.unpause FILE_DIALOG)
    else ([], r.2.unpause FILE_DIALOG)

/-- The method `EmuWindow::save_state` (lines 784-798). -/
def save_state (FILE_DIALOG : Nat) (file : String) (opened : Bool)
    (t : EmuThread P) : List WindowLine × EmuThread P :=
  let t1 := t.pause FILE_DIALOG
  let r := t1.save_state opened file
  if ¬ r.1 then ([WindowLine.failed_to_save file], r.2.unpause FILE_DIALOG)
  else ([], r.2.unpause FILE_DIALOG)

end EmuWindow

/-- The name of a state file for tests. -/
def bench_state_file : String := "game.snp"

/-- An emulation thread for tests around the test machine. -/
def bench_thread : EmuThread Unit :=
  { e := core.bench_emulator, pause_status := 0, block_run_loop := false }

/-! ## Theorems -/

/-! ### Byte-addressed storage -/

/-- A load of `n` bytes is below `256 ^ n`. -/
theorem loadLE_lt (mem : Nat → Nat) (a n : Nat) : loadLE mem a n < 256 ^ n := by
  induction n generalizing a with
  | zero => simp [loadLE]
  | succ n ih =>
    have h := ih (a + 1)
    have hb : mem a % 256 < 256 := Nat.mod_lt _ (by norm_num)
    simp only [loadLE, pow_succ]
    omega

/-- A load depends only on the bytes it covers. -/
theorem loadLE_congr (m1 m2 : Nat → Nat) (a n : Nat)
    (h : ∀ j, a ≤ j → j < a + n → m1 j = m2 j) : loadLE m1 a n = loadLE m2 a n := by
  induction n generalizing a with
  | zero => rfl
  | succ n ih =>
    simp only [loadLE]
    rw [h a (le_refl a) (by omega), ih (a + 1) (fun j h1 h2 => h j (by omega) (by omega))]

/-- A load of the bytes just stored returns the value modulo `256 ^ n`. -/
theorem loadLE_storeLE_same (mem : Nat → Nat) (a n v : Nat) :
    loadLE (storeLE mem a n v) a n = v % 256 ^ n := by
  induction n generalizing a v with
  | zero => simp [loadLE, Nat.mod_one]
  | succ n ih =>
    have hrest : loadLE (storeLE mem a (n + 1) v) (a + 1) n =
        loadLE (storeLE mem (a + 1) n (v / 256)) (a + 1) n := by
      apply loadLE_congr
      intro j h1 h2
      have e : j - a = (j - (a + 1)) + 1 := by omega
      simp only [storeLE]
      rw [if_pos ⟨by omega, by omega⟩, if_pos ⟨h1, h2⟩, e, pow_succ', Nat.div_div_eq_div_mul]
    have hhead : storeLE mem a (n + 1) v a = v % 256 := by
      simp [storeLE]
    simp only [loadLE]
    rw [hhead, hrest, ih, pow_succ', Nat.mod_mul]
    simp

/-- A load that does not meet the stored bytes is unaffected by the store. -/
theorem loadLE_storeLE_disjoint (mem : Nat → Nat) (a n v b k : Nat)
    (h : b + k ≤ a ∨ a + n ≤ b) :
    loadLE (storeLE mem a n v) b k = loadLE mem b k := by
  apply loadLE_congr
  intro j h1 h2
  simp only [storeLE]
  rw [if_neg]
  omega

/-- A load splits into its low `k` bytes and the bytes above them. -/
theorem loadLE_add (mem : Nat → Nat) (a k j : Nat) :
    loadLE mem a (k + j) = loadLE mem a k + 256 ^ k * loadLE mem (a + k) j := by
  induction k generalizing a with
  | zero => simp [loadLE]
  | succ k ih =>
    have e : k + 1 + j = (k + j) + 1 := by omega
    rw [e]
    simp only [loadLE]
    rw [ih (a + 1)]
    have e2 : a + 1 + k = a + (k + 1) := by omega
    rw [e2, pow_succ']
    ring

/-- The low `k` bytes of a wider load are the load of `k` bytes. -/
theorem loadLE_low (mem : Nat → Nat) (a k j : Nat) :
    loadLE mem a (k + j) % 256 ^ k = loadLE mem a k := by
  rw [loadLE_add, Nat.add_mul_mod_self_left]
  exact Nat.mod_eq_of_lt (loadLE_lt mem a k)

/-! ### Registers -/

/-- C1. A write to register index 0 is a no-op on both processors: for every value,
access width and sub-register offset `EmotionEngine::set_gpr` with `id = 0` returns
the state it was given, and so does `IOP::set_gpr` with `index = 0`; consequently a
register 0 that read as 0 before the write reads as 0 after it. -/
theorem C1_set_gpr_zero_is_noop (cpu : ee.EmotionEngine) (io : iop.IOP)
    (sz value offset value32 : Nat) :
    cpu.set_gpr sz 0 value offset = cpu ∧
    io.set_gpr 0 value32 = io ∧
    (∀ sz2 off2, (cpu.set_gpr sz 0 value offset).get_gpr sz2 0 off2 = cpu.get_gpr sz2 0 off2) ∧
    (cpu.get_gpr 16 0 0 = 0 → (cpu.set_gpr sz 0 value offset).get_gpr 16 0 0 = 0) ∧
    (io.get_gpr 0 = 0 → (io.set_gpr 0 value32).get_gpr 0 = 0) := by
  have h1 : cpu.set_gpr sz 0 value offset = cpu := by
    simp [ee.EmotionEngine.set_gpr]
  have h2 : io.set_gpr 0 value32 = io := by
    simp [iop.IOP.set_gpr]
  refine ⟨h1, h2, ?_, ?_, ?_⟩
  · intro sz2 off2
    rw [h1]
  · intro h
    rw [h1]
    exact h
  · intro h
    rw [h2]
    exact h

/-! ### IOP branch delay slot -/

/-- The low two bits of a multiple of four are clear. -/
theorem and_three_of_mod_four (t : Nat) (h : t % 4 = 0) : t &&& 0x3 = 0 := by
  have h2 : t &&& (2 ^ 2 - 1) = t % 2 ^ 2 := Nat.and_pow_two_sub_one_eq_mod t 2
  simpa [h] using h2

/-- The fetch phase leaves `PC` and the pending-branch fields as they are. -/
theorem fetch_phase_control {E : Type} (b : iop.Collaborators E) (m : iop.Machine E) :
    (iop.fetch_phase b m).2.cpu.PC = m.cpu.PC ∧
    (iop.fetch_phase b m).2.cpu.will_branch = m.cpu.will_branch ∧
    (iop.fetch_phase b m).2.cpu.branch_delay = m.cpu.branch_delay ∧
    (iop.fetch_phase b m).2.cpu.new_PC = m.cpu.new_PC ∧
    (iop.fetch_phase b m).2.executed = m.executed ++ [(m.cpu.PC, (iop.fetch_phase b m).1)] := by
  simp only [iop.fetch_phase, iop.read_instr]
  split <;> split <;> simp

/-! ### EE integer handlers -/

/-- A 32-bit register read is below 2^32. -/
theorem get_gpr4_lt (cpu : ee.EmotionEngine) (id offset : Nat) :
    cpu.get_gpr 4 id offset < 4294967296 := by
  have h := loadLE_lt cpu.gpr (id * 8 * 2 + offset * 4) 4
  simpa [ee.EmotionEngine.get_gpr] using h

/-- A 64-bit read of a register that was just written with 64 bits returns the value. -/
theorem get_set_gpr8 (cpu : ee.EmotionEngine) (id v : Nat) (h : id ≠ 0) :
    (cpu.set_gpr 8 id v 0).get_gpr 8 id 0 = v % 18446744073709551616 := by
  simp only [ee.EmotionEngine.set_gpr, ee.EmotionEngine.get_gpr, if_pos h]
  rw [loadLE_storeLE_same]
  norm_num

/-- The 32-bit view of a register is the low word of its 64-bit view. -/
theorem get_gpr4_eq_low (cpu : ee.EmotionEngine) (id : Nat) :
    cpu.get_gpr 4 id 0 = cpu.get_gpr 8 id 0 % 4294967296 := by
  have h := loadLE_low cpu.gpr (id * 8 * 2 + 0 * 4) 4 4
  simp only [ee.EmotionEngine.get_gpr]
  norm_num at h ⊢
  exact h.symm

/-- The 8-bit view of a register is the low byte of its 64-bit view. -/
theorem get_gpr1_eq_low (cpu : ee.EmotionEngine) (id : Nat) :
    cpu.get_gpr 1 id 0 = cpu.get_gpr 8 id 0 % 256 := by
  have h := loadLE_low cpu.gpr (id * 8 * 2 + 0 * 1) 1 7
  simp only [ee.EmotionEngine.get_gpr]
  norm_num at h ⊢
  exact h.symm

/-- C3. Division by zero.  When the low 32 bits of `rt` are 0 and `V` is the low word of
`rs`: `div` returns normally with `HI` = sign-extended `V` and `LO` = -1 (all ones) for
`V >= 0`, `LO` = 1 for `V < 0`; `divu` returns normally with `HI` = sign-extended `V` and
`LO` = all ones.  In both results every other field (in particular `PC`, `new_PC`,
`branch_on`, `delay_slot`, the registers and the upper halves of `LO`/`HI`) is as before. -/
theorem C3_divide_by_zero (cpu : ee.EmotionEngine) (instruction : Nat)
    (hzero : cpu.get_gpr 4 (ee.interpreter.field_rt instruction) 0 = 0) :
    ee.interpreter.div cpu instruction =
      some { cpu with
        LO := { cpu.LO with
          lo := if 0 ≤ signed32 (cpu.get_gpr 4 (ee.interpreter.field_rs instruction) 0)
                then 18446744073709551615 else 1 },
        HI := { cpu.HI with
          lo := sext32 (cpu.get_gpr 4 (ee.interpreter.field_rs instruction) 0) } } ∧
    ee.interpreter.divu cpu instruction =
      some { cpu with
        LO := { cpu.LO with lo := 18446744073709551615 },
        HI := { cpu.HI with
          lo := sext32 (cpu.get_gpr 4 (ee.interpreter.field_rs instruction) 0) } } := by
  have hs0 : signed32 0 = 0 := by decide
  have hg : ee.interpreter.div_overflow_guard
      (signed32 (cpu.get_gpr 4 (ee.interpreter.field_rs instruction) 0)) 0 = false := by
    simp [ee.interpreter.div_overflow_guard, wrap32]
  have hm1 : wrap64 (-1) = 18446744073709551615 := by decide
  have h1 : wrap64 1 = 1 := by decide
  constructor
  · simp only [ee.interpreter.div, hzero, hs0, hg, ee.EmotionEngine.set_LO_HI]
    by_cases hv : 0 ≤ signed32 (cpu.get_gpr 4 (ee.interpreter.field_rs instruction) 0)
    · simp [hv, hm1, sext32]
    · simp [hv, h1, sext32]
  · simp [ee.interpreter.divu, hzero, hm1, ee.EmotionEngine.set_LO_HI]

/-- Witness for C3 on the test register file: `r1 = -5` divided by `r2 = 0`
(`div r1, r2` is the word `0x0022001A`, `divu r1, r2` has the same fields) gives
`LO = 1` for `div`, `LO = 0xFFFFFFFFFFFFFFFF` for `divu`, `HI = -5` and the old `PC`. -/
theorem C3_divide_by_zero_witness :
    (ee.interpreter.div ee.bench_cpu 0x0022001A).map (fun s => (s.LO.lo, s.HI.lo, s.PC)) =
      some (1, 0xFFFFFFFFFFFFFFFB, 0xBFC00000) ∧
    (ee.interpreter.divu ee.bench_cpu 0x0022001A).map (fun s => (s.LO.lo, s.HI.lo, s.PC)) =
      some (0xFFFFFFFFFFFFFFFF, 0xFFFFFFFFFFFFFFFB, 0xBFC00000) := by
  have h := C3_divide_by_zero ee.bench_cpu 0x0022001A (by decide)
  rw [h.1, h.2]
  constructor <;> decide

/-- Reading a 32-bit value as `int32_t` and converting back to `unsigned` gives it back. -/
theorem wrap32_signed32 (n : Nat) (h : n < 4294967296) : wrap32 (signed32 n) = n := by
  unfold wrap32 signed32
  split <;> omega

/-- The guard of `div` holds exactly for the operand pair `(0x80000000, 0xFFFFFFFF)`. -/
theorem div_overflow_guard_iff (v d : Nat) (hv : v < 4294967296) (hd : d < 4294967296) :
    ee.interpreter.div_overflow_guard (signed32 v) (signed32 d) = true ↔
      v = 0x80000000 ∧ d = 0xFFFFFFFF := by
  simp [ee.interpreter.div_overflow_guard, wrap32_signed32 v hv, wrap32_signed32 d hd]

/-- C4. The overflow case of signed `DIV`.  With `V`, `D` the low words of `rs`, `rt`:
the special-case guard of `div` holds exactly when `V = 0x80000000` and
`D = 0xFFFFFFFF`; for that pair `div` returns `LO = 0xFFFFFFFF80000000`, `HI = 0` (all
else unchanged) although the machine division is undefined there, so none was evaluated;
for every other pair with `D != 0` the result comes from the machine division, which is
defined. -/
theorem C4_div_overflow_special_case (cpu : ee.EmotionEngine) (instruction : Nat) :
    (ee.interpreter.div_overflow_guard
        (signed32 (cpu.get_gpr 4 (ee.interpreter.field_rs instruction) 0))
        (signed32 (cpu.get_gpr 4 (ee.interpreter.field_rt instruction) 0)) = true ↔
      cpu.get_gpr 4 (ee.interpreter.field_rs instruction) 0 = 0x80000000 ∧
      cpu.get_gpr 4 (ee.interpreter.field_rt instruction) 0 = 0xFFFFFFFF) ∧
    (cpu.get_gpr 4 (ee.interpreter.field_rs instruction) 0 = 0x80000000 ∧
      cpu.get_gpr 4 (ee.interpreter.field_rt instruction) 0 = 0xFFFFFFFF →
        ee.interpreter.div cpu instruction =
          some { cpu with LO := { cpu.LO with lo := 0xFFFFFFFF80000000 },
                          HI := { cpu.HI with lo := 0 } } ∧
        ee.interpreter.idiv32
          (signed32 (cpu.get_gpr 4 (ee.interpreter.field_rs instruction) 0))
          (signed32 (cpu.get_gpr 4 (ee.interpreter.field_rt instruction) 0)) = none) ∧
    (¬ (cpu.get_gpr 4 (ee.interpreter.field_rs instruction) 0 = 0x80000000 ∧
        cpu.get_gpr 4 (ee.interpreter.field_rt instruction) 0 = 0xFFFFFFFF) →
      cpu.get_gpr 4 (ee.interpreter.field_rt instruction) 0 ≠ 0 →
        ee.interpreter.idiv32
          (signed32 (cpu.get_gpr 4 (ee.interpreter.field_rs instruction) 0))
          (signed32 (cpu.get_gpr 4 (ee.interpreter.field_rt instruction) 0)) =
          some (Int.tdiv
            (signed32 (cpu.get_gpr 4 (ee.interpreter.field_rs instruction) 0))
            (signed32 (cpu.get_gpr 4 (ee.interpreter.field_rt instruction) 0))) ∧
        ee.interpreter.div cpu instruction =
          some (cpu.set_LO_HI
            (wrap64 (Int.tdiv
              (signed32 (cpu.get_gpr 4 (ee.interpreter.field_rs instruction) 0))
              (signed32 (cpu.get_gpr 4 (ee.interpreter.field_rt instruction) 0))))
            (wrap64 (Int.tmod
              (signed32 (cpu.get_gpr 4 (ee.interpreter.field_rs instruction) 0))
              (signed32 (cpu.get_gpr 4 (ee.interpreter.field_rt instruction) 0))))
            false)) := by
  have hv := get_gpr4_lt cpu (ee.interpreter.field_rs instruction) 0
  have hd := get_gpr4_lt cpu (ee.interpreter.field_rt instruction) 0
  refine ⟨div_overflow_guard_iff _ _ hv hd, ?_, ?_⟩
  · rintro ⟨h1, h2⟩
    have hg := (div_overflow_guard_iff _ _ hv hd).2 ⟨h1, h2⟩
    have hs : sext32 0x80000000 = 0xFFFFFFFF80000000 := by decide
    constructor
    · simp only [ee.interpreter.div, hg, if_true, ee.EmotionEngine.set_LO_HI, hs]
      simp
    · rw [h1, h2]
      decide
  · intro hne hd0
    have hg : ee.interpreter.div_overflow_guard
        (signed32 (cpu.get_gpr 4 (ee.interpreter.field_rs instruction) 0))
        (signed32 (cpu.get_gpr 4 (ee.interpreter.field_rt instruction) 0)) = false := by
      rw [Bool.eq_false_iff]
      intro h
      exact hne ((div_overflow_guard_iff _ _ hv hd).1 h)
    have hnot : ¬ (signed32 (cpu.get_gpr 4 (ee.interpreter.field_rt instruction) 0) = 0 ∨
        (signed32 (cpu.get_gpr 4 (ee.interpreter.field_rs instruction) 0) = -2147483648 ∧
         signed32 (cpu.get_gpr 4 (ee.interpreter.field_rt instruction) 0) = -1)) := by
      unfold signed32
      split <;> split <;> omega
    have hs : signed32 (cpu.get_gpr 4 (ee.interpreter.field_rt instruction) 0) ≠ 0 :=
      fun h => hnot (Or.inl h)
    simp only [ee.interpreter.div, hg, ee.interpreter.idiv32, ee.interpreter.imod32, hnot]
    simp [hs]

/-- Witness for C4 on the test register file: `div r3, r4` (the word `0x0064001A`) with
`r3 = 0x80000000` and `r4 = 0xFFFFFFFF`. -/
theorem C4_div_overflow_witness :
    (ee.interpreter.div ee.bench_cpu 0x0064001A).map (fun s => (s.LO.lo, s.HI.lo)) =
      some (0xFFFFFFFF80000000, 0) := by
  have h := (C4_div_overflow_special_case ee.bench_cpu 0x0064001A).2.1 (by decide)
  rw [h.1]
  decide

/-- Storing a sign-extended word: the 64-bit value is its own sign extension and its low
word is the low word of the operand. -/
theorem sext32_props (x : Nat) :
    sext32 x < 18446744073709551616 ∧ sext32 (sext32 x) = sext32 x ∧
    sext32 x % 4294967296 = x % 4294967296 := by
  unfold sext32 wrap64 signed32
  refine ⟨?_, ?_, ?_⟩ <;> split <;> (try split) <;> omega

/-- The 64-bit image of an integer in the `int32_t` range is its own sign extension and
its low word is the 32-bit image. -/
theorem wrap64_int32_props (y : Int) (hlo : -2147483648 ≤ y) (hhi : y < 2147483648) :
    wrap64 y < 18446744073709551616 ∧ sext32 (wrap64 y) = wrap64 y ∧
    wrap64 y % 4294967296 = wrap32 y := by
  unfold sext32 wrap64 wrap32 signed32
  refine ⟨?_, ?_, ?_⟩ <;> (try split) <;> omega

/-- What a 64-bit read returns after a sign-extended word was stored. -/
theorem stored_sext32 (x : Nat) :
    sext32 x % 18446744073709551616 = sext32 (sext32 x % 18446744073709551616) ∧
    sext32 x % 18446744073709551616 % 4294967296 = x % 4294967296 := by
  have h := sext32_props x
  rw [Nat.mod_eq_of_lt h.1]
  exact ⟨h.2.1.symm, h.2.2⟩

/-- What a 64-bit read returns after an `int32_t` value was stored as `int64_t`. -/
theorem stored_int32 (y : Int) (hlo : -2147483648 ≤ y) (hhi : y < 2147483648) :
    wrap64 y % 18446744073709551616 = sext32 (wrap64 y % 18446744073709551616) ∧
    wrap64 y % 18446744073709551616 % 4294967296 = wrap32 y := by
  have h := wrap64_int32_props y hlo hhi
  rw [Nat.mod_eq_of_lt h.1]
  exact ⟨h.2.1.symm, h.2.2⟩

/-- The wrapped result of an `int32_t` computation lies in the 32-bit signed range and
has the same 32-bit image as the exact value. -/
theorem wrap_int32_props (x : Int) :
    -2147483648 ≤ ee.interpreter.wrap_int32 x ∧ ee.interpreter.wrap_int32 x < 2147483648 ∧
    wrap32 (ee.interpreter.wrap_int32 x) = wrap32 x := by
  unfold ee.interpreter.wrap_int32 signed32 wrap32
  refine ⟨?_, ?_, ?_⟩ <;> split <;> omega

/-- The `int32_t` view of a word lies in the 32-bit signed range. -/
theorem signed32_range (n : Nat) : -2147483648 ≤ signed32 n ∧ signed32 n < 2147483648 := by
  unfold signed32
  split <;> omega

/-- An arithmetic right shift keeps a value inside the `int32_t` range. -/
theorem shiftRight_int32_range (y : Int) (k : Nat) (hlo : -2147483648 ≤ y)
    (hhi : y < 2147483648) :
    -2147483648 ≤ y / ((2 ^ k : Nat) : Int) ∧ y / ((2 ^ k : Nat) : Int) < 2147483648 := by
  have hpos : (0 : Int) < ((2 ^ k : Nat) : Int) := by positivity
  have hone : (1 : Int) ≤ ((2 ^ k : Nat) : Int) := hpos
  constructor
  · rw [Int.le_ediv_iff_mul_le hpos]
    nlinarith
  · rw [Int.ediv_lt_iff_lt_mul hpos]
    nlinarith

/-- The shift amount of the variable shifts is the low five bits of `rs`. -/
theorem shift_amount_eq (cpu : ee.EmotionEngine) (id : Nat) :
    cpu.get_gpr 1 id 0 &&& 0x1F = (cpu.get_gpr 8 id 0 % 4294967296) % 32 := by
  have h := Nat.and_pow_two_sub_one_eq_mod (cpu.get_gpr 1 id 0) 5
  norm_num at h
  rw [h, get_gpr1_eq_low]
  omega

/-- C5. Sign-extension policy of the 32-bit operations.  For each of SLL, SRL, SRA, SLLV,
SRLV, SRAV, ADD, ADDU, SUB, SUBU and every instruction word with `rd != 0`: after the
handler the low 64 bits of `rd` equal the sign extension of their own low 32 bits, and
those low 32 bits are the architectural 32-bit result computed from the low words of the
source registers as they were before the instruction. -/
theorem C5_alu32_results_sign_extended (op : ee.Alu32) (cpu : ee.EmotionEngine)
    (instruction : Nat) (hrd : ee.interpreter.field_rd instruction ≠ 0) :
    (op.handler cpu instruction).get_gpr 8 (ee.interpreter.field_rd instruction) 0 =
      sext32 ((op.handler cpu instruction).get_gpr 8 (ee.interpreter.field_rd instruction) 0) ∧
    (op.handler cpu instruction).get_gpr 8 (ee.interpreter.field_rd instruction) 0 % 4294967296 =
      op.result32
        (cpu.get_gpr 8 (ee.interpreter.field_rs instruction) 0 % 4294967296)
        (cpu.get_gpr 8 (ee.interpreter.field_rt instruction) 0 % 4294967296)
        (ee.interpreter.field_sa instruction) := by
  have hrt := get_gpr4_eq_low cpu (ee.interpreter.field_rt instruction)
  have hrs := get_gpr4_eq_low cpu (ee.interpreter.field_rs instruction)
  have hsh := shift_amount_eq cpu (ee.interpreter.field_rs instruction)
  have hrtlt := get_gpr4_lt cpu (ee.interpreter.field_rt instruction) 0
  have hrng := signed32_range (cpu.get_gpr 4 (ee.interpreter.field_rt instruction) 0)
  cases op
  case SLL =>
    simp only [ee.Alu32.handler, ee.Alu32.result32, ee.interpreter.sll, get_set_gpr8 _ _ _ hrd]
    refine ⟨(stored_sext32 _).1, ?_⟩
    rw [(stored_sext32 _).2, ← hrt, Nat.shiftLeft_eq]
    omega
  case SRL =>
    simp only [ee.Alu32.handler, ee.Alu32.result32, ee.interpreter.srl, get_set_gpr8 _ _ _ hrd]
    refine ⟨(stored_sext32 _).1, ?_⟩
    rw [(stored_sext32 _).2, ← hrt, Nat.shiftRight_eq_div_pow]
    exact Nat.mod_eq_of_lt (lt_of_le_of_lt (Nat.div_le_self _ _) hrtlt)
  case SRA =>
    simp only [ee.Alu32.handler, ee.Alu32.result32, ee.interpreter.sra, get_set_gpr8 _ _ _ hrd]
    rw [Int.shiftRight_eq_div_pow, ← hrt]
    have hr := shiftRight_int32_range _ (ee.interpreter.field_sa instruction) hrng.1 hrng.2
    exact stored_int32 _ hr.1 hr.2
  case SLLV =>
    simp only [ee.Alu32.handler, ee.Alu32.result32, ee.interpreter.sllv, get_set_gpr8 _ _ _ hrd]
    refine ⟨(stored_sext32 _).1, ?_⟩
    rw [(stored_sext32 _).2, ← hrt, hsh, Nat.shiftLeft_eq]
    omega
  case SRLV =>
    simp only [ee.Alu32.handler, ee.Alu32.result32, ee.interpreter.srlv, get_set_gpr8 _ _ _ hrd]
    refine ⟨(stored_sext32 _).1, ?_⟩
    rw [(stored_sext32 _).2, ← hrt, hsh, Nat.shiftRight_eq_div_pow]
    exact Nat.mod_eq_of_lt (lt_of_le_of_lt (Nat.div_le_self _ _) hrtlt)
  case SRAV =>
    simp only [ee.Alu32.handler, ee.Alu32.result32, ee.interpreter.srav, get_set_gpr8 _ _ _ hrd]
    rw [Int.shiftRight_eq_div_pow, ← hrt, hsh]
    have hr := shiftRight_int32_range _
      (cpu.get_gpr 8 (ee.interpreter.field_rs instruction) 0 % 4294967296 % 32) hrng.1 hrng.2
    exact stored_int32 _ hr.1 hr.2
  case ADD =>
    simp only [ee.Alu32.handler, ee.Alu32.result32, ee.interpreter.add, get_set_gpr8 _ _ _ hrd]
    have hw := wrap_int32_props
      (signed32 (cpu.get_gpr 8 (ee.interpreter.field_rs instruction) 0) +
       signed32 (cpu.get_gpr 8 (ee.interpreter.field_rt instruction) 0))
    have hst := stored_int32 _ hw.1 hw.2.1
    refine ⟨hst.1, ?_⟩
    rw [hst.2, hw.2.2]
    unfold wrap32 signed32
    split <;> split <;> omega
  case ADDU =>
    simp only [ee.Alu32.handler, ee.Alu32.result32, ee.interpreter.addu, get_set_gpr8 _ _ _ hrd]
    have hw := wrap_int32_props
      (signed32 (cpu.get_gpr 8 (ee.interpreter.field_rs instruction) 0) +
       signed32 (cpu.get_gpr 8 (ee.interpreter.field_rt instruction) 0))
    have hst := stored_int32 _ hw.1 hw.2.1
    refine ⟨hst.1, ?_⟩
    rw [hst.2, hw.2.2]
    unfold wrap32 signed32
    split <;> split <;> omega
  case SUB =>
    simp only [ee.Alu32.handler, ee.Alu32.result32, ee.interpreter.sub, get_set_gpr8 _ _ _ hrd]
    have hw := wrap_int32_props
      (signed32 (cpu.get_gpr 4 (ee.interpreter.field_rs instruction) 0) -
       signed32 (cpu.get_gpr 4 (ee.interpreter.field_rt instruction) 0))
    have hst := stored_int32 _ hw.1 hw.2.1
    refine ⟨hst.1, ?_⟩
    rw [hst.2, hw.2.2, ← hrt, ← hrs]
    unfold wrap32 signed32
    split <;> split <;> omega
  case SUBU =>
    simp only [ee.Alu32.handler, ee.Alu32.result32, ee.interpreter.subu, get_set_gpr8 _ _ _ hrd]
    have hw := wrap_int32_props
      (signed32 (cpu.get_gpr 4 (ee.interpreter.field_rs instruction) 0) -
       signed32 (cpu.get_gpr 4 (ee.interpreter.field_rt instruction) 0))
    have hst := stored_int32 _ hw.1 hw.2.1
    refine ⟨hst.1, ?_⟩
    rw [hst.2, hw.2.2, ← hrt, ← hrs]
    unfold wrap32 signed32
    split <;> split <;> omega

/-- Witness for C5 on the test register file: `sra r5, r3, 4` (the word `0x00032903`)
with `r3 = 0x80000000` leaves the sign-extended word `0xF8000000` in `r5`. -/
theorem C5_alu32_witness :
    (ee.Alu32.SRA.handler ee.bench_cpu 0x00032903).get_gpr 8 5 0 =
      sext32 ((ee.Alu32.SRA.handler ee.bench_cpu 0x00032903).get_gpr 8 5 0) ∧
    (ee.Alu32.SRA.handler ee.bench_cpu 0x00032903).get_gpr 8 5 0 % 4294967296 = 0xF8000000 := by
  have h := C5_alu32_results_sign_extended ee.Alu32.SRA ee.bench_cpu 0x00032903 (by decide)
  exact ⟨h.1, h.2.trans (by decide)⟩

/-- The handler `jalr` stores the return address zero-extended: with `rd != 0` the low
64 bits of `rd` are `(PC + 8) mod 2^32`, so their upper 32 bits are all zero. -/
theorem jalr_return_address (cpu : ee.EmotionEngine) (instruction : Nat)
    (hrd : ee.interpreter.field_rd instruction ≠ 0) :
    (ee.interpreter.jalr cpu instruction).get_gpr 8 (ee.interpreter.field_rd instruction) 0 =
      (cpu.PC + 8) % 4294967296 := by
  have h : ∀ c : ee.EmotionEngine, ∀ v : Nat,
      c.set_gpr 8 (ee.interpreter.field_rd instruction) v 0 =
        { c with gpr := storeLE c.gpr (ee.interpreter.field_rd instruction * 8 * 2 + 0 * 8) 8 v } := by
    intro c v
    simp [ee.EmotionEngine.set_gpr, hrd]
  simp only [ee.interpreter.jalr, h, ee.EmotionEngine.get_gpr, ee.EmotionEngine.get_PC]
  rw [loadLE_storeLE_same]
  omega

/-- C6 (as amended). `jalr` with `rd != 0` stores the 32-bit return address
`(PC + 8) mod 2^32` in the low 64 bits of `rd` zero-extended: for every `PC` the upper
32 bits of the low 64-bit half of `rd` are all zero. -/
theorem C6_jalr_return_address_zero_extended (cpu : ee.EmotionEngine) (instruction : Nat)
    (hrd : ee.interpreter.field_rd instruction ≠ 0) :
    (ee.interpreter.jalr cpu instruction).get_gpr 8 (ee.interpreter.field_rd instruction) 0 =
      (cpu.PC + 8) % 4294967296 ∧
    (ee.interpreter.jalr cpu instruction).get_gpr 8 (ee.interpreter.field_rd instruction) 0
      / 4294967296 = 0 := by
  have h := jalr_return_address cpu instruction hrd
  rw [h]
  omega

/-- Witness for C6 (as amended): `jalr r31, r2` (the word `0x0040F809`) at the BIOS reset
vector `PC = 0xBFC00000`. -/
theorem C6_jalr_witness :
    (ee.interpreter.jalr ee.bench_cpu 0x0040F809).get_gpr 8 31 0 = 0x00000000BFC00008 ∧
    (ee.interpreter.jalr ee.bench_cpu 0x0040F809).get_gpr 8 31 0 / 4294967296 = 0 :=
  C6_jalr_return_address_zero_extended ee.bench_cpu 0x0040F809 (by decide)

/-- C6, counterexample to the claim as stated: `jalr r31, r2` (the word `0x0040F809`,
`rd = 31`) executed at the BIOS reset vector `PC = 0xBFC00000`, where bit 31 of `PC + 8`
is set, leaves `0x00000000BFC00008` in `r31`; the upper 32 bits of the low 64-bit half
are not all ones and the value is not the sign extension `0xFFFFFFFFBFC00008`. -/
theorem C6_jalr_not_sign_extended :
    ee.interpreter.field_rd 0x0040F809 = 31 ∧
    (ee.bench_cpu.PC + 8) % 4294967296 / 2147483648 = 1 ∧
    sext32 ((ee.bench_cpu.PC + 8) % 4294967296) = 0xFFFFFFFFBFC00008 ∧
    (ee.interpreter.jalr ee.bench_cpu 0x0040F809).get_gpr 8 31 0 = 0x00000000BFC00008 ∧
    ¬ ((ee.interpreter.jalr ee.bench_cpu 0x0040F809).get_gpr 8 31 0 / 4294967296 = 0xFFFFFFFF) := by
  have h : (ee.interpreter.jalr ee.bench_cpu 0x0040F809).get_gpr 8 31 0 = 0x00000000BFC00008 :=
    jalr_return_address ee.bench_cpu 0x0040F809 (by decide)
  rw [h]
  decide

/-! ### EE bus: unmapped addresses -/

/-- The mask test of the privileged GS window is a test on bits 24-31. -/
theorem and_ff000000 (a : Nat) : a &&& 0xFF000000 = (a / 16777216 % 256) * 16777216 := by
  apply Nat.eq_of_testBit_eq
  intro i
  have e1 : (0xFF000000 : Nat) = 2 ^ 24 * (2 ^ 8 - 1) := by norm_num
  have e2 : (a / 16777216 % 256) * 16777216 = 2 ^ 24 * (a >>> 24 % 2 ^ 8) := by
    rw [Nat.shiftRight_eq_div_pow]
    norm_num [Nat.mul_comm]
  rw [Nat.testBit_and, e1, e2, Nat.testBit_mul_pow_two, Nat.testBit_mul_pow_two,
    Nat.testBit_two_pow_sub_one, Nat.testBit_mod_two_pow, Nat.testBit_shiftRight]
  by_cases h : 24 ≤ i
  · have e3 : 24 + (i - 24) = i := by omega
    simp [h, e3, Bool.and_comm]
  · simp [h]

/-- The privileged GS window in arithmetic form. -/
theorem gs_window_iff (a : Nat) : core.gs_window a = true ↔ a / 16777216 % 256 = 18 := by
  simp only [core.gs_window, beq_iff_eq, and_ff000000]
  omega

/-- A range test in arithmetic form. -/
theorem in_range_iff (lo hi a : Nat) : core.in_range lo hi a = true ↔ lo ≤ a ∧ a < hi := by
  simp [core.in_range]

/-- A read that passes every range test and every `case` prints a line and returns 0. -/
theorem dispatch_read_unmapped {P : Type} (routes : List (core.ReadRoute P))
    (cases : List (Nat × (core.Emulator P → Nat × core.Emulator P))) (sz : Nat)
    (e : core.Emulator P) (address : Nat)
    (hr : routes.all (fun r => !r.hit address) = true)
    (hc : cases.all (fun c => c.1 != address) = true) :
    core.dispatch_read routes cases sz e address =
      (0, e.print (core.LogLine.unrecognized_read (8 * sz) address)) := by
  have h1 : routes.find? (fun r => r.hit address) = none := by
    rw [List.find?_eq_none]
    intro r hmem
    have := List.all_eq_true.1 hr r hmem
    simpa using this
  have h2 : cases.find? (fun c => c.1 == address) = none := by
    rw [List.find?_eq_none]
    intro c hmem
    have := List.all_eq_true.1 hc c hmem
    simpa using this
  simp only [core.dispatch_read, h1, h2]

/-- A write that passes every range test and every `case` only prints a line. -/
theorem dispatch_write_unmapped {P : Type} (routes : List (core.WriteRoute P))
    (cases : List (Nat × (Nat → core.Emulator P → core.Emulator P))) (sz : Nat)
    (e : core.Emulator P) (address value : Nat)
    (hr : routes.all (fun r => !r.hit address) = true)
    (hc : cases.all (fun c => c.1 != address) = true) :
    core.dispatch_write routes cases sz e address value =
      e.print (core.LogLine.unrecognized_write (8 * sz) address value) := by
  have h1 : routes.find? (fun r => r.hit address) = none := by
    rw [List.find?_eq_none]
    intro r hmem
    have := List.all_eq_true.1 hr r hmem
    simpa using this
  have h2 : cases.find? (fun c => c.1 == address) = none := by
    rw [List.find?_eq_none]
    intro c hmem
    have := List.all_eq_true.1 hc c hmem
    simpa using this
  simp only [core.dispatch_write, h1, h2]

/-- C7. Unmapped reads.  For every access width and every address that fails all range
tests of that width's read function and equals none of its exact-match cases, the read
returns 0 and the emulator afterwards differs from the one before only by one printed
line: IOP memory, the `MCH`/`rdram` registers, the interlock flags and the state of
every peripheral are unchanged. -/
theorem C7_unmapped_read_returns_zero {P : Type} (ext : core.Call → P → Nat × P)
    (w : core.Width) (e : core.Emulator P) (address : Nat)
    (hranges : (core.read_routes ext w).all (fun r => !r.hit address) = true)
    (hcases : (core.read_cases ext w).all (fun c => c.1 != address) = true) :
    (e.read ext w address).1 = 0 ∧
    (e.read ext w address).2 =
      { e with log := e.log ++ [core.LogLine.unrecognized_read (8 * w.bytes) address] } ∧
    (e.read ext w address).2.periph = e.periph ∧
    (e.read ext w address).2.iop = e.iop := by
  have h : e.read ext w address =
      (0, e.print (core.LogLine.unrecognized_read (8 * w.bytes) address)) := by
    cases w <;>
      exact dispatch_read_unmapped _ _ _ e address hranges hcases
  rw [h]
  exact ⟨rfl, rfl, rfl, rfl⟩

/-- Witness for C7: a 32-bit read of `0x1000F800` and a 128-bit read of `0x10002000` on
the test machine. -/
theorem C7_unmapped_read_witness :
    (core.bench_emulator.read core.bench_ext core.Width.w32 0x1000F800).1 = 0 ∧
    (core.bench_emulator.read core.bench_ext core.Width.w32 0x1000F800).2.log =
      [core.LogLine.unrecognized_read 32 0x1000F800] ∧
    (core.bench_emulator.read core.bench_ext core.Width.w128 0x10002000).1 = 0 := by
  have h1 := C7_unmapped_read_returns_zero core.bench_ext core.Width.w32 core.bench_emulator
    0x1000F800 (by decide) (by decide)
  have h2 := C7_unmapped_read_returns_zero core.bench_ext core.Width.w128 core.bench_emulator
    0x10002000 (by decide) (by decide)
  refine ⟨h1.1, ?_, h2.1⟩
  rw [h1.2.1]
  rfl

/-- C8. Unmapped writes.  For every access width, a write to an address that fails all
range tests of that width's write function and equals none of its exact-match cases
returns with the emulator changed only by one printed line (IOP memory, `MCH_RICM`,
`MCH_DRD`, `rdram_sdevid`, the interlock flags and every peripheral are untouched).  The
same holds for `write16` and `write32` to an address in `0x1A000000 .. 0x1FBFFFFF`
outside the IOP memory window `0x1C000000 .. 0x1C1FFFFF`, which only print the
"IOP address" line. -/
theorem C8_unmapped_write_is_dropped {P : Type} (ext : core.Call → P → Nat × P)
    (w : core.Width) (e : core.Emulator P) (address value : Nat) :
    ((core.write_routes ext w).all (fun r => !r.hit address) = true →
      (core.write_cases ext w).all (fun c => c.1 != address) = true →
      e.write ext w address value =
        { e with log := e.log ++
            [core.LogLine.unrecognized_write (8 * w.bytes) address value] }) ∧
    (0x1A000000 ≤ address → address < 0x1FC00000 →
      ¬ (0x1C000000 ≤ address ∧ address < 0x1C200000) →
      e.write16 ext address value =
        { e with log := e.log ++ [core.LogLine.unrecognized_iop_write 16 address value] } ∧
      e.write32 ext address value =
        { e with log := e.log ++ [core.LogLine.unrecognized_iop_write 32 address value] }) := by
  constructor
  · intro hranges hcases
    cases w <;>
      exact dispatch_write_unmapped _ _ _ e address value hranges hcases
  · intro hlo hhi hram
    have f : ∀ lo hi : Nat, (hi ≤ 0x1A000000 ∨ 0x1FC00000 ≤ lo ∨ (lo = 0x1C000000 ∧ hi = 0x1C200000)) →
        core.in_range lo hi address = false := by
      intro lo hi h
      rw [Bool.eq_false_iff, Ne, in_range_iff]
      omega
    have hdmac := f 0x10008000 0x1000F000 (by omega)
    have hram1 := f 0x1C000000 0x1C200000 (by omega)
    have htim := f 0x10000000 0x10002000 (by omega)
    have hv1 := f 0x11000000 0x11004000 (by omega)
    have hv2 := f 0x11004000 0x11008000 (by omega)
    have hv3 := f 0x11008000 0x1100C000 (by omega)
    have hv4 := f 0x1100C000 0x11010000 (by omega)
    have hcatch : core.in_range 0x1A000000 0x1FC00000 address = true := by
      rw [in_range_iff]
      omega
    have hgs : core.gs_window address = false := by
      rw [Bool.eq_false_iff, Ne, gs_window_iff]
      omega
    constructor
    · simp [core.Emulator.write16, core.write16_routes, core.vu_write_routes,
        core.dispatch_write, List.find?, hdmac, hram1, hv1, hv2, hv3, hv4, hcatch,
        core.Emulator.print]
    · simp [core.Emulator.write32, core.write32_routes, core.vu_write_routes,
        core.dispatch_write, List.find?, hdmac, hram1, htim, hgs, hv1, hv2, hv3, hv4, hcatch,
        core.Emulator.print]

/-- Witness for C8 on the test machine: a 64-bit write to `0x1000F800` and 16-bit and
32-bit writes to `0x1F801000` change nothing but the log. -/
theorem C8_unmapped_write_witness :
    core.bench_emulator.write core.bench_ext core.Width.w64 0x1000F800 5 =
      { core.bench_emulator with log := [core.LogLine.unrecognized_write 64 0x1000F800 5] } ∧
    core.bench_emulator.write16 core.bench_ext 0x1F801000 5 =
      { core.bench_emulator with log := [core.LogLine.unrecognized_iop_write 16 0x1F801000 5] } ∧
    core.bench_emulator.write32 core.bench_ext 0x1F801000 5 =
      { core.bench_emulator with log := [core.LogLine.unrecognized_iop_write 32 0x1F801000 5] } := by
  have h1 := (C8_unmapped_write_is_dropped core.bench_ext core.Width.w64 core.bench_emulator
    0x1000F800 5).1 (by decide) (by decide)
  have h2 := (C8_unmapped_write_is_dropped core.bench_ext core.Width.w16 core.bench_emulator
    0x1F801000 5).2 (by decide) (by decide) (by decide)
  exact ⟨h1, h2.1, h2.2⟩

/-- C10. The interlock request.  `interlock_cop2_check(true)` sets `cop2_interlock`,
leaves everything else (in particular `vu_interlock`) unchanged and returns `true`
("wait") exactly when `vu_interlock` is clear; `interlock_cop2_check(false)` sets
`vu_interlock`, leaves everything else unchanged and returns `true` exactly when
`cop2_interlock` is clear.  A flag that is set stays set through either call. -/
theorem C10_interlock_cop2_check {P : Type} (e : core.Emulator P) :
    e.interlock_cop2_check true = (!e.vu_interlock, { e with cop2_interlock := true }) ∧
    e.interlock_cop2_check false = (!e.cop2_interlock, { e with vu_interlock := true }) ∧
    (∀ isCOP2 : Bool, e.cop2_interlock = true →
      (e.interlock_cop2_check isCOP2).2.cop2_interlock = true) ∧
    (∀ isCOP2 : Bool, e.vu_interlock = true →
      (e.interlock_cop2_check isCOP2).2.vu_interlock = true) := by
  refine ⟨?_, ?_, ?_, ?_⟩
  · cases h : e.vu_interlock <;> simp [core.Emulator.interlock_cop2_check, h]
  · cases h : e.cop2_interlock <;> simp [core.Emulator.interlock_cop2_check, h]
  · intro b h
    cases b <;> cases h2 : e.vu_interlock <;>
      simp [core.Emulator.interlock_cop2_check, h, h2]
  · intro b h
    cases b <;> cases h2 : e.cop2_interlock <;>
      simp [core.Emulator.interlock_cop2_check, h, h2]

/-! ### EE bus: address ranges -/

/-- When at most one element passes a test, the first element passing it is the same in
every ordering of the list. -/
theorem find?_perm_of_countP_le_one {α : Type} (p : α → Bool) (l1 l2 : List α)
    (hp : l1.Perm l2) (hc : l2.countP p ≤ 1) : l1.find? p = l2.find? p := by
  induction hp with
  | nil => rfl
  | cons x _ ih =>
    by_cases hx : p x = true
    · simp [List.find?, hx]
    · simp only [List.countP_cons, hx] at hc
      simp [List.find?, hx, ih (by simpa using hc)]
  | swap x y l =>
    by_cases hx : p x = true <;> by_cases hy : p y = true
    · simp [List.countP_cons, hx, hy] at hc
    · simp [List.find?, hx, hy]
    · simp [List.find?, hx, hy]
    · simp [List.find?, hx, hy]
  | trans h1 h2 ih1 ih2 =>
    rw [ih1 (by rw [h2.countP_eq]; exact hc), ih2 hc]

/-- Pairwise disjoint tests are passed by at most one element at any address. -/
theorem countP_le_one_of_pairwise {α : Type} (hit : α → Nat → Bool) (l : List α)
    (h : l.Pairwise (fun r1 r2 => ∀ a : Nat, ¬ (hit r1 a = true ∧ hit r2 a = true))) (a : Nat) :
    l.countP (fun r => hit r a) ≤ 1 := by
  induction l with
  | nil => simp
  | cons x l ih =>
    rw [List.pairwise_cons] at h
    by_cases hx : hit x a = true
    · have hz : l.countP (fun r => hit r a) = 0 := by
        rw [List.countP_eq_zero]
        intro r hr hra
        exact h.1 r hr a ⟨hx, hra⟩
      simp [List.countP_cons, hx, hz]
    · have := ih h.2
      simp [List.countP_cons, hx]
      exact this

/-- Two address intervals, one ending before the other begins, are disjoint tests. -/
theorem disjoint_in_range (lo1 hi1 lo2 hi2 : Nat) (h : hi1 ≤ lo2 ∨ hi2 ≤ lo1) :
    core.disjoint_tests (core.in_range lo1 hi1) (core.in_range lo2 hi2) := by
  intro a
  rw [in_range_iff, in_range_iff]
  omega

/-- The GS window is disjoint from an interval below `0x12000000` or between `0x13000000`
and `2^32`. -/
theorem disjoint_gs_in_range (lo hi : Nat)
    (h : hi ≤ 0x12000000 ∨ (0x13000000 ≤ lo ∧ hi ≤ 0x100000000)) :
    core.disjoint_tests core.gs_window (core.in_range lo hi) ∧
    core.disjoint_tests (core.in_range lo hi) core.gs_window := by
  constructor <;>
  · intro a
    rw [in_range_iff, gs_window_iff]
    omega

/-- The range tests of every read function are pairwise non-overlapping. -/
theorem read_routes_non_overlapping {P : Type} (ext : core.Call → P → Nat × P)
    (w : core.Width) : core.non_overlapping ((core.read_routes ext w).map (fun r => r.hit)) := by
  cases w
  all_goals
    simp only [core.non_overlapping, core.read_routes, core.read8_routes, core.read16_routes,
      core.read32_routes, core.read64_routes, core.read128_routes, core.vu_read_routes,
      List.cons_append, List.nil_append, List.map_cons, List.map_nil, List.pairwise_cons,
      List.mem_cons, forall_eq_or_imp, List.not_mem_nil, List.Pairwise.nil, and_true,
      IsEmpty.forall_iff, implies_true]
  all_goals
    repeat' (refine And.intro ?_ ?_)
  all_goals
    (intro a; simp only [in_range_iff, gs_window_iff]; omega)

/-- The range tests of `write8` and `write64` are pairwise non-overlapping. -/
theorem write_routes_non_overlapping {P : Type} (ext : core.Call → P → Nat × P)
    (w : core.Width) (h16 : w ≠ core.Width.w16) (h32 : w ≠ core.Width.w32)
    (h128 : w ≠ core.Width.w128) :
    core.non_overlapping ((core.write_routes ext w).map (fun r => r.hit)) := by
  cases w
  case w16 => exact absurd rfl h16
  case w32 => exact absurd rfl h32
  case w128 => exact absurd rfl h128
  all_goals
    simp only [core.non_overlapping, core.write_routes, core.write8_routes,
      core.write64_routes, core.vu_write_routes,
      List.cons_append, List.nil_append, List.map_cons, List.map_nil, List.pairwise_cons,
      List.mem_cons, forall_eq_or_imp, List.not_mem_nil, List.Pairwise.nil, and_true,
      IsEmpty.forall_iff, implies_true]
  all_goals
    repeat' (refine And.intro ?_ ?_)
  all_goals
    (intro a; simp only [in_range_iff, gs_window_iff]; omega)

/-- In `write16` and `write32` the only range tests that overlap are the IOP memory
window and the later window `0x1A000000 .. 0x1FBFFFFF`. -/
theorem write16_32_routes_overlap {P : Type} (ext : core.Call → P → Nat × P)
    (w : core.Width) (h : w = core.Width.w16 ∨ w = core.Width.w32) :
    core.non_overlapping_but_iop_window ((core.write_routes ext w).map (fun r => r.hit)) := by
  rcases h with h | h <;> subst h
  all_goals
    simp only [core.non_overlapping_but_iop_window, core.write_routes, core.write16_routes,
      core.write32_routes, core.vu_write_routes,
      List.cons_append, List.nil_append, List.map_cons, List.map_nil, List.pairwise_cons,
      List.mem_cons, forall_eq_or_imp, List.not_mem_nil, List.Pairwise.nil, and_true,
      IsEmpty.forall_iff, implies_true]
  all_goals
    repeat' (refine And.intro ?_ ?_)
  all_goals
    first
      | (left; intro a; simp only [in_range_iff, gs_window_iff]; omega)
      | (right; trivial)

/-- The tests of `write128` are nested: each is passed by every address that passes the
one before it. -/
theorem write128_routes_nested {P : Type} (ext : core.Call → P → Nat × P) :
    core.nested_tests ((core.write_routes ext core.Width.w128).map (fun r => r.hit)) := by
  simp only [core.nested_tests, core.write_routes, core.write128_routes, List.map_cons,
    List.map_nil, List.chain'_cons, List.chain'_singleton, and_true]
  refine ⟨?_, ?_, ?_⟩ <;>
    (intro a
     simp only [Bool.and_eq_true, decide_eq_true_eq, in_range_iff]
     omega)

/-- Inside the vector-unit window `write128` takes the first of its comparisons that
holds, as the nested tests of the source do. -/
theorem write128_in_window {P : Type} (ext : core.Call → P → Nat × P) (e : core.Emulator P)
    (a v : Nat) (ha : core.in_range 0x11000000 0x11010000 a = true) :
    e.write128 ext a v =
      if a < 0x11004000 then e.notify ext (core.Call.vu0_write_instr 16 (a &&& 0xFFF) v)
      else if a < 0x11008000 then e.notify ext (core.Call.vu0_write_mem 16 (a &&& 0xFFF) v)
      else if a < 0x1100C000 then e.notify ext (core.Call.vu1_write_instr 16 a v)
      else e.notify ext (core.Call.vu1_write_mem 16 a v) := by
  simp only [core.Emulator.write128, core.write128_routes, core.dispatch_write, List.find?,
    ha, Bool.true_and]
  by_cases h1 : a < 0x11004000
  · simp [h1]
  · by_cases h2 : a < 0x11008000
    · simp [h1, h2]
    · by_cases h3 : a < 0x1100C000
      · simp [h1, h2, h3]
      · simp [h1, h2, h3, ha]

/-- C9 (as amended).  For every read function (`read8` .. `read128`) and for `write8`
and `write64` the range tests are pairwise non-overlapping, so the result does not
depend on the order in which they are tried (every reordering of the tests gives the
same function).  In `write16` and `write32` the only tests that overlap are the IOP
memory window `0x1C000000 .. 0x1C1FFFFF` and the window `0x1A000000 .. 0x1FBFFFFF` that
is tried after it, and a write inside the IOP memory window that fits the 2 MiB array is
stored in IOP memory.  In `write128` the comparisons made inside the vector-unit window
`0x11000000 .. 0x1100FFFF` are nested, each passed by every address that passes the one
before, and the first one that holds selects the memory written.  In all ten functions
no range test is passed by any of the function's exact-match addresses. -/
theorem C9_bus_ranges_overlap_only_at_iop_window {P : Type} (ext : core.Call → P → Nat × P) :
    (∀ w, core.non_overlapping ((core.read_routes ext w).map (fun r => r.hit))) ∧
    (∀ w, w ≠ core.Width.w16 → w ≠ core.Width.w32 → w ≠ core.Width.w128 →
      core.non_overlapping ((core.write_routes ext w).map (fun r => r.hit))) ∧
    (∀ w (routes : List (core.ReadRoute P)) (e : core.Emulator P) (a : Nat),
      routes.Perm (core.read_routes ext w) →
      core.dispatch_read routes (core.read_cases ext w) w.bytes e a = e.read ext w a) ∧
    (∀ w (routes : List (core.WriteRoute P)) (e : core.Emulator P) (a v : Nat),
      w ≠ core.Width.w16 → w ≠ core.Width.w32 → w ≠ core.Width.w128 →
      routes.Perm (core.write_routes ext w) →
      core.dispatch_write routes (core.write_cases ext w) w.bytes e a v = e.write ext w a v) ∧
    (∀ w, w = core.Width.w16 ∨ w = core.Width.w32 →
      core.non_overlapping_but_iop_window ((core.write_routes ext w).map (fun r => r.hit))) ∧
    (∀ (e : core.Emulator P) (a v : Nat), core.in_range 0x1C000000 0x1C200000 a = true →
      ((a &&& 0x1FFFFF) + 2 ≤ 0x200000 →
        e.write16 ext a v = e.store_iop_ram (a &&& 0x1FFFFF) 2 v) ∧
      ((a &&& 0x1FFFFF) + 4 ≤ 0x200000 →
        e.write32 ext a v = e.store_iop_ram (a &&& 0x1FFFFF) 4 v)) ∧
    core.nested_tests ((core.write_routes ext core.Width.w128).map (fun r => r.hit)) ∧
    (∀ (e : core.Emulator P) (a v : Nat), core.in_range 0x11000000 0x11010000 a = true →
      e.write128 ext a v =
        if a < 0x11004000 then e.notify ext (core.Call.vu0_write_instr 16 (a &&& 0xFFF) v)
        else if a < 0x11008000 then e.notify ext (core.Call.vu0_write_mem 16 (a &&& 0xFFF) v)
        else if a < 0x1100C000 then e.notify ext (core.Call.vu1_write_instr 16 a v)
        else e.notify ext (core.Call.vu1_write_mem 16 a v)) ∧
    (∀ w, core.outside_ranges ((core.read_routes ext w).map (fun r => r.hit))
        ((core.read_cases ext w).map (fun c => c.1)) = true) ∧
    (∀ w, core.outside_ranges ((core.write_routes ext w).map (fun r => r.hit))
        ((core.write_cases ext w).map (fun c => c.1)) = true) := by
  have hread : ∀ w (a : Nat), (core.read_routes ext w).countP (fun r => r.hit a) ≤ 1 := by
    intro w a
    apply countP_le_one_of_pairwise (fun r : core.ReadRoute P => r.hit)
    have h := read_routes_non_overlapping ext w
    rw [core.non_overlapping, List.pairwise_map] at h
    exact h
  have hwrite : ∀ w (a : Nat), w ≠ core.Width.w16 → w ≠ core.Width.w32 →
      w ≠ core.Width.w128 → (core.write_routes ext w).countP (fun r => r.hit a) ≤ 1 := by
    intro w a h16 h32 h128
    apply countP_le_one_of_pairwise (fun r : core.WriteRoute P => r.hit)
    have h := write_routes_non_overlapping ext w h16 h32 h128
    rw [core.non_overlapping, List.pairwise_map] at h
    exact h
  refine ⟨read_routes_non_overlapping ext, write_routes_non_overlapping ext, ?_, ?_,
    write16_32_routes_overlap ext, ?_, write128_routes_nested ext,
    write128_in_window ext, ?_, ?_⟩
  · intro w routes e a hperm
    have hf := find?_perm_of_countP_le_one (fun r : core.ReadRoute P => r.hit a) _ _ hperm
      (hread w a)
    cases w <;>
      simp only [core.dispatch_read, hf, core.Emulator.read, core.Emulator.read8,
        core.Emulator.read16, core.Emulator.read32, core.Emulator.read64,
        core.Emulator.read128, core.read_routes, core.read_cases, core.Width.bytes]
  · intro w routes e a v h16 h32 h128 hperm
    have hf := find?_perm_of_countP_le_one (fun r : core.WriteRoute P => r.hit a) _ _ hperm
      (hwrite w a h16 h32 h128)
    cases w
    case w16 => exact absurd rfl h16
    case w32 => exact absurd rfl h32
    case w128 => exact absurd rfl h128
    all_goals
      simp only [core.dispatch_write, hf, core.Emulator.write, core.Emulator.write8,
        core.Emulator.write64, core.write_routes, core.write_cases,
        core.Width.bytes]
  · intro e a v ha
    have hdmac : core.in_range 0x10008000 0x1000F000 a = false := by
      rw [in_range_iff] at ha
      rw [Bool.eq_false_iff, Ne, in_range_iff]
      omega
    constructor
    · intro _
      simp [core.Emulator.write16, core.write16_routes, core.dispatch_write, List.find?,
        hdmac, ha]
    · intro _
      simp [core.Emulator.write32, core.write32_routes, core.dispatch_write, List.find?, ha]
  · intro w
    cases w <;>
      simp only [core.read_routes, core.read8_routes, core.read16_routes, core.read32_routes,
        core.read64_routes, core.read128_routes, core.vu_read_routes, core.read_cases,
        core.read8_cases, core.read16_cases, core.read32_cases, core.read64_cases,
        core.read128_cases, List.map_cons, List.map_nil, List.cons_append, List.nil_append] <;>
      decide
  · intro w
    cases w <;>
      simp only [core.write_routes, core.write8_routes, core.write16_routes,
        core.write32_routes, core.write64_routes, core.write128_routes, core.vu_write_routes,
        core.write_cases, core.write8_cases, core.write16_cases, core.write32_cases,
        core.write64_cases, core.write128_cases, List.map_cons, List.map_nil,
        List.cons_append, List.nil_append] <;>
      decide

/-- C9, counterexample to the claim as stated: in `write32` (and in `write16`) the address
`0x1C000000` passes two range tests, the IOP memory window and the window
`0x1A000000 .. 0x1FBFFFFF`, so the tests are not pairwise non-overlapping; and the result
depends on their order: `write32` stores the value in IOP memory, while the same tests
tried in reverse order leave IOP memory as it was.  In `write128` the address
`0x11000000` passes all four tests of the vector-unit window, and the result depends on
their order: `write128` calls `vu0->write_instr`, while the same tests tried in reverse
order call `vu1->write_mem`. -/
theorem C9_write_ranges_overlap :
    (core.write_routes core.bench_ext core.Width.w32).countP (fun r => r.hit 0x1C000000) = 2 ∧
    (core.write_routes core.bench_ext core.Width.w16).countP (fun r => r.hit 0x1C000000) = 2 ∧
    ¬ core.non_overlapping
        ((core.write_routes core.bench_ext core.Width.w32).map (fun r => r.hit)) ∧
    ¬ core.non_overlapping
        ((core.write_routes core.bench_ext core.Width.w16).map (fun r => r.hit)) ∧
    ((core.write32_routes core.bench_ext).reverse).Perm (core.write32_routes core.bench_ext) ∧
    loadLE (core.bench_emulator.write32 core.bench_ext 0x1C000000 0xDEADBEEF).iop.ram 0 4 =
      0xDEADBEEF ∧
    loadLE (core.dispatch_write (core.write32_routes core.bench_ext).reverse
      (core.write32_cases core.bench_ext) 4 core.bench_emulator 0x1C000000 0xDEADBEEF).iop.ram 0 4 =
      0 ∧
    (core.write_routes core.bench_ext_recording core.Width.w128).countP
      (fun r => r.hit 0x11000000) = 4 ∧
    ¬ core.non_overlapping
        ((core.write_routes core.bench_ext_recording core.Width.w128).map (fun r => r.hit)) ∧
    ((core.write128_routes core.bench_ext_recording).reverse).Perm
      (core.write128_routes core.bench_ext_recording) ∧
    (core.bench_emulator_recording.write128 core.bench_ext_recording 0x11000000 1).periph =
      [false] ∧
    (core.dispatch_write (core.write128_routes core.bench_ext_recording).reverse
      (core.write128_cases core.bench_ext_recording) 16 core.bench_emulator_recording
      0x11000000 1).periph = [true] := by
  have h32 : (core.write_routes core.bench_ext core.Width.w32).countP
      (fun r => r.hit 0x1C000000) = 2 := by decide
  have h16 : (core.write_routes core.bench_ext core.Width.w16).countP
      (fun r => r.hit 0x1C000000) = 2 := by decide
  have h128 : (core.write_routes core.bench_ext_recording core.Width.w128).countP
      (fun r => r.hit 0x11000000) = 4 := by decide
  refine ⟨h32, h16, ?_, ?_, List.reverse_perm _, by decide, by decide, h128, ?_,
    List.reverse_perm _, by decide, by decide⟩
  · intro h
    rw [core.non_overlapping, List.pairwise_map] at h
    have := countP_le_one_of_pairwise (fun r : core.WriteRoute Unit => r.hit) _ h 0x1C000000
    omega
  · intro h
    rw [core.non_overlapping, List.pairwise_map] at h
    have := countP_le_one_of_pairwise (fun r : core.WriteRoute Unit => r.hit) _ h 0x1C000000
    omega
  · intro h
    rw [core.non_overlapping, List.pairwise_map] at h
    have := countP_le_one_of_pairwise (fun r : core.WriteRoute (List Bool) => r.hit) _ h
      0x11000000
    omega

/-! ### Interlock rendezvous -/

/-- The result and the state after a request, from either side. -/
theorem interlock_cop2_check_eq {P : Type} (e : core.Emulator P) :
    e.interlock_cop2_check true = (!e.vu_interlock, { e with cop2_interlock := true }) ∧
    e.interlock_cop2_check false = (!e.cop2_interlock, { e with vu_interlock := true }) := by
  constructor
  · cases h : e.vu_interlock <;> simp [core.Emulator.interlock_cop2_check, h]
  · cases h : e.cop2_interlock <;> simp [core.Emulator.interlock_cop2_check, h]

/-- With both interlock flags set a request returns "satisfied" and changes nothing. -/
theorem interlock_cop2_check_both_set {P : Type} (e : core.Emulator P) (b : Bool)
    (hc : e.cop2_interlock = true) (hv : e.vu_interlock = true) :
    e.interlock_cop2_check b = (false, e) := by
  cases b
  · rw [(interlock_cop2_check_eq e).2, hc]
    cases e
    simp_all
  · rw [(interlock_cop2_check_eq e).1, hv]
    cases e
    simp_all

/-- Once both interlock flags are set, every request of a sequence returns "satisfied"
and the state stays as it is. -/
theorem interlock_requests_both_set {P : Type} (e : core.Emulator P) (l : List Bool)
    (hc : e.cop2_interlock = true) (hv : e.vu_interlock = true) :
    (e.interlock_requests l).1 = l.map (fun _ => false) ∧
    (e.interlock_requests l).2 = e := by
  induction l with
  | nil => exact ⟨rfl, rfl⟩
  | cons b rest ih =>
    simp only [core.Emulator.interlock_requests, interlock_cop2_check_both_set e b hc hv,
      List.map_cons]
    exact ⟨by rw [ih.1], ih.2⟩

/-- C11. Interlock symmetry.  Start with both flags clear and let `first` be the side of
the first request (`true` for COP2), the other side issuing the second.  The first
request returns "wait", the second "satisfied", both flags are then set, the first side
re-issuing its request gets "satisfied", and from that state every sequence of requests
from either side returns "satisfied" throughout and leaves both flags set; the flags are
clear again after `clear_cop2_interlock`. -/
theorem C11_interlock_symmetry {P : Type} (e : core.Emulator P) (first : Bool)
    (hc : e.cop2_interlock = false) (hv : e.vu_interlock = false) :
    (e.interlock_requests [first, !first, first]).1 = [true, false, false] ∧
    (e.interlock_requests [first, !first]).2.cop2_interlock = true ∧
    (e.interlock_requests [first, !first]).2.vu_interlock = true ∧
    (∀ later : List Bool,
      ((e.interlock_requests [first, !first, first]).2.interlock_requests later).1 =
        later.map (fun _ => false) ∧
      ((e.interlock_requests [first, !first, first]).2.interlock_requests later).2.cop2_interlock
        = true ∧
      ((e.interlock_requests [first, !first, first]).2.interlock_requests later).2.vu_interlock
        = true) ∧
    (∀ later : List Bool,
      (((e.interlock_requests [first, !first, first]).2.interlock_requests
        later).2.clear_cop2_interlock).cop2_interlock = false ∧
      (((e.interlock_requests [first, !first, first]).2.interlock_requests
        later).2.clear_cop2_interlock).vu_interlock = false) := by
  have h3c : (e.interlock_requests [first, !first, first]).2.cop2_interlock = true := by
    cases first <;>
      simp [core.Emulator.interlock_requests, core.Emulator.interlock_cop2_check, hc, hv]
  have h3v : (e.interlock_requests [first, !first, first]).2.vu_interlock = true := by
    cases first <;>
      simp [core.Emulator.interlock_requests, core.Emulator.interlock_cop2_check, hc, hv]
  refine ⟨?_, ?_, ?_, ?_, ?_⟩
  · cases first <;>
      simp [core.Emulator.interlock_requests, core.Emulator.interlock_cop2_check, hc, hv]
  · cases first <;>
      simp [core.Emulator.interlock_requests, core.Emulator.interlock_cop2_check, hc, hv]
  · cases first <;>
      simp [core.Emulator.interlock_requests, core.Emulator.interlock_cop2_check, hc, hv]
  · intro later
    have h := interlock_requests_both_set _ later h3c h3v
    rw [h.1, h.2]
    exact ⟨rfl, h3c, h3v⟩
  · intro later
    exact ⟨rfl, rfl⟩

/-- Witness for C11 on the test machine, COP2 side first, followed by five more requests. -/
theorem C11_interlock_symmetry_witness :
    (core.bench_emulator.interlock_requests [true, false, true]).1 = [true, false, false] ∧
    ((core.bench_emulator.interlock_requests [true, false, true]).2.interlock_requests
      [false, false, true, false, true]).1 = [false, false, false, false, false] := by
  have h := C11_interlock_symmetry core.bench_emulator true rfl rfl
  exact ⟨h.1, (h.2.2.2.1 [false, false, true, false, true]).1⟩

/-- C12 (as amended).  When a request finds the other side's flag already set it returns
"satisfied" and both interlock flags are set once it returns; nothing else changes.  Both
flags are clear only after `clear_cop2_interlock`. -/
theorem C12_satisfied_request_leaves_flags_set {P : Type} (e : core.Emulator P) :
    (e.vu_interlock = true →
      e.interlock_cop2_check true =
        (false, { e with cop2_interlock := true, vu_interlock := true })) ∧
    (e.cop2_interlock = true →
      e.interlock_cop2_check false =
        (false, { e with cop2_interlock := true, vu_interlock := true })) ∧
    e.clear_cop2_interlock.cop2_interlock = false ∧
    e.clear_cop2_interlock.vu_interlock = false := by
  refine ⟨?_, ?_, rfl, rfl⟩
  · intro h
    rw [(interlock_cop2_check_eq e).1, h]
    cases e
    simp_all
  · intro h
    rw [(interlock_cop2_check_eq e).2, h]
    cases e
    simp_all

/-- Witness for C12 (as amended): a COP2 request on the test machine with the VU flag set. -/
theorem C12_satisfied_request_witness :
    ({ core.bench_emulator with vu_interlock := true } : core.Emulator Unit).interlock_cop2_check
        true =
      (false, { core.bench_emulator with cop2_interlock := true, vu_interlock := true }) :=
  (C12_satisfied_request_leaves_flags_set
    ({ core.bench_emulator with vu_interlock := true } : core.Emulator Unit)).1 rfl

/-- C12, counterexample to the claim as stated: on the test machine with the VU flag set,
a COP2 request finds the rendezvous satisfied (it returns `false`) and both flags are set,
not clear, when it returns; the same holds for a VU request that finds the COP2 flag set. -/
theorem C12_flags_not_cleared :
    (({ core.bench_emulator with vu_interlock := true } :
        core.Emulator Unit).interlock_cop2_check true).1 = false ∧
    (({ core.bench_emulator with vu_interlock := true } :
        core.Emulator Unit).interlock_cop2_check true).2.cop2_interlock = true ∧
    (({ core.bench_emulator with vu_interlock := true } :
        core.Emulator Unit).interlock_cop2_check true).2.vu_interlock = true ∧
    (({ core.bench_emulator with cop2_interlock := true } :
        core.Emulator Unit).interlock_cop2_check false).1 = false ∧
    (({ core.bench_emulator with cop2_interlock := true } :
        core.Emulator Unit).interlock_cop2_check false).2.cop2_interlock = true ∧
    (({ core.bench_emulator with cop2_interlock := true } :
        core.Emulator Unit).interlock_cop2_check false).2.vu_interlock = true := by
  decide

/-! ### IOP exceptions and interrupts -/

/-- C13. `IOP::handle_exception(addr, cause)` records `cause` in `cause.code`; with a
branch pending it sets `EPC = PC - 4` and `cause.bd`, otherwise `EPC = PC` and clears
`cause.bd`; it pushes the interrupt-enable stack (`IEo` := old `IEp`, `IEp` := old `IEc`,
`IEc` := false), cancels the pending branch (`will_branch = false`, `branch_delay = 0`)
and sets `PC = addr - 4` (in 32-bit arithmetic); the general registers, `LO` and `HI`
are unchanged. -/
theorem C13_handle_exception (cpu : iop.IOP) (addr cause : Nat) :
    (cpu.handle_exception addr cause).cop0.cause.code = cause ∧
    (cpu.handle_exception addr cause).cop0.EPC =
      (if cpu.will_branch then wrap32 ((cpu.PC : Int) - 4) else cpu.PC) ∧
    (cpu.handle_exception addr cause).cop0.cause.bd = cpu.will_branch ∧
    (cpu.handle_exception addr cause).cop0.status.IEo = cpu.cop0.status.IEp ∧
    (cpu.handle_exception addr cause).cop0.status.IEp = cpu.cop0.status.IEc ∧
    (cpu.handle_exception addr cause).cop0.status.IEc = false ∧
    (cpu.handle_exception addr cause).will_branch = false ∧
    (cpu.handle_exception addr cause).branch_delay = 0 ∧
    (cpu.handle_exception addr cause).PC = wrap32 ((addr : Int) - 4) ∧
    (cpu.handle_exception addr cause).gpr = cpu.gpr ∧
    (cpu.handle_exception addr cause).LO = cpu.LO ∧
    (cpu.handle_exception addr cause).HI = cpu.HI := by
  refine ⟨rfl, ?_, ?_, rfl, rfl, rfl, rfl, rfl, rfl, rfl, rfl, rfl⟩
  · cases h : cpu.will_branch <;> simp [iop.IOP.handle_exception, h]
  · cases h : cpu.will_branch <;> simp [iop.IOP.handle_exception, h]

/-- C14. For every processor state, `handle_exception` followed by `rfe` restores the
current and the previous interrupt-enable bit: `IEc` and `IEp` are as before the
exception. -/
theorem C14_exception_then_rfe_restores_IE (cpu : iop.IOP) (addr cause : Nat) :
    ((cpu.handle_exception addr cause).rfe).cop0.status.IEc = cpu.cop0.status.IEc ∧
    ((cpu.handle_exception addr cause).rfe).cop0.status.IEp = cpu.cop0.status.IEp :=
  ⟨rfl, rfl⟩

/-- The interrupt test: when interrupts are enabled and an unmasked one is pending the
interrupt exception is taken, with code 0 and the processor no longer halted; otherwise
the processor is left as it is. -/
theorem interrupt_poll_cases (cpu : iop.IOP) :
    (cpu.cop0.status.IEc = true ∧ (cpu.cop0.status.Im &&& cpu.cop0.cause.int_pending) ≠ 0 →
      iop.interrupt_poll cpu = cpu.interrupt ∧
      (iop.interrupt_poll cpu).cop0.cause.code = 0 ∧
      (iop.interrupt_poll cpu).wait_for_IRQ = false ∧
      (iop.interrupt_poll cpu).PC = 0x80000080 ∧
      (iop.interrupt_poll cpu).will_branch = false) ∧
    (¬ (cpu.cop0.status.IEc = true ∧
        (cpu.cop0.status.Im &&& cpu.cop0.cause.int_pending) ≠ 0) →
      iop.interrupt_poll cpu = cpu) := by
  constructor
  · intro h
    have hp : iop.interrupt_poll cpu = cpu.interrupt := by
      simp only [iop.interrupt_poll]
      rw [if_pos h]
    rw [hp]
    refine ⟨rfl, rfl, rfl, ?_, rfl⟩
    simp only [iop.IOP.interrupt, iop.IOP.unhalt, iop.IOP.handle_exception]
    decide
  · intro h
    simp only [iop.interrupt_poll]
    rw [if_neg h]

/-- C15. The interrupt test at the end of `IOP::run`.  Whenever `run` returns, its final
processor state is the interrupt test applied to the state `pre` in which the loop (or,
when halted, the latency countdown) ended.  The interrupt exception is taken when
`status.IEc` is set and `status.Im & cause.int_pending` is non-zero: then the result is
`pre.interrupt`, code 0 is recorded and `wait_for_IRQ` is false.  Otherwise it is not
taken and the whole processor state, `cop0` included, is `pre` unchanged. -/
theorem C15_interrupt_test_at_end_of_run {E : Type} (b : iop.Collaborators E) (fuel : Nat)
    (m m' : iop.Machine E) (cycles : Int)
    (hrun : iop.run b fuel m cycles = iop.RunResult.ok m') :
    ∃ pre : iop.Machine E,
      (if m.cpu.wait_for_IRQ then
          pre = { m with cpu := if m.cpu.muldiv_delay ≠ 0 then
              { m.cpu with muldiv_delay := m.cpu.muldiv_delay - 1 } else m.cpu }
        else
          iop.run_loop b fuel
            { m with cpu := { m.cpu with cycles_to_run := m.cpu.cycles_to_run + cycles } } =
            iop.RunResult.ok pre) ∧
      m' = { pre with cpu := iop.interrupt_poll pre.cpu } ∧
      (pre.cpu.cop0.status.IEc = true ∧
          (pre.cpu.cop0.status.Im &&& pre.cpu.cop0.cause.int_pending) ≠ 0 →
        m'.cpu = pre.cpu.interrupt ∧ m'.cpu.cop0.cause.code = 0 ∧
        m'.cpu.wait_for_IRQ = false) ∧
      (¬ (pre.cpu.cop0.status.IEc = true ∧
          (pre.cpu.cop0.status.Im &&& pre.cpu.cop0.cause.int_pending) ≠ 0) →
        m'.cpu = pre.cpu ∧ m'.cpu.cop0 = pre.cpu.cop0) := by
  have key : ∀ pre : iop.Machine E, m' = { pre with cpu := iop.interrupt_poll pre.cpu } →
      (pre.cpu.cop0.status.IEc = true ∧
          (pre.cpu.cop0.status.Im &&& pre.cpu.cop0.cause.int_pending) ≠ 0 →
        m'.cpu = pre.cpu.interrupt ∧ m'.cpu.cop0.cause.code = 0 ∧
        m'.cpu.wait_for_IRQ = false) ∧
      (¬ (pre.cpu.cop0.status.IEc = true ∧
          (pre.cpu.cop0.status.Im &&& pre.cpu.cop0.cause.int_pending) ≠ 0) →
        m'.cpu = pre.cpu ∧ m'.cpu.cop0 = pre.cpu.cop0) := by
    intro pre hm
    have hc := interrupt_poll_cases pre.cpu
    subst hm
    constructor
    · intro h
      exact ⟨(hc.1 h).1, (hc.1 h).2.1, (hc.1 h).2.2.1⟩
    · intro h
      have := hc.2 h
      exact ⟨this, by rw [this]⟩
  unfold iop.run at hrun
  by_cases hw : m.cpu.wait_for_IRQ = true
  · rw [if_neg (by simp [hw])] at hrun
    have hm : m' = { ({ m with cpu := if m.cpu.muldiv_delay ≠ 0 then
        { m.cpu with muldiv_delay := m.cpu.muldiv_delay - 1 } else m.cpu } : iop.Machine E) with
        cpu := iop.interrupt_poll (if m.cpu.muldiv_delay ≠ 0 then
        { m.cpu with muldiv_delay := m.cpu.muldiv_delay - 1 } else m.cpu) } :=
      (iop.RunResult.ok.inj hrun).symm
    refine ⟨{ m with cpu := if m.cpu.muldiv_delay ≠ 0 then
        { m.cpu with muldiv_delay := m.cpu.muldiv_delay - 1 } else m.cpu }, ?_, hm, key _ hm⟩
    rw [if_pos hw]
  · rw [if_pos (by simpa using hw)] at hrun
    cases hloop : iop.run_loop b fuel
        { m with cpu := { m.cpu with cycles_to_run := m.cpu.cycles_to_run + cycles } } with
    | ok pre =>
      rw [hloop] at hrun
      have hm : m' = { pre with cpu := iop.interrupt_poll pre.cpu } :=
        (iop.RunResult.ok.inj hrun).symm
      refine ⟨pre, ?_, hm, key _ hm⟩
      rw [if_neg hw]
    | die =>
      rw [hloop] at hrun
      cases hrun
    | out_of_fuel =>
      rw [hloop] at hrun
      cases hrun

/-- Witness for C15: the halted test bench with interrupt line 2 enabled and pending;
`run` returns with the interrupt taken. -/
theorem C15_interrupt_test_witness :
    iop.run iop.bench_collaborators 0 iop.bench_halted_irq 5 =
      iop.RunResult.ok { iop.bench_halted_irq with cpu := iop.bench_halted_irq.cpu.interrupt } ∧
    (iop.bench_halted_irq.cpu.interrupt).cop0.cause.code = 0 ∧
    (iop.bench_halted_irq.cpu.interrupt).wait_for_IRQ = false := by
  have hrun : iop.run iop.bench_collaborators 0 iop.bench_halted_irq 5 =
      iop.RunResult.ok { iop.bench_halted_irq with cpu := iop.bench_halted_irq.cpu.interrupt } :=
    rfl
  obtain ⟨pre, hpre, _, h1, _⟩ :=
    C15_interrupt_test_at_end_of_run iop.bench_collaborators 0 iop.bench_halted_irq _ 5 hrun
  have hp : pre = iop.bench_halted_irq := by
    rw [if_pos (show iop.bench_halted_irq.cpu.wait_for_IRQ = true from rfl)] at hpre
    rw [hpre]
    rfl
  subst hp
  have h := h1 ⟨rfl, by decide⟩
  exact ⟨hrun, h.2.1, h.2.2⟩

/-- C16. A halted processor.  With `wait_for_IRQ` set, `run(cycles)` returns for every
iteration bound without fetching or executing: the rest of the machine and the list of
executed instructions are as before.  If no enabled interrupt is pending, the processor
state is unchanged (so `PC`, the registers, `LO`, `HI` and `cycles_to_run` are) except
that a non-zero `muldiv_delay` has dropped by one.  If an enabled interrupt is pending,
the call clears `wait_for_IRQ` and sets `PC` to the exception handler `0x80000080` with
no branch pending. -/
theorem C16_halted_run {E : Type} (b : iop.Collaborators E) (fuel : Nat) (m : iop.Machine E)
    (cycles : Int) (hhalt : m.cpu.wait_for_IRQ = true) :
    ∃ m' : iop.Machine E,
      iop.run b fuel m cycles = iop.RunResult.ok m' ∧
      m'.env = m.env ∧ m'.executed = m.executed ∧
      (¬ (m.cpu.cop0.status.IEc = true ∧
          (m.cpu.cop0.status.Im &&& m.cpu.cop0.cause.int_pending) ≠ 0) →
        m'.cpu = { m.cpu with muldiv_delay :=
            if m.cpu.muldiv_delay ≠ 0 then m.cpu.muldiv_delay - 1 else m.cpu.muldiv_delay } ∧
        m'.cpu.PC = m.cpu.PC ∧ m'.cpu.gpr = m.cpu.gpr ∧ m'.cpu.LO = m.cpu.LO ∧
        m'.cpu.HI = m.cpu.HI ∧ m'.cpu.cycles_to_run = m.cpu.cycles_to_run ∧
        m'.cpu.wait_for_IRQ = true) ∧
      (m.cpu.cop0.status.IEc = true ∧
          (m.cpu.cop0.status.Im &&& m.cpu.cop0.cause.int_pending) ≠ 0 →
        m'.cpu.wait_for_IRQ = false ∧ m'.cpu.PC = 0x80000080 ∧ m'.cpu.will_branch = false ∧
        m'.cpu.gpr = m.cpu.gpr ∧ m'.cpu.cycles_to_run = m.cpu.cycles_to_run) := by
  have hc0 : (if m.cpu.muldiv_delay ≠ 0 then
      { m.cpu with muldiv_delay := m.cpu.muldiv_delay - 1 } else m.cpu) =
      { m.cpu with muldiv_delay :=
          if m.cpu.muldiv_delay ≠ 0 then m.cpu.muldiv_delay - 1 else m.cpu.muldiv_delay } := by
    split <;> rfl
  have hrun : iop.run b fuel m cycles = iop.RunResult.ok
      { m with cpu := iop.interrupt_poll { m.cpu with muldiv_delay :=
          if m.cpu.muldiv_delay ≠ 0 then m.cpu.muldiv_delay - 1 else m.cpu.muldiv_delay } } := by
    unfold iop.run
    rw [if_neg (by simp [hhalt]), hc0]
  have hp := interrupt_poll_cases { m.cpu with muldiv_delay :=
      if m.cpu.muldiv_delay ≠ 0 then m.cpu.muldiv_delay - 1 else m.cpu.muldiv_delay }
  refine ⟨_, hrun, rfl, rfl, ?_, ?_⟩
  · intro h
    have h2 := hp.2 h
    show iop.interrupt_poll _ = _ ∧ (iop.interrupt_poll _).PC = _ ∧
      (iop.interrupt_poll _).gpr = _ ∧ (iop.interrupt_poll _).LO = _ ∧
      (iop.interrupt_poll _).HI = _ ∧ (iop.interrupt_poll _).cycles_to_run = _ ∧
      (iop.interrupt_poll _).wait_for_IRQ = _
    rw [h2]
    exact ⟨rfl, rfl, rfl, rfl, rfl, rfl, hhalt⟩
  · intro h
    have h1 := hp.1 h
    show (iop.interrupt_poll _).wait_for_IRQ = _ ∧ (iop.interrupt_poll _).PC = _ ∧
      (iop.interrupt_poll _).will_branch = _ ∧ (iop.interrupt_poll _).gpr = _ ∧
      (iop.interrupt_poll _).cycles_to_run = _
    refine ⟨h1.2.2.1, h1.2.2.2.1, h1.2.2.2.2, ?_, ?_⟩
    · rw [h1.1]
      rfl
    · rw [h1.1]
      rfl

/-- Witness for C16: the halted test bench with nothing pending (the latency 3 drops to
2) and the halted test bench with an enabled interrupt pending. -/
theorem C16_halted_run_witness :
    iop.run iop.bench_collaborators 7 iop.bench_halted 5 =
      iop.RunResult.ok
        { iop.bench_halted with cpu := { iop.bench_halted.cpu with muldiv_delay := 2 } } ∧
    (∃ m' : iop.Machine Unit,
      iop.run iop.bench_collaborators 7 iop.bench_halted_irq 5 = iop.RunResult.ok m' ∧
      m'.cpu.wait_for_IRQ = false ∧ m'.cpu.PC = 0x80000080) := by
  obtain ⟨m1, hr1, _, _, hno, _⟩ :=
    C16_halted_run iop.bench_collaborators 7 iop.bench_halted 5 rfl
  obtain ⟨m2, hr2, _, _, _, hyes⟩ :=
    C16_halted_run iop.bench_collaborators 7 iop.bench_halted_irq 5 rfl
  have h2 := hyes ⟨rfl, by decide⟩
  exact ⟨rfl, m2, hr2, h2.1, h2.2.1⟩

/-! ### IOP memory accesses and alignment -/

/-- The test `addr & 0x1` is a test for an odd address. -/
theorem and_one_eq_mod (a : Nat) : a &&& 0x1 = a % 2 := by
  exact Nat.and_one_is_mod a

/-- The test `addr & 0x3` is a test of the address modulo 4. -/
theorem and_three_eq_mod (a : Nat) : a &&& 0x3 = a % 4 := by
  have h := Nat.and_pow_two_sub_one_eq_mod a 2
  simpa using h

/-- C17. `IOP::read16` ends in a fatal error exactly for odd addresses and `IOP::read32`
exactly for addresses with `addr & 3 != 0`; the fatal outcome carries the rest of the
machine untouched (no bus access was made).  For an aligned address `read16` returns
the bus read `iop_read16` at `translate_addr(addr)`, and `read32` returns
`cache_control` for `0xFFFE0130` and the bus read `iop_read32` at `translate_addr(addr)`
for every other address. -/
theorem C17_read_alignment {E : Type} (b : iop.Collaborators E) (cpu : iop.IOP) (env : E)
    (addr : Nat) :
    (iop.read16 b cpu env addr = iop.Access.die env ↔ addr % 2 = 1) ∧
    (iop.read32 b cpu env addr = iop.Access.die env ↔ addr % 4 ≠ 0) ∧
    (addr % 2 = 0 →
      iop.read16 b cpu env addr =
        iop.Access.ok (b.iop_read16 cpu env (iop.IOP.translate_addr addr)).1
          (b.iop_read16 cpu env (iop.IOP.translate_addr addr)).2) ∧
    (addr % 4 = 0 → addr ≠ 0xFFFE0130 →
      iop.read32 b cpu env addr =
        iop.Access.ok (b.iop_read32 cpu env (iop.IOP.translate_addr addr)).1
          (b.iop_read32 cpu env (iop.IOP.translate_addr addr)).2) ∧
    iop.read32 b cpu env 0xFFFE0130 = iop.Access.ok cpu.cache_control env := by
  refine ⟨?_, ?_, ?_, ?_, ?_⟩
  · simp only [iop.read16, and_one_eq_mod]
    by_cases h : addr % 2 = 0
    · rw [if_neg (by simp [h])]
      constructor
      · intro hd
        cases hd
      · intro h1
        omega
    · rw [if_pos h]
      constructor
      · intro _
        omega
      · intro _
        rfl
  · simp only [iop.read32, and_three_eq_mod]
    by_cases h : addr % 4 = 0
    · rw [if_neg (by simp [h])]
      constructor
      · intro hd
        split at hd <;> cases hd
      · intro h1
        exact absurd h h1
    · rw [if_pos h]
      exact ⟨fun _ => h, fun _ => rfl⟩
  · intro h
    simp only [iop.read16, and_one_eq_mod]
    rw [if_neg (by simp [h])]
  · intro h hne
    simp only [iop.read32, and_three_eq_mod]
    rw [if_neg (by simp [h]), if_neg hne]
  · simp only [iop.read32]
    rw [if_neg (by decide)]
    rfl

/-- Witness for C17 on the test bench: a 16-bit read of `0x101` and a 32-bit read of
`0x102` are fatal; a 32-bit read of `0x80000100` goes to the bus at `0x100`. -/
theorem C17_read_alignment_witness :
    iop.read16 iop.bench_collaborators iop.bench_iop () 0x101 = iop.Access.die () ∧
    iop.read32 iop.bench_collaborators iop.bench_iop () 0x102 = iop.Access.die () ∧
    iop.read32 iop.bench_collaborators iop.bench_iop () 0x80000100 = iop.Access.ok 1 () := by
  have h1 := (C17_read_alignment iop.bench_collaborators iop.bench_iop () 0x101).1.2 (by decide)
  have h2 := (C17_read_alignment iop.bench_collaborators iop.bench_iop () 0x102).2.1.2 (by decide)
  have h3 := (C17_read_alignment iop.bench_collaborators iop.bench_iop () 0x80000100).2.2.2.1
    (by decide) (by decide)
  exact ⟨h1, h2, h3⟩

/-- C18 (as amended).  With `cop0.status.IsC` clear, `IOP::write16` to an odd address and
`IOP::write32` to an address with `addr & 3 != 0` end in a fatal error with the
processor (memory and instruction cache included) and the rest of the machine
unchanged.  With `IsC` set neither tests the alignment: `write16` returns without any
effect, and `write32` clears the valid bit of instruction-cache line `(addr >> 4) & 0xFF`
and returns without writing memory. -/
theorem C18_write_alignment {E : Type} (b : iop.Collaborators E) (cpu : iop.IOP) (env : E)
    (addr value : Nat) :
    (cpu.cop0.status.IsC = false → addr % 2 = 1 →
      iop.write16 b cpu env addr value = iop.Access.die (cpu, env)) ∧
    (cpu.cop0.status.IsC = false → addr % 4 ≠ 0 →
      iop.write32 b cpu env addr value = iop.Access.die (cpu, env)) ∧
    (cpu.cop0.status.IsC = true →
      iop.write16 b cpu env addr value = iop.Access.ok () (cpu, env) ∧
      iop.write32 b cpu env addr value =
        iop.Access.ok ()
          ({ cpu with icache := fun i =>
              if i = (addr >>> 4) &&& 0xFF then { cpu.icache i with valid := false }
              else cpu.icache i }, env)) := by
  refine ⟨?_, ?_, ?_⟩
  · intro hc ha
    simp only [iop.write16, hc, and_one_eq_mod]
    rw [if_neg (by simp), if_pos (by omega)]
  · intro hc ha
    simp only [iop.write32, hc, and_three_eq_mod]
    rw [if_neg (by simp), if_pos ha]
  · intro hc
    constructor
    · simp only [iop.write16, hc]
      rfl
    · simp only [iop.write32, hc]
      rfl

/-- Witness for C18 (as amended) on the test bench: misaligned writes with `IsC` clear. -/
theorem C18_write_alignment_witness :
    iop.write16 iop.bench_collaborators iop.bench_iop () 0x101 5 =
      iop.Access.die (iop.bench_iop, ()) ∧
    iop.write32 iop.bench_collaborators iop.bench_iop () 0x102 5 =
      iop.Access.die (iop.bench_iop, ()) :=
  ⟨(C18_write_alignment iop.bench_collaborators iop.bench_iop () 0x101 5).1 rfl (by decide),
   (C18_write_alignment iop.bench_collaborators iop.bench_iop () 0x102 5).2.1 rfl (by decide)⟩

/-- C18, counterexample to the claim as stated: on the test processor with the cache
isolated (`IsC` set, every cache line valid), `write16` to the odd address `0x101` and
`write32` to the misaligned address `0x13` both return normally, and the `write32` has
changed the instruction cache: line 1 is no longer valid. -/
theorem C18_isolated_cache_writes_not_fatal :
    iop.write16 iop.bench_collaborators iop.bench_iop_isolated () 0x101 5 =
      iop.Access.ok () (iop.bench_iop_isolated, ()) ∧
    (∃ cpu' : iop.IOP,
      iop.write32 iop.bench_collaborators iop.bench_iop_isolated () 0x13 5 =
        iop.Access.ok () (cpu', ()) ∧
      (iop.bench_iop_isolated.icache 1).valid = true ∧
      (cpu'.icache 1).valid = false) :=
  ⟨rfl, _, rfl, rfl, rfl⟩

/-- C19. Misaligned branch targets.  When the instruction just executed leaves a branch
to be applied (`will_branch` set and `branch_delay = 0`), the iteration ends in the fatal
error exactly when the target `new_PC` has one of its two low bits set, and then the
run loop ends in that fatal error; otherwise the iteration ends with `PC = new_PC`, a
multiple of 4, and no branch pending, so the next fetch is from an aligned address. -/
theorem C19_misaligned_branch_target {E : Type} (b : iop.Collaborators E) (m : iop.Machine E)
    (c : iop.IOP) (e : E) (fuel : Nat)
    (hexec : iop.exec_result b m = some (c, e))
    (hwb : c.will_branch = true) (hbd : c.branch_delay = 0) :
    (iop.step b m = none ↔ c.new_PC &&& 0x3 ≠ 0) ∧
    (c.new_PC &&& 0x3 ≠ 0 ↔ c.new_PC % 4 ≠ 0) ∧
    (0 < m.cpu.cycles_to_run → c.new_PC &&& 0x3 ≠ 0 →
      iop.run_loop b (fuel + 1) m = iop.RunResult.die) ∧
    (∀ m1 : iop.Machine E, iop.step b m = some m1 →
      m1.cpu.PC = c.new_PC ∧ m1.cpu.PC % 4 = 0 ∧ m1.cpu.will_branch = false) := by
  have hadv : iop.advance c =
      if c.new_PC &&& 0x3 ≠ 0 then none
      else some { c with PC := c.new_PC, will_branch := false } := by
    simp [iop.advance, hwb, hbd]
  have hstep : iop.step b m =
      if c.new_PC &&& 0x3 ≠ 0 then none
      else some { cpu := { c with PC := c.new_PC, will_branch := false },
                  env := if c.PC = 0x00012C48 ∨ c.PC = 0x0001420C ∨ c.PC = 0x0001430C then
                      b.iop_puts c e else e,
                  executed := (iop.fetch_phase b m).2.executed } := by
    by_cases h : c.new_PC &&& 0x3 ≠ 0
    · simp only [iop.step, hexec, hadv, if_pos h]
    · simp only [iop.step, hexec, hadv, if_neg h]
  refine ⟨?_, ?_, ?_, ?_⟩
  · rw [hstep]
    by_cases h : c.new_PC &&& 0x3 ≠ 0
    · rw [if_pos h]
      exact ⟨fun _ => h, fun _ => rfl⟩
    · rw [if_neg h]
      constructor
      · intro hn
        cases hn
      · intro h2
        exact absurd h2 h
  · rw [and_three_eq_mod]
  · intro hb hmis
    have hb' : m.cpu.cycles_to_run > 0 := hb
    simp only [iop.run_loop, hb', if_true, hstep, if_pos hmis]
  · intro m1 hm1
    rw [hstep] at hm1
    by_cases h : c.new_PC &&& 0x3 ≠ 0
    · rw [if_pos h] at hm1
      cases hm1
    · rw [if_neg h] at hm1
      have hm := (Option.some.inj hm1).symm
      subst hm
      have h0 : c.new_PC % 4 = 0 := by
        rw [and_three_eq_mod] at h
        omega
      exact ⟨rfl, h0, rfl⟩

/-- Witness for C19 on the test bench: with the branch to the misaligned target `0x202`
pending in the delay slot at `0x104`, the iteration and the run loop end in the fatal
error. -/
theorem C19_misaligned_branch_witness :
    iop.step iop.bench_collaborators_misaligned
      { iop.bench_machine1 with cpu := { iop.bench_machine1.cpu with new_PC := 0x202 } } = none ∧
    iop.run_loop iop.bench_collaborators_misaligned 4
      { iop.bench_machine1 with cpu := { iop.bench_machine1.cpu with new_PC := 0x202 } } =
      iop.RunResult.die := by
  have h := C19_misaligned_branch_target iop.bench_collaborators_misaligned
    { iop.bench_machine1 with cpu := { iop.bench_machine1.cpu with new_PC := 0x202 } }
    { iop.bench_machine1.cpu with new_PC := 0x202, cycles_to_run := 8 } () 3 rfl rfl rfl
  exact ⟨h.1.2 (by decide), h.2.2.1 (by decide) (by decide)⟩

/-! ### Loading a save state -/

/-- The 32-bit image of a sum or difference of `int32_t` views is the sum or difference
of the words modulo 2^32. -/
theorem wrap32_signed32_add_sub (a b : Nat) :
    wrap32 (signed32 a + signed32 b) = (a + b) % 4294967296 ∧
    wrap32 (signed32 a - signed32 b) = (a + 4294967296 - b % 4294967296) % 4294967296 := by
  unfold wrap32 signed32
  refine ⟨?_, ?_⟩ <;> split <;> split <;> omega

/-- The 64-bit image of a sum or difference of `int64_t` views is the sum or difference
of the doublewords modulo 2^64. -/
theorem wrap64_signed64_add_sub (a b : Nat) :
    wrap64 (signed64 a + signed64 b) = (a + b) % 18446744073709551616 ∧
    wrap64 (signed64 a - signed64 b) =
      (a + 18446744073709551616 - b % 18446744073709551616) % 18446744073709551616 := by
  unfold wrap64 signed64
  refine ⟨?_, ?_⟩ <;> split <;> split <;> omega

/-- C29. The nominally trapping handlers are the non-trapping ones: for every register
state and instruction word `add` and `addu`, `sub` and `subu`, `dadd` and `daddu`, `dsub`
and `dsubu` return the same processor state.  None has an exception path: each stores the
sum or difference of the operand registers reduced modulo 2^32 (sign-extended to 64 bits)
respectively modulo 2^64 into `rd`. -/
theorem C29_overflow_variants_coincide (cpu : ee.EmotionEngine) (instruction : Nat) :
    ee.interpreter.add cpu instruction = ee.interpreter.addu cpu instruction ∧
    ee.interpreter.sub cpu instruction = ee.interpreter.subu cpu instruction ∧
    ee.interpreter.dadd cpu instruction = ee.interpreter.daddu cpu instruction ∧
    ee.interpreter.dsub cpu instruction = ee.interpreter.dsubu cpu instruction ∧
    ee.interpreter.add cpu instruction =
      cpu.set_gpr 8 (ee.interpreter.field_rd instruction)
        (sext32 ((cpu.get_gpr 8 (ee.interpreter.field_rs instruction) 0 +
          cpu.get_gpr 8 (ee.interpreter.field_rt instruction) 0) % 4294967296)) 0 ∧
    ee.interpreter.sub cpu instruction =
      cpu.set_gpr 8 (ee.interpreter.field_rd instruction)
        (sext32 ((cpu.get_gpr 4 (ee.interpreter.field_rs instruction) 0 + 4294967296 -
          cpu.get_gpr 4 (ee.interpreter.field_rt instruction) 0) % 4294967296)) 0 ∧
    ee.interpreter.dadd cpu instruction =
      cpu.set_gpr 8 (ee.interpreter.field_rd instruction)
        ((cpu.get_gpr 8 (ee.interpreter.field_rs instruction) 0 +
          cpu.get_gpr 8 (ee.interpreter.field_rt instruction) 0) % 18446744073709551616) 0 ∧
    ee.interpreter.dsub cpu instruction =
      cpu.set_gpr 8 (ee.interpreter.field_rd instruction)
        ((cpu.get_gpr 8 (ee.interpreter.field_rs instruction) 0 + 18446744073709551616 -
          cpu.get_gpr 8 (ee.interpreter.field_rt instruction) 0) % 18446744073709551616) 0 := by
  refine ⟨rfl, rfl, rfl, rfl, ?_, ?_, ?_, ?_⟩
  · simp only [ee.interpreter.add, ee.interpreter.wrap_int32]
    rw [(wrap32_signed32_add_sub _ _).1]
    rfl
  · have h := get_gpr4_lt cpu (ee.interpreter.field_rt instruction) 0
    simp only [ee.interpreter.sub, ee.interpreter.wrap_int32]
    rw [(wrap32_signed32_add_sub _ _).2, Nat.mod_eq_of_lt h]
    rfl
  · simp only [ee.interpreter.dadd]
    rw [(wrap64_signed64_add_sub _ _).1]
  · have h : cpu.get_gpr 8 (ee.interpreter.field_rt instruction) 0 < 18446744073709551616 := by
      have h := loadLE_lt cpu.gpr (ee.interpreter.field_rt instruction * 8 * 2 + 0 * 8) 8
      simpa [ee.EmotionEngine.get_gpr] using h
    simp only [ee.interpreter.dsub]
    rw [(wrap64_signed64_add_sub _ _).2, Nat.mod_eq_of_lt h]

/-- The remainder of a negated dividend is the negated remainder. -/
theorem neg_tmod_eq (a b : Int) : Int.tmod (-a) b = -(Int.tmod a b) := by
  rw [Int.tmod_def, Int.tmod_def, Int.neg_tdiv]
  ring

/-- The remainder of C++ division is smaller in magnitude than the divisor and carries
the sign of the dividend. -/
theorem tmod_bounds (n d : Int) (hd : d ≠ 0) :
    |Int.tmod n d| < |d| ∧ (0 ≤ n → 0 ≤ Int.tmod n d) ∧ (n ≤ 0 → Int.tmod n d ≤ 0) := by
  have hpos : ∀ a : Int, 0 ≤ a → 0 ≤ Int.tmod a d ∧ Int.tmod a d < |d| := by
    intro a ha
    refine ⟨Int.tmod_nonneg d ha, ?_⟩
    rcases lt_or_gt_of_ne hd with h | h
    · rw [abs_of_neg h, ← Int.tmod_neg]
      exact Int.tmod_lt_of_pos a (by omega)
    · rw [abs_of_pos h]
      exact Int.tmod_lt_of_pos a h
  rcases le_total 0 n with hn | hn
  · have h := hpos n hn
    refine ⟨?_, fun _ => h.1, fun h0 => ?_⟩
    · rw [abs_of_nonneg h.1]
      exact h.2
    · have : n = 0 := le_antisymm h0 hn
      subst this
      simp
  · have h := hpos (-n) (by omega)
    rw [neg_tmod_eq] at h
    refine ⟨?_, fun h0 => ?_, fun _ => by omega⟩
    · rw [abs_of_nonpos (by omega)]
      exact h.2
    · have : n = 0 := le_antisymm hn h0
      subst this
      simp

/-- The quotient of C++ division of `int32_t` operands fits an `int32_t` unless the
operands are `INT32_MIN` and `-1`. -/
theorem tdiv_int32_range (n d : Int) (hn : -2147483648 ≤ n ∧ n < 2147483648)
    (hnd : ¬ (n = -2147483648 ∧ d = -1)) :
    -2147483648 ≤ Int.tdiv n d ∧ Int.tdiv n d < 2147483648 := by
  have habs : (Int.tdiv n d).natAbs = n.natAbs / d.natAbs := Int.natAbs_tdiv n d
  have hle : n.natAbs / d.natAbs ≤ n.natAbs := Nat.div_le_self _ _
  have hnabs : n.natAbs ≤ 2147483648 := by omega
  by_cases hq : Int.tdiv n d = 2147483648
  · exfalso
    have h1 : (Int.tdiv n d).natAbs = 2147483648 := by rw [hq]; rfl
    have h2 : n.natAbs = 2147483648 := by omega
    have h3 : n = -2147483648 := by omega
    have h4 : d.natAbs = 1 := by
      rcases Nat.lt_or_ge d.natAbs 2 with h | h
      · rcases Nat.eq_zero_or_pos d.natAbs with h0 | h0
        · rw [h0, Nat.div_zero] at habs
          omega
        · omega
      · have : n.natAbs / d.natAbs ≤ n.natAbs / 2 := Nat.div_le_div_left h (by norm_num)
        omega
    have h5 : d = 1 := by omega
    rw [h5, Int.tdiv_one] at hq
    omega
  · omega

/-- The 64-bit image of an integer in the `int32_t` range is the sign extension of its
32-bit image. -/
theorem wrap64_eq_sext32 (y : Int) (hlo : -2147483648 ≤ y) (hhi : y < 2147483648) :
    wrap64 y = sext32 (wrap32 y) := by
  simp only [sext32, signed32, wrap32, wrap64]
  split <;> omega

/-- C30. Signed `div` away from its two special cases.  With `n` the `int32_t` view of `rs`
and `d` that of `rt`, `d ≠ 0` and `(n, d) ≠ (-2^31, -1)`: the handler returns, only the low
halves of `LO` and `HI` change, `LO` holds the sign extension of a quotient `q` and `HI`
that of a remainder `r`, both in the `int32_t` range, with `n = q * d + r`, `|r| < |d|`
and `r` zero or of the sign of `n`. -/
theorem C30_div_truncates_toward_zero (cpu : ee.EmotionEngine) (instruction : Nat)
    (hd : signed32 (cpu.get_gpr 4 (ee.interpreter.field_rt instruction) 0) ≠ 0)
    (hnd : ¬ (signed32 (cpu.get_gpr 4 (ee.interpreter.field_rs instruction) 0) = -2147483648 ∧
      signed32 (cpu.get_gpr 4 (ee.interpreter.field_rt instruction) 0) = -1)) :
    ∃ q r : Int,
      ee.interpreter.div cpu instruction =
        some { cpu with LO := { cpu.LO with lo := wrap64 q }, HI := { cpu.HI with lo := wrap64 r } } ∧
      (-2147483648 ≤ q ∧ q < 2147483648) ∧ (-2147483648 ≤ r ∧ r < 2147483648) ∧
      wrap64 q = sext32 (wrap32 q) ∧ wrap64 r = sext32 (wrap32 r) ∧
      signed32 (cpu.get_gpr 4 (ee.interpreter.field_rs instruction) 0) =
        q * signed32 (cpu.get_gpr 4 (ee.interpreter.field_rt instruction) 0) + r ∧
      |r| < |signed32 (cpu.get_gpr 4 (ee.interpreter.field_rt instruction) 0)| ∧
      (r = 0 ∨
        (0 < r ∧ 0 < signed32 (cpu.get_gpr 4 (ee.interpreter.field_rs instruction) 0)) ∨
        (r < 0 ∧ signed32 (cpu.get_gpr 4 (ee.interpreter.field_rs instruction) 0) < 0)) := by
  have hn := signed32_range (cpu.get_gpr 4 (ee.interpreter.field_rs instruction) 0)
  have hdr := signed32_range (cpu.get_gpr 4 (ee.interpreter.field_rt instruction) 0)
  have hrs := get_gpr4_lt cpu (ee.interpreter.field_rs instruction) 0
  have hrt := get_gpr4_lt cpu (ee.interpreter.field_rt instruction) 0
  generalize hN : signed32 (cpu.get_gpr 4 (ee.interpreter.field_rs instruction) 0) = n at *
  generalize hD : signed32 (cpu.get_gpr 4 (ee.interpreter.field_rt instruction) 0) = d at *
  have hm := tmod_bounds n d hd
  have hq := tdiv_int32_range n d hn hnd
  have hsum : d * Int.tdiv n d + Int.tmod n d = n := Int.tdiv_add_tmod n d
  have hrabs : |Int.tmod n d| < 2147483649 := by
    have : |d| ≤ 2147483648 := abs_le.mpr ⟨by omega, by omega⟩
    omega
  have hr : -2147483648 ≤ Int.tmod n d ∧ Int.tmod n d < 2147483648 := by
    have h1 := abs_lt.mp hm.1
    have h2 : |d| ≤ 2147483648 := abs_le.mpr ⟨by omega, by omega⟩
    constructor <;> omega
  have hguard : ee.interpreter.div_overflow_guard n d = false := by
    cases hg : ee.interpreter.div_overflow_guard n d with
    | false => rfl
    | true =>
      exfalso
      rw [← hN, ← hD] at hg
      have := (div_overflow_guard_iff _ _ hrs hrt).1 hg
      apply hnd
      rw [← hN, ← hD, this.1, this.2]
      exact ⟨by decide, by decide⟩
  have hcond : ¬ (d = 0 ∨ (n = -2147483648 ∧ d = -1)) := by
    rintro (h | h)
    · exact hd h
    · exact hnd h
  refine ⟨Int.tdiv n d, Int.tmod n d, ?_, hq, hr, ?_, ?_, ?_, hm.1, ?_⟩
  · simp only [ee.interpreter.div, hN, hD, hguard, ee.interpreter.idiv32,
      ee.interpreter.imod32, if_neg hcond, ee.EmotionEngine.set_LO_HI]
    simp [hd]
  · exact wrap64_eq_sext32 _ hq.1 hq.2
  · exact wrap64_eq_sext32 _ hr.1 hr.2
  · rw [mul_comm]
    omega
  · rcases lt_trichotomy (Int.tmod n d) 0 with h | h | h
    · right; right
      refine ⟨h, ?_⟩
      by_contra hc
      have := hm.2.1 (by omega)
      omega
    · left; exact h
    · right; left
      refine ⟨h, ?_⟩
      by_contra hc
      have := hm.2.2 (by omega)
      omega

/-- Witness for C30: on the test bench `r1 = -5` and `r4 = -1`; `div r1, r4` (word
`0x0024001A`) leaves quotient 5 and remainder 0. -/
theorem C30_div_witness :
    ∃ q r : Int,
      ee.interpreter.div ee.bench_cpu 0x0024001A =
        some { ee.bench_cpu with LO := { ee.bench_cpu.LO with lo := wrap64 q },
                                 HI := { ee.bench_cpu.HI with lo := wrap64 r } } ∧
      (-5 : Int) = q * (-1) + r ∧ |r| < 1 := by
  have hrs : signed32 (ee.bench_cpu.get_gpr 4 (ee.interpreter.field_rs 0x0024001A) 0) = -5 := by
    decide
  have hrt : signed32 (ee.bench_cpu.get_gpr 4 (ee.interpreter.field_rt 0x0024001A) 0) = -1 := by
    decide
  obtain ⟨q, r, h1, _, _, _, _, h2, h3, _⟩ :=
    C30_div_truncates_toward_zero ee.bench_cpu 0x0024001A (by rw [hrt]; decide)
      (by rw [hrs]; decide)
  rw [hrs, hrt] at h2
  rw [hrt] at h3
  exact ⟨q, r, h1, h2, h3⟩

/-! ### The exception vector of the IOP -/

/-- C26. Both exception paths of the IOP resume at `0x80000080`.  (a) When the handler
of the instruction executed in an iteration of the run loop is `syscall_exception`, the
iteration completes in a state with `PC = 0x80000080` and no branch pending, and the next
fetch is from `0x80000080`.  (b) When the loop of `run` (or, for a halted processor, the
latency countdown) ends in a state `pre` in which the interrupt test succeeds, `run`
returns `pre` with `interrupt` applied, which has `PC = 0x80000080` and no branch
pending, and the next fetch is from `0x80000080`. -/
theorem C26_exception_vector {E : Type} (b : iop.Collaborators E) :
    (∀ (m : iop.Machine E) (cpu1 : iop.IOP) (env1 : E),
      iop.exec_result b m = some (cpu1.syscall_exception, env1) →
      ∃ m' : iop.Machine E, iop.step b m = some m' ∧
        m'.cpu.PC = 0x80000080 ∧ m'.cpu.will_branch = false ∧
        (iop.fetch_phase b m').2.executed =
          m'.executed ++ [(0x80000080, (iop.fetch_phase b m').1)]) ∧
    (∀ (fuel : Nat) (m pre : iop.Machine E) (cycles : Int),
      (if m.cpu.wait_for_IRQ then
          pre = { m with cpu := if m.cpu.muldiv_delay ≠ 0 then
              { m.cpu with muldiv_delay := m.cpu.muldiv_delay - 1 } else m.cpu }
        else
          iop.run_loop b fuel
            { m with cpu := { m.cpu with cycles_to_run := m.cpu.cycles_to_run + cycles } } =
            iop.RunResult.ok pre) →
      (pre.cpu.cop0.status.IEc = true ∧
        (pre.cpu.cop0.status.Im &&& pre.cpu.cop0.cause.int_pending) ≠ 0) →
      ∃ m' : iop.Machine E, iop.run b fuel m cycles = iop.RunResult.ok m' ∧
        m' = { pre with cpu := pre.cpu.interrupt } ∧
        m'.cpu.PC = 0x80000080 ∧ m'.cpu.will_branch = false ∧
        (iop.fetch_phase b m').2.executed =
          m'.executed ++ [(0x80000080, (iop.fetch_phase b m').1)]) := by
  constructor
  · intro m cpu1 env1 hexec
    have hadv : iop.advance cpu1.syscall_exception =
        some { cpu1.syscall_exception with PC := 0x80000080 } := by
      simp only [iop.advance, iop.IOP.syscall_exception, iop.IOP.handle_exception]
      rw [if_neg (by decide)]
      rfl
    have hpc : cpu1.syscall_exception.PC ≠ 0x00012C48 ∧
        cpu1.syscall_exception.PC ≠ 0x0001420C ∧ cpu1.syscall_exception.PC ≠ 0x0001430C := by
      simp only [iop.IOP.syscall_exception, iop.IOP.handle_exception]
      decide
    have hstep : iop.step b m = some
        { cpu := { cpu1.syscall_exception with PC := 0x80000080 }, env := env1,
          executed := (iop.fetch_phase b m).2.executed } := by
      simp only [iop.step, hexec, hadv]
      rw [if_neg (by
        rintro (h | h | h)
        · exact hpc.1 h
        · exact hpc.2.1 h
        · exact hpc.2.2 h)]
    refine ⟨_, hstep, rfl, rfl, ?_⟩
    exact (fetch_phase_control b _).2.2.2.2
  · intro fuel m pre cycles hpre hirq
    have hc := (interrupt_poll_cases pre.cpu).1 hirq
    have hrun : iop.run b fuel m cycles =
        iop.RunResult.ok { pre with cpu := iop.interrupt_poll pre.cpu } := by
      unfold iop.run
      by_cases hw : m.cpu.wait_for_IRQ = true
      · rw [if_pos hw] at hpre
        rw [if_neg (by simp [hw]), hpre]
      · rw [if_neg hw] at hpre
        rw [if_pos (by simpa using hw), hpre]
    rw [hc.1] at hrun
    refine ⟨_, hrun, rfl, ?_, ?_, ?_⟩
    · rw [← hc.1]
      exact hc.2.2.2.1
    · rw [← hc.1]
      exact hc.2.2.2.2
    · have hf := (fetch_phase_control b { pre with cpu := pre.cpu.interrupt }).2.2.2.2
      rw [hf]
      show _ ++ [((pre.cpu.interrupt).PC, _)] = _
      rw [← hc.1, hc.2.2.2.1]

/-- Witness for C26: the test bench whose word at `0x100` is a `syscall` completes the
iteration at `PC = 0x80000080`; the running test bench with interrupt line 2 pending ends
`run(1)` with the interrupt taken and `PC = 0x80000080`. -/
theorem C26_exception_vector_witness :
    (∃ m' : iop.Machine Unit,
      iop.step iop.bench_collaborators_syscall iop.bench_machine = some m' ∧
      m'.cpu.PC = 0x80000080 ∧ m'.cpu.will_branch = false) ∧
    (∃ m' : iop.Machine Unit,
      iop.run iop.bench_collaborators 1 iop.bench_running_irq 1 = iop.RunResult.ok m' ∧
      m'.cpu.PC = 0x80000080 ∧ m'.cpu.will_branch = false) := by
  have h := C26_exception_vector iop.bench_collaborators_syscall
  have h2 := C26_exception_vector iop.bench_collaborators
  constructor
  · obtain ⟨m', hs, hpc, hwb, _⟩ := h.1 iop.bench_machine
      { iop.bench_iop with cycles_to_run := 9 } () rfl
    exact ⟨m', hs, hpc, hwb⟩
  · obtain ⟨m', hr, _, hpc, hwb, _⟩ := h2.2 1 iop.bench_running_irq
      { cpu := { iop.bench_running_irq.cpu with cycles_to_run := 0, PC := 0x108 }, env := (),
        executed := [(0x104, 0)] } 1 rfl ⟨rfl, by decide⟩
    exact ⟨m', hr, hpc, hwb⟩

/-! ### The pre-stall test of the VU interpreter -/

/-- A mask of `k` ones shifted left by `i` selects the field of `k` bits at bit `i`. -/
theorem and_shifted_mask (x i k : Nat) :
    x &&& (2 ^ i * (2 ^ k - 1)) = 2 ^ i * (x / 2 ^ i % 2 ^ k) := by
  apply Nat.eq_of_testBit_eq
  intro j
  rw [← Nat.shiftRight_eq_div_pow, Nat.testBit_and, Nat.testBit_mul_pow_two,
    Nat.testBit_mul_pow_two, Nat.testBit_two_pow_sub_one, Nat.testBit_mod_two_pow,
    Nat.testBit_shiftRight]
  by_cases h : i ≤ j
  · have e3 : i + (j - i) = j := by omega
    simp [h, e3, Bool.and_comm]
  · simp [h]

/-- The fields of a VU lower word that the dispatch and the pre-stall test look at. -/
theorem lower_fields (x : Nat) :
    x &&& 0x800007FC = 2147483648 * (x / 2147483648 % 2) + 4 * (x / 4 % 512) ∧
    x &&& (1 <<< 31) = 2147483648 * (x / 2147483648 % 2) ∧
    x &&& 0x3F = x % 64 ∧
    (x &&& 0x3) ||| ((x >>> 4) &&& 0x7C) = 4 * (x / 64 % 32) + x % 4 ∧
    (x >>> 25) &&& 0x7F = x / 33554432 % 128 := by
  have h31 := and_shifted_mask x 31 1
  have h2 := and_shifted_mask x 2 9
  have h6 := and_shifted_mask (x >>> 4) 2 5
  have hlo := Nat.and_pow_two_sub_one_eq_mod x 6
  have hlo2 := Nat.and_pow_two_sub_one_eq_mod x 2
  have hop2 := Nat.and_pow_two_sub_one_eq_mod (x >>> 25) 7
  rw [Nat.shiftRight_eq_div_pow] at h6 hop2
  norm_num at h31 h2 h6 hlo hlo2 hop2
  refine ⟨?_, ?_, hlo, ?_, ?_⟩
  · have e : (0x800007FC : Nat) = 2147483648 ||| 2044 := by decide
    rw [e, Nat.and_or_distrib_left, h31, h2]
    have hb : 4 * (x / 4 % 512) < 2 ^ 31 := by omega
    have := Nat.mul_add_lt_is_or hb (x / 2147483648 % 2)
    norm_num at this
    exact this.symm
  · have e : (1 <<< 31 : Nat) = 2147483648 := by decide
    rw [e, h31]
  · have hb : x % 4 < 2 ^ 2 := by omega
    have key : 4 * (x / 16 / 4 % 32) + x % 4 = 4 * (x / 16 / 4 % 32) ||| x % 4 :=
      Nat.mul_add_lt_is_or hb (x / 16 / 4 % 32)
    have e4 : x >>> 4 = x / 16 := by
      rw [Nat.shiftRight_eq_div_pow]
    have e64 : x / 16 / 4 = x / 64 := Nat.div_div_eq_div_mul x 16 4
    rw [e4, hlo2, h6, Nat.lor_comm, ← key, e64]
  · rw [Nat.shiftRight_eq_div_pow]
    exact hop2

/-- The opcode table of `lower2` holds none of the Q-pipeline handlers. -/
theorem lower2_op_not_q : ∀ op : Nat, op < 128 →
    ∀ h ∈ VU_Interpreter.q_pipeline_ops, VU_Interpreter.lower2_op op ≠ some h := by
  decide

/-- The opcode table of `lower1_special` holds the Q-pipeline handlers at `0x38`..`0x3B`
and nowhere else. -/
theorem lower1_special_op_q : ∀ op : Nat, op < 128 →
    ((∃ h ∈ VU_Interpreter.q_pipeline_ops, VU_Interpreter.lower1_special_op op = some h) ↔
      (0x38 ≤ op ∧ op ≤ 0x3B)) := by
  decide

/-- Outside the opcodes `0x3C`..`0x3F`, `lower1` calls none of the Q-pipeline handlers;
at those opcodes it calls `lower1_special`. -/
theorem lower1_op_cases (op instr : Nat) :
    (op = 0x3C ∨ op = 0x3D ∨ op = 0x3E ∨ op = 0x3F →
      VU_Interpreter.lower1_op op instr = VU_Interpreter.lower1_special instr) ∧
    (¬ (op = 0x3C ∨ op = 0x3D ∨ op = 0x3E ∨ op = 0x3F) →
      ∀ h ∈ VU_Interpreter.q_pipeline_ops, VU_Interpreter.lower1_op op instr ≠ some h) := by
  constructor
  · intro hop
    unfold VU_Interpreter.lower1_op
    rw [if_neg (by omega), if_neg (by omega), if_neg (by omega), if_neg (by omega),
      if_neg (by omega), if_pos hop]
  · intro hop h hq
    unfold VU_Interpreter.lower1_op
    rw [if_neg hop]
    simp only [VU_Interpreter.q_pipeline_ops, List.mem_cons, List.mem_singleton,
      List.not_mem_nil, or_false] at hq
    split_ifs <;> rcases hq with rfl | rfl | rfl | rfl <;> simp

/-- C28. The pre-stall test of `interpret` recognises exactly the Q-pipeline
instructions.  For every lower word `L`, `(L & 0x800007FC) == 0x800003BC` holds if and
only if `lower(L)` calls one of `div`, `vu_sqrt`, `rsqrt`, `waitq`; and it holds if and
only if bit 31 is set, `L & 0x3F` is one of `0x3C`..`0x3F` (so that `lower1` calls
`lower1_special`) and the opcode of `lower1_special` lies in `0x38`..`0x3B`. -/
theorem C28_prestall_test_iff_q_pipeline (L : Nat) :
    (VU_Interpreter.prestall_test L = true ↔
      ∃ h ∈ VU_Interpreter.q_pipeline_ops, VU_Interpreter.lower L = some h) ∧
    (VU_Interpreter.prestall_test L = true ↔
      VU_Interpreter.dispatches_to_q_pipeline L = true) ∧
    (VU_Interpreter.prestall_test L = true ↔
      (L &&& (1 <<< 31) ≠ 0 ∧ 0x3C ≤ L &&& 0x3F ∧ L &&& 0x3F ≤ 0x3F ∧
        0x38 ≤ (L &&& 0x3) ||| ((L >>> 4) &&& 0x7C) ∧
        (L &&& 0x3) ||| ((L >>> 4) &&& 0x7C) ≤ 0x3B)) := by
  obtain ⟨hm, h31, h6, hsp, hop2⟩ := lower_fields L
  have e16 : L / 4 / 16 = L / 64 := Nat.div_div_eq_div_mul L 4 16
  have htest : VU_Interpreter.prestall_test L = true ↔
      (L / 2147483648 % 2 = 1 ∧ 60 ≤ L % 64 ∧ 56 ≤ 4 * (L / 64 % 32) + L % 4 ∧
        4 * (L / 64 % 32) + L % 4 ≤ 59) := by
    simp only [VU_Interpreter.prestall_test, beq_iff_eq, hm]
    omega
  have hfields : VU_Interpreter.prestall_test L = true ↔
      (L &&& (1 <<< 31) ≠ 0 ∧ 0x3C ≤ L &&& 0x3F ∧ L &&& 0x3F ≤ 0x3F ∧
        0x38 ≤ (L &&& 0x3) ||| ((L >>> 4) &&& 0x7C) ∧
        (L &&& 0x3) ||| ((L >>> 4) &&& 0x7C) ≤ 0x3B) := by
    rw [htest, h31, h6, hsp]
    omega
  have hdisp : VU_Interpreter.prestall_test L = true ↔
      ∃ h ∈ VU_Interpreter.q_pipeline_ops, VU_Interpreter.lower L = some h := by
    rw [htest]
    unfold VU_Interpreter.lower
    rw [h31]
    by_cases hb : L / 2147483648 % 2 = 1
    · rw [if_pos (by omega)]
      unfold VU_Interpreter.lower1
      rw [h6]
      by_cases hp : 60 ≤ L % 64
      · rw [(lower1_op_cases (L % 64) L).1 (by omega)]
        unfold VU_Interpreter.lower1_special
        rw [hsp]
        have := lower1_special_op_q (4 * (L / 64 % 32) + L % 4) (by omega)
        rw [this]
        omega
      · have hno := (lower1_op_cases (L % 64) L).2 (by omega)
        constructor
        · intro h
          omega
        · rintro ⟨h, hq, he⟩
          exact absurd he (hno h hq)
    · rw [if_neg (by omega)]
      unfold VU_Interpreter.lower2
      rw [hop2]
      have hno := lower2_op_not_q (L / 33554432 % 128) (by omega)
      constructor
      · intro h
        omega
      · rintro ⟨h, hq, he⟩
        exact absurd he (hno h hq)
  refine ⟨hdisp, ?_, hfields⟩
  rw [hdisp]
  unfold VU_Interpreter.dispatches_to_q_pipeline
  cases hl : VU_Interpreter.lower L with
  | none => simp
  | some h => simp

/-- Witness for C28: the word `0x800003BC` passes the test and is dispatched to `div`;
the word `0x800003FC` (special opcode `0x3C`, `mtir`) fails it. -/
theorem C28_prestall_test_witness :
    VU_Interpreter.prestall_test 0x800003BC = true ∧
    VU_Interpreter.lower 0x800003BC = some VU_Interpreter.LowerOp.div ∧
    VU_Interpreter.prestall_test 0x800003FC = false ∧
    VU_Interpreter.lower 0x800003FC = some VU_Interpreter.LowerOp.mtir := by
  have h := (C28_prestall_test_iff_q_pipeline 0x800003BC).1
  exact ⟨h.2 ⟨VU_Interpreter.LowerOp.div, by decide, by decide⟩, by decide, by decide,
    by decide⟩

/-! ### Dependency records of the decoder `special` -/

/-- The case `0x09` (JALR) of `special` records one dependency, a read of `rs`. -/
theorem special_jalr (regs : ee.interpreter.Registers) (info : ee.interpreter.EE_InstrInfo)
    (instruction : Nat) (h : instruction &&& 0x3F = 0x09) :
    ee.interpreter.special regs info instruction =
      some { info with
        interpreter_fn := some ee.interpreter.Handler.jalr,
        pipeline := ee.interpreter.Pipeline.Branch,
        dependencies := info.dependencies ++
          [{ type := ee.interpreter.DependencyType.Read,
             index := ee.interpreter.field_rs instruction }] } := by
  simp only [ee.interpreter.special, h]
  rfl

/-- The cases DSLL, DSRL, DSRA, DSLL32, DSRL32, DSRA32 of `special` record three
dependencies, the last one a read of the `rs` field. -/
theorem special_doubleword_shift (regs : ee.interpreter.Registers)
    (info : ee.interpreter.EE_InstrInfo) (instruction : Nat)
    (h : instruction &&& 0x3F = 0x38 ∨ instruction &&& 0x3F = 0x3A ∨
      instruction &&& 0x3F = 0x3B ∨ instruction &&& 0x3F = 0x3C ∨
      instruction &&& 0x3F = 0x3E ∨ instruction &&& 0x3F = 0x3F) :
    ∃ d : ee.interpreter.EE_InstrInfo,
      ee.interpreter.special regs info instruction = some d ∧
      d.dependencies = info.dependencies ++
        [{ type := ee.interpreter.DependencyType.Write,
           index := ee.interpreter.field_rd instruction },
         { type := ee.interpreter.DependencyType.Read,
           index := ee.interpreter.field_rt instruction },
         { type := ee.interpreter.DependencyType.Read,
           index := ee.interpreter.field_rs instruction }] := by
  rcases h with h | h | h | h | h | h <;>
    exact ⟨_, by simp only [ee.interpreter.special, h]; rfl,
      by simp [ee.interpreter.three_operand, ee.interpreter.EE_InstrInfo.add_dependency]⟩

/-- The cases SLL, SRL, SRA of `special` record two dependencies. -/
theorem special_word_shift (regs : ee.interpreter.Registers)
    (info : ee.interpreter.EE_InstrInfo) (instruction : Nat)
    (h : instruction &&& 0x3F = 0x00 ∨ instruction &&& 0x3F = 0x02 ∨
      instruction &&& 0x3F = 0x03) :
    ∃ d : ee.interpreter.EE_InstrInfo,
      ee.interpreter.special regs info instruction = some d ∧
      d.dependencies = info.dependencies ++
        [{ type := ee.interpreter.DependencyType.Write,
           index := ee.interpreter.field_rd instruction },
         { type := ee.interpreter.DependencyType.Read,
           index := ee.interpreter.field_rt instruction }] := by
  rcases h with h | h | h <;>
    exact ⟨_, by simp only [ee.interpreter.special, h]; rfl,
      by simp [ee.interpreter.two_operand, ee.interpreter.EE_InstrInfo.add_dependency]⟩

/-- C24 fails for JALR.  The word `0x0040F809` (`jalr r31, r2`) is decoded by `special`
to the handler `jalr` with the single dependency `Read r2`: no Write dependency is
recorded, on register 31 or any other.  Yet the handler writes register 31: on the test
bench (`PC = 0xBFC00000`, `r31 = 0`) it leaves `0xBFC00008` there. -/
theorem C24_jalr_write_not_recorded :
    (∃ d : ee.interpreter.EE_InstrInfo,
      ee.interpreter.special ee.interpreter.bench_registers ee.interpreter.bench_info
        0x0040F809 = some d ∧
      d.interpreter_fn = some ee.interpreter.Handler.jalr ∧
      d.dependencies = [{ type := ee.interpreter.DependencyType.Read, index := 2 }] ∧
      (∀ x ∈ d.dependencies, x.type ≠ ee.interpreter.DependencyType.Write)) ∧
    ee.interpreter.field_rd 0x0040F809 = 31 ∧
    ee.bench_cpu.get_gpr 8 31 0 = 0 ∧
    (ee.interpreter.jalr ee.bench_cpu 0x0040F809).get_gpr 8 31 0 = 0xBFC00008 := by
  refine ⟨⟨_, special_jalr _ _ 0x0040F809 (by decide), rfl, by decide, by decide⟩,
    by decide, by decide, ?_⟩
  have h := jalr_return_address ee.bench_cpu 0x0040F809 (by decide)
  have e : ee.interpreter.field_rd 0x0040F809 = 31 := by decide
  rw [e] at h
  rw [h]
  decide

/-- C27 fails for the doubleword shifts.  Decoded from an empty descriptor, the words
`sll r3, r2, 0`, `srl` and `sra` get exactly `[Write rd, Read rt]`, but `dsll r3, r2, 0`
(`0x00021838`) and likewise `dsrl`, `dsra`, `dsll32`, `dsrl32`, `dsra32` get a third
record, a read of the register named by the `rs` field (bits 21-25, here 0). -/
theorem C27_doubleword_shifts_record_rs :
    (∀ w ∈ [0x00021800, 0x00021802, 0x00021803],
      (ee.interpreter.special ee.interpreter.bench_registers ee.interpreter.bench_info w).map
          (fun d => d.dependencies) =
        some [{ type := ee.interpreter.DependencyType.Write, index := 3 },
              { type := ee.interpreter.DependencyType.Read, index := 2 }]) ∧
    (∀ w ∈ [0x00021838, 0x0002183A, 0x0002183B, 0x0002183C, 0x0002183E, 0x0002183F],
      (ee.interpreter.special ee.interpreter.bench_registers ee.interpreter.bench_info w).map
          (fun d => d.dependencies) =
        some [{ type := ee.interpreter.DependencyType.Write, index := 3 },
              { type := ee.interpreter.DependencyType.Read, index := 2 },
              { type := ee.interpreter.DependencyType.Read, index := 0 }]) ∧
    (ee.interpreter.special ee.interpreter.bench_registers ee.interpreter.bench_info
        0x00A21838).map (fun d => d.dependencies) =
      some [{ type := ee.interpreter.DependencyType.Write, index := 3 },
            { type := ee.interpreter.DependencyType.Read, index := 2 },
            { type := ee.interpreter.DependencyType.Read, index := 5 }] := by
  refine ⟨by decide, by decide, by decide⟩

/-! ### The IOP memory window of the EE bus -/

/-- C25. The window `0x1C000000 .. 0x1C1FFFFF` of the EE bus is IOP memory.  For every
4-byte-aligned offset `off < 0x200000` and every 32-bit value `v`: the access stays inside
the 2 MiB array, `write32` to `0x1C000000 + off` stores `v` at bytes `off .. off + 3` of
`iop->ram` and changes nothing else in the machine, no byte of IOP memory outside
`off .. off + 3` changes, and afterwards `read32` of the same address and the IOP bus read
`iop_read32(off)` both return `v` and leave the machine as it is. -/
theorem C25_iop_ram_window_roundtrip {P : Type} (ext : core.Call → P → Nat × P)
    (rest : core.Emulator P → Nat → Nat × core.Emulator P)
    (e : core.Emulator P) (off v : Nat)
    (hoff : off < 0x200000) (halign : off % 4 = 0) (hv : v < 4294967296) :
    off + 4 ≤ 0x200000 ∧
    e.write32 ext (0x1C000000 + off) v =
      { e with iop := { e.iop with ram := storeLE e.iop.ram off 4 v } } ∧
    (e.write32 ext (0x1C000000 + off) v).read32 ext (0x1C000000 + off) =
      (v, e.write32 ext (0x1C000000 + off) v) ∧
    (e.write32 ext (0x1C000000 + off) v).iop_read32 rest off =
      (v, e.write32 ext (0x1C000000 + off) v) ∧
    (∀ j : Nat, ¬ (off ≤ j ∧ j < off + 4) →
      (e.write32 ext (0x1C000000 + off) v).iop.ram j = e.iop.ram j) := by
  have hmask : (0x1C000000 + off) &&& 0x1FFFFF = off := by
    have h := Nat.and_pow_two_sub_one_eq_mod (0x1C000000 + off) 21
    norm_num at h
    rw [h]
    omega
  have hram : core.in_range 0x1C000000 0x1C200000 (0x1C000000 + off) = true := by
    rw [in_range_iff]
    omega
  have htim : core.in_range 0x10000000 0x10002000 (0x1C000000 + off) = false := by
    rw [Bool.eq_false_iff, Ne, in_range_iff]
    omega
  have hdmac : core.in_range 0x10008000 0x1000F000 (0x1C000000 + off) = false := by
    rw [Bool.eq_false_iff, Ne, in_range_iff]
    omega
  have hgs : core.gs_window (0x1C000000 + off) = false := by
    rw [Bool.eq_false_iff, Ne, gs_window_iff]
    omega
  have hw : e.write32 ext (0x1C000000 + off) v =
      { e with iop := { e.iop with ram := storeLE e.iop.ram off 4 v } } := by
    simp [core.Emulator.write32, core.write32_routes, core.dispatch_write, List.find?, hram,
      hmask, core.Emulator.store_iop_ram]
  have hload : loadLE (storeLE e.iop.ram off 4 v) off 4 = v := by
    rw [loadLE_storeLE_same]
    exact Nat.mod_eq_of_lt (by simpa using hv)
  refine ⟨by omega, hw, ?_, ?_, ?_⟩
  · rw [hw]
    simp [core.Emulator.read32, core.read32_routes, core.dispatch_read, List.find?, hram,
      htim, hdmac, hgs, hmask, hload]
    exact hv
  · rw [hw]
    simp only [core.Emulator.iop_read32]
    rw [if_pos hoff, hload]
  · intro j hj
    rw [hw]
    simp only [storeLE]
    rw [if_neg hj]

/-- Witness for C25 on the test machine: the word `0xDEADBEEF` written to `0x1C000010`
is read back from there and from IOP address `0x10`. -/
theorem C25_iop_ram_window_witness :
    ((core.bench_emulator.write32 core.bench_ext 0x1C000010 0xDEADBEEF).read32
        core.bench_ext 0x1C000010).1 = 0xDEADBEEF ∧
    ((core.bench_emulator.write32 core.bench_ext 0x1C000010 0xDEADBEEF).iop_read32
        (fun e _ => (0, e)) 0x10).1 = 0xDEADBEEF := by
  have h := C25_iop_ram_window_roundtrip core.bench_ext (fun e _ => (0, e))
    core.bench_emulator 0x10 0xDEADBEEF (by decide) (by decide) (by decide)
  exact ⟨by rw [h.2.2.1], by rw [h.2.2.2.1]⟩

/-! ### Save states -/

/-- An object representation of `n` bytes has `n` bytes. -/
theorem le_bytes_length (n v : Nat) : (core.le_bytes n v).length = n := by
  induction n generalizing v with
  | zero => rfl
  | succ n ih => simp [core.le_bytes, ih]

/-- The value of an object representation of `n` bytes is the value modulo `256 ^ n`. -/
theorem le_value_le_bytes (n v : Nat) : core.le_value (core.le_bytes n v) = v % 256 ^ n := by
  induction n generalizing v with
  | zero => simp [core.le_bytes, core.le_value, Nat.mod_one]
  | succ n ih =>
    have h := ih (v / 256)
    simp only [core.le_value] at h
    simp only [core.le_bytes, core.le_value, List.foldr_cons, h, Nat.mod_mod, pow_succ]
    rw [Nat.mul_comm (256 ^ n) 256, Nat.mod_mul]

/-- A dump of `n` bytes has `n` bytes. -/
theorem dump_length (mem : Nat → Nat) (n : Nat) : (core.dump mem n).length = n := by
  simp [core.dump]

/-- A read of as many bytes as the first block of the stream holds delivers that block. -/
theorem stream_read_append (a rest buffer : List Nat) (n : Nat) (h : a.length = n) :
    core.stream_read (a ++ rest) n buffer = (a, rest) := by
  subst h
  simp [core.stream_read]

/-- A read of `n` bytes from a stream that starts with an object representation of `n`
bytes delivers it. -/
theorem stream_read_le_bytes (n v : Nat) (rest buffer : List Nat) :
    core.stream_read (core.le_bytes n v ++ rest) n buffer = (core.le_bytes n v, rest) :=
  stream_read_append _ _ _ _ (le_bytes_length n v)

/-- A read of `n` bytes from a stream that starts with a dump of `n` bytes delivers it. -/
theorem stream_read_dump (mem : Nat → Nat) (n : Nat) (rest buffer : List Nat) :
    core.stream_read (core.dump mem n ++ rest) n buffer = (core.dump mem n, rest) :=
  stream_read_append _ _ _ _ (dump_length mem n)

/-- The byte of a `bool` holds that `bool`. -/
theorem byte_bool_bool_byte (b : Bool) :
    core.byte_bool (core.le_bytes 1 (core.bool_byte b)) = b := by
  cases b <;> decide

/-- A byte array filled from a dump agrees with the dumped array on the dumped bytes. -/
theorem fill_dump (mem0 mem : Nat → Nat) (n j : Nat) (h : j < n) :
    core.fill mem0 (core.dump mem n) j = mem j % 256 := by
  simp [core.fill, core.dump, h]

/-- A load from inside a byte array filled from a dump is the load from the dumped array. -/
theorem loadLE_fill_dump (mem0 mem : Nat → Nat) (n a k : Nat) (h : a + k ≤ n) :
    loadLE (core.fill mem0 (core.dump mem n)) a k = loadLE mem a k := by
  induction k generalizing a with
  | zero => rfl
  | succ k ih =>
    simp only [loadLE]
    rw [ih (a + 1) (by omega), fill_dump mem0 mem n a (by omega), Nat.mod_mod]

/-- What `EmotionEngine::load_state` makes of the bytes written by
`EmotionEngine::save_state`, whatever the processor held before and whatever follows in
the stream: every scalar member comes back reduced to its width and the general
registers come back as saved, but both halves of `LO` hold the saved low half. -/
theorem ee_load_save (cpu c0 : ee.EmotionEngine) (sz : ee.Sizes) (rest : List Nat) :
    (c0.load_state sz (cpu.save_state sz ++ rest)).1.cycle_count =
      cpu.cycle_count % 18446744073709551616 ∧
    (c0.load_state sz (cpu.save_state sz ++ rest)).1.cycles_to_run =
      signed32 (wrap32 cpu.cycles_to_run) ∧
    (c0.load_state sz (cpu.save_state sz ++ rest)).1.gpr =
      core.fill c0.gpr (core.dump cpu.gpr 512) ∧
    (c0.load_state sz (cpu.save_state sz ++ rest)).1.LO =
      { lo := cpu.LO.lo % 18446744073709551616, hi := cpu.LO.lo % 18446744073709551616 } ∧
    (c0.load_state sz (cpu.save_state sz ++ rest)).1.HI =
      { lo := cpu.HI.lo % 18446744073709551616, hi := cpu.HI.hi % 18446744073709551616 } ∧
    (c0.load_state sz (cpu.save_state sz ++ rest)).1.PC = cpu.PC % 4294967296 ∧
    (c0.load_state sz (cpu.save_state sz ++ rest)).1.new_PC = cpu.new_PC % 4294967296 ∧
    (c0.load_state sz (cpu.save_state sz ++ rest)).1.SA = cpu.SA % 18446744073709551616 ∧
    (c0.load_state sz (cpu.save_state sz ++ rest)).1.wait_for_IRQ = cpu.wait_for_IRQ ∧
    (c0.load_state sz (cpu.save_state sz ++ rest)).1.branch_on = cpu.branch_on ∧
    (c0.load_state sz (cpu.save_state sz ++ rest)).1.delay_slot =
      signed32 (wrap32 cpu.delay_slot) := by
  have e32 : ∀ x : Int, wrap32 x % 4294967296 = wrap32 x := by
    intro x
    unfold wrap32
    omega
  simp only [ee.EmotionEngine.load_state, ee.EmotionEngine.save_state, List.append_assoc,
    stream_read_le_bytes, stream_read_dump, le_value_le_bytes, byte_bool_bool_byte]
  norm_num [e32]

/-- C21 fails for the high half of `LO`.  For every saved processor, every processor
loaded into and every continuation of the stream, `load_state` after `save_state` leaves
in `LO.hi` the saved `LO.lo` (reduced to 64 bits), not the saved `LO.hi`: `save_state`
writes `LO.lo` as the third 64-bit word, which `load_state` reads into `LO.hi`.  On the
test processor with `LO = (lo 1, hi 2)` and `HI = (lo 3, hi 4)` the loaded `LO` is
`(lo 1, hi 1)`, while `HI` comes back as saved. -/
theorem C21_LO_high_half_not_restored :
    (∀ (cpu c0 : ee.EmotionEngine) (sz : ee.Sizes) (rest : List Nat),
      (c0.load_state sz (cpu.save_state sz ++ rest)).1.LO.hi =
        cpu.LO.lo % 18446744073709551616) ∧
    ee.bench_cpu_lo_hi.LO = { lo := 1, hi := 2 } ∧
    (ee.bench_cpu.load_state ee.bench_sizes
        (ee.bench_cpu_lo_hi.save_state ee.bench_sizes ++ [])).1.LO = { lo := 1, hi := 1 } ∧
    (ee.bench_cpu.load_state ee.bench_sizes
        (ee.bench_cpu_lo_hi.save_state ee.bench_sizes ++ [])).1.HI = { lo := 3, hi := 4 } := by
  refine ⟨?_, rfl, ?_, ?_⟩
  · intro cpu c0 sz rest
    rw [(ee_load_save cpu c0 sz rest).2.2.2.1]
  · rw [(ee_load_save ee.bench_cpu_lo_hi ee.bench_cpu ee.bench_sizes []).2.2.2.1]
    rfl
  · rw [(ee_load_save ee.bench_cpu_lo_hi ee.bench_cpu ee.bench_sizes []).2.2.2.2.1]
    rfl

/-- With `deci2size` in `0..128` the load consumes exactly the bytes that the save wrote
and restores `deci2size`; every 64-bit half of a general register reads as saved. -/
theorem ee_load_save_rest (cpu c0 : ee.EmotionEngine) (sz : ee.Sizes) (rest : List Nat)
    (hlo : 0 ≤ cpu.deci2size) (hhi : cpu.deci2size ≤ 128) :
    (c0.load_state sz (cpu.save_state sz ++ rest)).2 = rest ∧
    (c0.load_state sz (cpu.save_state sz ++ rest)).1.deci2size = cpu.deci2size ∧
    (∀ id offset : Nat, id < 32 → offset < 2 →
      (c0.load_state sz (cpu.save_state sz ++ rest)).1.get_gpr 8 id offset =
        cpu.get_gpr 8 id offset) := by
  have e32 : ∀ x : Int, wrap32 x % 4294967296 = wrap32 x := by
    intro x
    unfold wrap32
    omega
  have hds : signed32 (wrap32 cpu.deci2size) = cpu.deci2size := by
    unfold signed32 wrap32
    split <;> omega
  refine ⟨?_, ?_, ?_⟩
  · simp only [ee.EmotionEngine.load_state, ee.EmotionEngine.save_state, List.append_assoc,
      stream_read_le_bytes, stream_read_dump, le_value_le_bytes]
    norm_num [e32, hds, stream_read_dump]
  · simp only [ee.EmotionEngine.load_state, ee.EmotionEngine.save_state, List.append_assoc,
      stream_read_le_bytes, stream_read_dump, le_value_le_bytes]
    norm_num [e32, hds]
  · intro id offset hid hoff
    rw [ee.EmotionEngine.get_gpr, (ee_load_save cpu c0 sz rest).2.2.1,
      loadLE_fill_dump _ _ _ _ _ (by omega)]
    rfl

/-- What `Emulator::load_state` makes of a file written by `Emulator::save_state`: the
checks pass, and the result is the component reads applied to the reset machine. -/
theorem load_saved_state {P : Type} (c : core.Components P) (locals : core.LoadLocals)
    (e e0 : core.Emulator P) :
    ∃ file : List Nat, (e.save_state c true).1 = some file ∧
      e0.load_state (core.Emulator.state_loader c) locals (some file) =
        (core.LoadOutcome.loaded,
          (core.Emulator.load_components c
            (core.Emulator.reset c
              ({ e0 with load_requested := false }.print core.LogLine.loading_state))
            (c.save e.periph e.iop).1).print core.LogLine.load_success) := by
  refine ⟨_, rfl, ?_⟩
  have hsig : ∀ rest buffer : List Nat,
      core.stream_read (core.dobie_signature ++ rest) 5 buffer = (core.dobie_signature, rest) :=
    fun rest buffer => stream_read_append _ _ _ _ rfl
  simp only [core.Emulator.load_state, hsig, stream_read_le_bytes, le_value_le_bytes,
    core.Emulator.state_loader, core.Emulator.print]
  simp [core.VER_MAJOR, core.VER_MINOR, core.VER_REV]

/-- C22 as amended.  The two interlock flags are not part of a save state: for every
machine `e` that is saved and every machine `e0` that the file is loaded into,
`save_state` writes a file, `load_state` accepts it, and afterwards `cop2_interlock` and
`vu_interlock` are both false, whatever they were in `e` and in `e0`; `save_state` itself
leaves the flags of `e` alone. -/
theorem C22_load_clears_interlock_flags {P : Type} (c : core.Components P)
    (locals : core.LoadLocals) (e e0 : core.Emulator P) :
    ∃ file : List Nat, (e.save_state c true).1 = some file ∧
      (e.save_state c true).2.cop2_interlock = e.cop2_interlock ∧
      (e.save_state c true).2.vu_interlock = e.vu_interlock ∧
      (e0.load_state (core.Emulator.state_loader c) locals (some file)).1 =
        core.LoadOutcome.loaded ∧
      (e0.load_state (core.Emulator.state_loader c) locals (some file)).2.cop2_interlock =
        false ∧
      (e0.load_state (core.Emulator.state_loader c) locals (some file)).2.vu_interlock =
        false := by
  obtain ⟨file, hf, hl⟩ := load_saved_state c locals e e0
  refine ⟨file, hf, rfl, rfl, ?_, ?_, ?_⟩
  · rw [hl]
  · rw [hl]
    rfl
  · rw [hl]
    rfl

/-- C22 fails on the test machine: saved with both interlock flags set and loaded back
into the same machine, the state has both flags clear. -/
theorem C22_interlock_flags_not_restored :
    core.bench_emulator_interlocked.cop2_interlock = true ∧
    core.bench_emulator_interlocked.vu_interlock = true ∧
    (core.bench_emulator_interlocked.save_state core.bench_components true).1 =
      some [0x44, 0x4F, 0x42, 0x49, 0x45, 0, 0, 0, 0, 0, 0, 0, 0, 50, 0, 0, 0, 0x55] ∧
    (core.bench_emulator_interlocked.load_state
        (core.Emulator.state_loader core.bench_components) core.bench_locals
        (core.bench_emulator_interlocked.save_state core.bench_components true).1).1 =
      core.LoadOutcome.loaded ∧
    (core.bench_emulator_interlocked.load_state
        (core.Emulator.state_loader core.bench_components) core.bench_locals
        (core.bench_emulator_interlocked.save_state core.bench_components true).1).2.cop2_interlock =
      false ∧
    (core.bench_emulator_interlocked.load_state
        (core.Emulator.state_loader core.bench_components) core.bench_locals
        (core.bench_emulator_interlocked.save_state core.bench_components true).1).2.vu_interlock =
      false := by
  refine ⟨rfl, rfl, by decide, by decide, by decide, by decide⟩

/-- The record loop reads back a list of records of the given size, whatever the local
held before. -/
theorem read_records_flatten (size : Nat) (recs : List (List Nat))
    (h : ∀ r ∈ recs, r.length = size) (local_bytes rest : List Nat) :
    core.read_records size recs.length local_bytes (recs.flatten ++ rest) = (recs, rest) := by
  induction recs generalizing local_bytes with
  | nil => rfl
  | cons r recs ih =>
    have hr : r.length = size := h r (List.mem_cons_self r recs)
    have ih2 := ih (fun x hx => h x (List.mem_cons_of_mem r hx)) r
    simp only [List.length_cons, List.flatten_cons, core.read_records, List.append_assoc,
      stream_read_append r _ _ size hr, ih2]

/-- A list length below 2^31 survives the conversion to `int`, the four bytes of the
stream and the conversion back. -/
theorem int_size_roundtrip (n : Nat) (h : n < 2147483648) :
    (signed32 n).toNat = n ∧
    (signed32 (core.le_value (core.le_bytes 4 (wrap32 (signed32 n))))).toNat = n := by
  have h1 : signed32 n = (n : Int) := by
    unfold signed32
    split <;> omega
  have h2 : wrap32 (n : Int) = n := by
    unfold wrap32
    omega
  rw [le_value_le_bytes, h1, h2]
  have h3 : n % 256 ^ 4 = n := Nat.mod_eq_of_lt (by norm_num; omega)
  rw [h3, h1]
  exact ⟨Int.toNat_ofNat n, Int.toNat_ofNat n⟩

/-- C23. The scheduler survives a save state.  For a scheduler `s` whose members have
the sizes `sz` and whose lists have fewer than 2^31 entries, `save_state` leaves `s`
unchanged, and `load_state` on the bytes it wrote (followed by anything) sets every
member of the scheduler loaded into, whatever it held, to that of `s`: the five cycle
counters, `next_event_id`, and the event and timer lists with the same elements in the
same order; it consumes exactly the bytes written. -/
theorem C23_scheduler_roundtrip (s s0 : core.Scheduler) (sz : core.SchedulerSizes)
    (event_local timer_local rest : List Nat) (hwf : s.well_formed sz) :
    s.save_state.2 = s ∧
    s0.load_state sz event_local timer_local (s.save_state.1 ++ rest) = (s, rest) := by
  obtain ⟨h1, h2, h3, h4, h5, h6, hev, htm, hne, hnt⟩ := hwf
  have he := int_size_roundtrip s.events.length hne
  have ht := int_size_roundtrip s.timers.length hnt
  refine ⟨rfl, ?_⟩
  simp only [core.Scheduler.load_state, core.Scheduler.save_state, List.append_assoc,
    stream_read_append _ _ _ _ h1, stream_read_append _ _ _ _ h2,
    stream_read_append _ _ _ _ h3, stream_read_append _ _ _ _ h4,
    stream_read_append _ _ _ _ h5, stream_read_le_bytes, he.2, ht.1, ht.2,
    read_records_flatten _ _ hev, stream_read_append _ _ _ _ h6, List.take_length,
    read_records_flatten _ _ htm]

/-- Witness for C23: the test scheduler (two events, one timer) is read back into a
scheduler that held three other events. -/
theorem C23_scheduler_roundtrip_witness :
    core.bench_scheduler_old.load_state core.bench_scheduler_sizes [0, 0, 0] [0, 0]
        (core.bench_scheduler.save_state.1 ++ [0xAA]) = (core.bench_scheduler, [0xAA]) ∧
    core.bench_scheduler.save_state.2 = core.bench_scheduler :=
  ⟨(C23_scheduler_roundtrip core.bench_scheduler core.bench_scheduler_old
      core.bench_scheduler_sizes [0, 0, 0] [0, 0] [0xAA]
      ⟨rfl, rfl, rfl, rfl, rfl, rfl, by decide, by decide, by decide, by decide⟩).2,
   (C23_scheduler_roundtrip core.bench_scheduler core.bench_scheduler_old
      core.bench_scheduler_sizes [0, 0, 0] [0, 0] [0xAA]
      ⟨rfl, rfl, rfl, rfl, rfl, rfl, by decide, by decide, by decide, by decide⟩).1⟩

/-! ### Mode bits, jumps and address translation of the IOP -/

/-- C31 fails: `handle_exception` does not push the kernel/user bits, `rfe` pops them.
For every processor state, exception address and cause, after `handle_exception` followed
by `rfe` the bit `KUc` holds the former `KUp` and `KUp` the former `KUo`.  On the test
processor with `KUc` set and `KUp`, `KUo` clear, `KUc` is clear after the pair. -/
theorem C31_exception_rfe_shifts_KU :
    (∀ (cpu : iop.IOP) (addr cause : Nat),
      ((cpu.handle_exception addr cause).rfe).cop0.status.KUc = cpu.cop0.status.KUp ∧
      ((cpu.handle_exception addr cause).rfe).cop0.status.KUp = cpu.cop0.status.KUo ∧
      (cpu.handle_exception addr cause).cop0.status.KUc = cpu.cop0.status.KUc ∧
      (cpu.handle_exception addr cause).cop0.status.KUp = cpu.cop0.status.KUp ∧
      (cpu.handle_exception addr cause).cop0.status.KUo = cpu.cop0.status.KUo) ∧
    iop.bench_iop_user.cop0.status.KUc = true ∧
    ((iop.bench_iop_user.syscall_exception).rfe).cop0.status.KUc = false :=
  ⟨fun _ _ _ => ⟨rfl, rfl, rfl, rfl, rfl⟩, rfl, rfl⟩

/-- C32. Jumps and branches of the IOP.  `jp(addr)` with a branch pending changes
nothing; with none pending it sets `new_PC = addr`, `will_branch = true` and
`branch_delay = 1` and nothing else.  `branch(true, offset)` is
`jp((PC + offset + 4) mod 2^32)` and `branch(false, offset)` changes nothing. -/
theorem C32_jp_and_branch (cpu : iop.IOP) (addr : Nat) (offset : Int) :
    (cpu.will_branch = true → cpu.jp addr = cpu) ∧
    (cpu.will_branch = false →
      cpu.jp addr = { cpu with new_PC := addr, will_branch := true, branch_delay := 1 }) ∧
    cpu.branch true offset = cpu.jp (((cpu.PC : Int) + offset + 4) % 4294967296).toNat ∧
    cpu.branch false offset = cpu := by
  refine ⟨?_, ?_, rfl, rfl⟩
  · intro h
    simp [iop.IOP.jp, h]
  · intro h
    simp [iop.IOP.jp, h]

/-- Witness for C32: on the test bench a jump with the branch to `0x200` pending is
ignored, and a jump with none pending is recorded. -/
theorem C32_jp_and_branch_witness :
    iop.bench_machine1.cpu.jp 0x300 = iop.bench_machine1.cpu ∧
    iop.bench_iop.jp 0x300 =
      { iop.bench_iop with new_PC := 0x300, will_branch := true, branch_delay := 1 } :=
  ⟨(C32_jp_and_branch iop.bench_machine1.cpu 0x300 0).1 rfl,
   (C32_jp_and_branch iop.bench_iop 0x300 0).2.1 rfl⟩

/-- The mask of `read_instr` keeps the low 29 bits. -/
theorem and_1fffffff (a : Nat) : a &&& 0x1FFFFFFF = a % 536870912 := by
  have h := Nat.and_pow_two_sub_one_eq_mod a 29
  norm_num at h
  exact h

/-- C33 as amended.  An instruction fetch passes `a & 0x1FFFFFFF` to the bus and an
aligned data read of an address other than `0xFFFE0130` passes `translate_addr(a)`.  For
a 32-bit address the two agree exactly when `a` lies below `0x20000000` or in KSEG0 or
KSEG1 (`0x80000000 .. 0xBFFFFFFF`). -/
theorem C33_fetch_and_read_addresses {E : Type} (b : iop.Collaborators E) (cpu : iop.IOP)
    (env : E) (a : Nat) (ha : a < 4294967296) (halign : a % 4 = 0) (hcc : a ≠ 0xFFFE0130) :
    (iop.read_instr b cpu env a).1 =
      (b.iop_read32 (iop.read_instr b cpu env a).2.1 env (a &&& 0x1FFFFFFF)).1 ∧
    iop.read32 b cpu env a =
      iop.Access.ok (b.iop_read32 cpu env (iop.IOP.translate_addr a)).1
        (b.iop_read32 cpu env (iop.IOP.translate_addr a)).2 ∧
    (a &&& 0x1FFFFFFF = iop.IOP.translate_addr a ↔
      (a < 0x20000000 ∨ (0x80000000 ≤ a ∧ a < 0xC0000000))) := by
  refine ⟨rfl, ?_, ?_⟩
  · have h3 : a &&& 0x3 = 0 := by
      rw [and_three_eq_mod]
      exact halign
    simp only [iop.read32]
    rw [if_neg (by simp [h3]), if_neg hcc]
  · rw [and_1fffffff]
    unfold iop.IOP.translate_addr
    split
    · omega
    · split <;> omega

/-- Witness for C33: the KSEG1 address `0xA0000100` is fetched and read at bus address
`0x100`. -/
theorem C33_fetch_and_read_witness :
    0xA0000100 &&& 0x1FFFFFFF = iop.IOP.translate_addr 0xA0000100 ∧
    iop.read32 iop.bench_collaborators iop.bench_iop () 0xA0000100 = iop.Access.ok 1 () := by
  have h := C33_fetch_and_read_addresses iop.bench_collaborators iop.bench_iop () 0xA0000100
    (by decide) (by decide) (by decide)
  exact ⟨h.2.2.2 (Or.inr (by decide)), by rw [h.2.1]; rfl⟩

/-- C33 fails outside those segments: the aligned KUSEG address `0x20000100` is fetched
at bus address `0x100` but read at bus address `0x20000100`, and on the test bench, whose
bus holds the word 1 at `0x100` only, the fetch returns 1 and the read 0. -/
theorem C33_fetch_and_read_differ :
    0x20000100 % 4 = 0 ∧ 0x20000100 ≠ 0xFFFE0130 ∧
    0x20000100 &&& 0x1FFFFFFF = 0x100 ∧
    iop.IOP.translate_addr 0x20000100 = 0x20000100 ∧
    (iop.read_instr iop.bench_collaborators iop.bench_iop () 0x20000100).1 = 1 ∧
    iop.read32 iop.bench_collaborators iop.bench_iop () 0x20000100 = iop.Access.ok 0 () := by
  refine ⟨by decide, by decide, by decide, by decide, by decide, rfl⟩

/-! ### The cycle budget of the IOP -/

/-- The fetch phase charges at least one cycle, keeps a non-negative latency non-negative
and records one instruction. -/
theorem fetch_phase_budget {E : Type} (b : iop.Collaborators E) (m : iop.Machine E)
    (hmd : 0 ≤ m.cpu.muldiv_delay) :
    (iop.fetch_phase b m).2.cpu.cycles_to_run ≤ m.cpu.cycles_to_run - 1 ∧
    0 ≤ (iop.fetch_phase b m).2.cpu.muldiv_delay ∧
    (iop.fetch_phase b m).2.executed.length = m.executed.length + 1 := by
  simp only [iop.fetch_phase, iop.read_instr]
  split <;> split <;> simp <;> omega

/-- The end of an iteration leaves the cycle budget and the latency alone. -/
theorem advance_budget (cpu cpu1 : iop.IOP) (h : iop.advance cpu = some cpu1) :
    cpu1.cycles_to_run = cpu.cycles_to_run ∧ cpu1.muldiv_delay = cpu.muldiv_delay := by
  simp only [iop.advance] at h
  split at h
  · split at h
    · split at h
      · cases h
      · cases h
        exact ⟨rfl, rfl⟩
    · cases h
      exact ⟨rfl, rfl⟩
  · cases h
    exact ⟨rfl, rfl⟩

/-- One iteration of the run loop costs at least one cycle and executes one instruction. -/
theorem step_budget {E : Type} (b : iop.Collaborators E) (hb : iop.handlers_keep_budget b)
    (m m1 : iop.Machine E) (hmd : 0 ≤ m.cpu.muldiv_delay) (h : iop.step b m = some m1) :
    m1.cpu.cycles_to_run ≤ m.cpu.cycles_to_run - 1 ∧ 0 ≤ m1.cpu.muldiv_delay ∧
    m1.executed.length = m.executed.length + 1 := by
  have hf := fetch_phase_budget b m hmd
  unfold iop.step at h
  cases hx : iop.exec_result b m with
  | none =>
    rw [hx] at h
    cases h
  | some r =>
    obtain ⟨c1, e1⟩ := r
    rw [hx] at h
    have hi := hb _ _ _ c1 e1 hf.2.1 hx
    cases ha : iop.advance c1 with
    | none =>
      simp only [ha] at h
      cases h
    | some c2 =>
      simp only [ha] at h
      have hadv := advance_budget c1 c2 ha
      cases h
      refine ⟨?_, ?_, hf.2.2⟩
      · show c2.cycles_to_run ≤ _
        omega
      · show 0 ≤ c2.muldiv_delay
        omega

/-- With as much fuel as cycles in the budget the loop of `run` ends, after at most that
many instructions and with the budget used up. -/
theorem run_loop_budget {E : Type} (b : iop.Collaborators E) (hb : iop.handlers_keep_budget b)
    (fuel : Nat) (m : iop.Machine E) (hmd : 0 ≤ m.cpu.muldiv_delay)
    (hfuel : m.cpu.cycles_to_run ≤ fuel) :
    iop.run_loop b fuel m ≠ iop.RunResult.out_of_fuel ∧
    ∀ m1 : iop.Machine E, iop.run_loop b fuel m = iop.RunResult.ok m1 →
      m1.cpu.cycles_to_run ≤ 0 ∧ 0 ≤ m1.cpu.muldiv_delay ∧
      m1.executed.length ≤ m.executed.length + (max m.cpu.cycles_to_run 0).toNat := by
  induction fuel generalizing m with
  | zero =>
    have hc : ¬ m.cpu.cycles_to_run > 0 := by omega
    simp only [iop.run_loop, if_neg hc]
    refine ⟨by simp, ?_⟩
    intro m1 h
    cases h
    exact ⟨by omega, hmd, by omega⟩
  | succ fuel ih =>
    by_cases hc : m.cpu.cycles_to_run > 0
    · simp only [iop.run_loop, if_pos hc]
      cases hs : iop.step b m with
      | none => simp
      | some m2 =>
        have hsb := step_budget b hb m m2 hmd hs
        have := ih m2 hsb.2.1 (by omega)
        refine ⟨this.1, ?_⟩
        intro m1 h
        have h3 := this.2 m1 h
        refine ⟨h3.1, h3.2.1, ?_⟩
        omega
    · simp only [iop.run_loop, if_neg hc]
      refine ⟨by simp, ?_⟩
      intro m1 h
      cases h
      exact ⟨by omega, hmd, by omega⟩

/-- The interrupt test leaves the cycle budget and the latency alone. -/
theorem interrupt_poll_budget (cpu : iop.IOP) :
    (iop.interrupt_poll cpu).cycles_to_run = cpu.cycles_to_run ∧
    (iop.interrupt_poll cpu).muldiv_delay = cpu.muldiv_delay := by
  unfold iop.interrupt_poll
  split <;> exact ⟨rfl, rfl⟩

/-- C34. The cycle budget bounds a run.  Let the handlers keep the budget (a handler
that returns has not raised `cycles_to_run` and leaves the latency non-negative) and let
`muldiv_delay ≥ 0`.  Then `read_instr`, `get_LO`, `get_HI` and `set_muldiv_delay` with a
non-negative delay leave `muldiv_delay ≥ 0` and do not raise `cycles_to_run`; and with
`max(cycles_to_run + cycles, 0)` iterations allowed `run(cycles)` ends (it returns or dies
in `Errors::die`), and when it returns `muldiv_delay ≥ 0`, at most
`max(cycles_to_run + cycles, 0)` instructions were executed, and `cycles_to_run ≤ 0`
unless the processor was halted. -/
theorem C34_run_budget {E : Type} (b : iop.Collaborators E)
    (hb : iop.handlers_keep_budget b) (fuel : Nat) (m : iop.Machine E) (cycles : Int)
    (hmd : 0 ≤ m.cpu.muldiv_delay)
    (hfuel : (max (m.cpu.cycles_to_run + cycles) 0).toNat ≤ fuel) :
    (∀ (env : E) (a : Nat),
      0 ≤ (iop.read_instr b m.cpu env a).2.1.muldiv_delay ∧
      (iop.read_instr b m.cpu env a).2.1.cycles_to_run ≤ m.cpu.cycles_to_run) ∧
    (0 ≤ m.cpu.get_LO.2.muldiv_delay ∧ m.cpu.get_LO.2.cycles_to_run ≤ m.cpu.cycles_to_run) ∧
    (0 ≤ m.cpu.get_HI.2.muldiv_delay ∧ m.cpu.get_HI.2.cycles_to_run ≤ m.cpu.cycles_to_run) ∧
    (∀ delay : Int, 0 ≤ delay →
      0 ≤ (m.cpu.set_muldiv_delay delay).muldiv_delay ∧
      (m.cpu.set_muldiv_delay delay).cycles_to_run ≤ m.cpu.cycles_to_run) ∧
    iop.run b fuel m cycles ≠ iop.RunResult.out_of_fuel ∧
    (∀ m1 : iop.Machine E, iop.run b fuel m cycles = iop.RunResult.ok m1 →
      0 ≤ m1.cpu.muldiv_delay ∧
      m1.executed.length ≤
        m.executed.length + (max (m.cpu.cycles_to_run + cycles) 0).toNat ∧
      (m.cpu.wait_for_IRQ = false → m1.cpu.cycles_to_run ≤ 0)) := by
  refine ⟨?_, ?_, ?_, ?_, ?_⟩
  · intro env a
    simp only [iop.read_instr]
    split
    · simp
    · simp
      omega
  · simp only [iop.IOP.get_LO]
    split <;> simp <;> omega
  · simp only [iop.IOP.get_HI]
    split <;> simp <;> omega
  · intro delay hd
    simp only [iop.IOP.set_muldiv_delay]
    split <;> simp <;> omega
  · by_cases hw : m.cpu.wait_for_IRQ = true
    · have hrun : iop.run b fuel m cycles = iop.RunResult.ok
          { m with cpu := iop.interrupt_poll (if m.cpu.muldiv_delay ≠ 0 then
            { m.cpu with muldiv_delay := m.cpu.muldiv_delay - 1 } else m.cpu) } := by
        unfold iop.run
        rw [if_neg (by simp [hw])]
      rw [hrun]
      refine ⟨by simp, ?_⟩
      intro m1 h
      cases h
      refine ⟨?_, by simp, fun h => by simp [hw] at h⟩
      show 0 ≤ (iop.interrupt_poll _).muldiv_delay
      rw [(interrupt_poll_budget _).2]
      split
      · show 0 ≤ m.cpu.muldiv_delay - 1
        omega
      · exact hmd
    · have hl := run_loop_budget b hb fuel
        { m with cpu := { m.cpu with cycles_to_run := m.cpu.cycles_to_run + cycles } } hmd
        (by show m.cpu.cycles_to_run + cycles ≤ _; omega)
      unfold iop.run
      rw [if_pos (by simpa using hw)]
      cases hloop : iop.run_loop b fuel
          { m with cpu := { m.cpu with cycles_to_run := m.cpu.cycles_to_run + cycles } } with
      | ok pre =>
        have h3 := hl.2 pre hloop
        refine ⟨by simp, ?_⟩
        intro m1 h
        cases h
        have hp := interrupt_poll_budget pre.cpu
        refine ⟨?_, h3.2.2, fun _ => ?_⟩
        · show 0 ≤ (iop.interrupt_poll pre.cpu).muldiv_delay
          rw [hp.2]
          exact h3.2.1
        · show (iop.interrupt_poll pre.cpu).cycles_to_run ≤ 0
          rw [hp.1]
          exact h3.1
      | die => simp
      | out_of_fuel => exact absurd hloop hl.1

/-- The test interpreter keeps the budget: it changes neither the budget nor the
latency. -/
theorem bench_collaborators_keep_budget : iop.handlers_keep_budget iop.bench_collaborators := by
  intro cpu env instr cpu1 env1 hmd h
  simp only [iop.bench_collaborators, Option.some.injEq, Prod.mk.injEq] at h
  obtain ⟨h1, _⟩ := h
  subst h1
  split
  · simp only [iop.IOP.jp]
    split <;> exact ⟨le_refl _, hmd⟩
  · exact ⟨le_refl _, hmd⟩

/-- Witness for C34: the test bench with a budget of 10 run for `-8` further cycles ends
within two iterations with at most two instructions executed. -/
theorem C34_run_budget_witness :
    iop.run iop.bench_collaborators 2 iop.bench_machine (-8) ≠ iop.RunResult.out_of_fuel ∧
    (∀ m1 : iop.Machine Unit,
      iop.run iop.bench_collaborators 2 iop.bench_machine (-8) = iop.RunResult.ok m1 →
      m1.executed.length ≤ 2 ∧ m1.cpu.cycles_to_run ≤ 0) := by
  have h := C34_run_budget iop.bench_collaborators bench_collaborators_keep_budget 2
    iop.bench_machine (-8) (by decide) (by decide)
  refine ⟨h.2.2.2.2.1, ?_⟩
  intro m1 hm
  have h2 := h.2.2.2.2.2 m1 hm
  exact ⟨h2.2.1, h2.2.2 rfl⟩

/-! ### Kernel console output -/

/-- Every character read by the loop of `ee_kputs` is at an index below 32 MiB. -/
theorem kputs_loop_reads (rdram : Nat → Nat) (fuel param : Nat) (reads out reads1 out1 : List Nat)
    (hreads : ∀ i ∈ reads, i < core.rdram_size)
    (h : core.kputs_loop rdram fuel param reads out = some (reads1, out1)) :
    ∀ i ∈ reads1, i < core.rdram_size := by
  induction fuel generalizing param reads out with
  | zero => simp [core.kputs_loop] at h
  | succ fuel ih =>
    have hidx : param &&& 0x1FFFFFF < core.rdram_size := by
      have hm := Nat.and_pow_two_sub_one_eq_mod param 25
      norm_num at hm
      rw [hm]
      unfold core.rdram_size
      omega
    have hnext : ∀ i ∈ reads ++ [param &&& 0x1FFFFFF], i < core.rdram_size := by
      intro i hi
      rcases List.mem_append.1 hi with hi | hi
      · exact hreads i hi
      · rw [List.mem_singleton.1 hi]
        exact hidx
    simp only [core.kputs_loop] at h
    split at h
    · exact ih _ _ _ hnext h
    · cases h
      exact hnext

/-- What `ee_kputs` reads.  A `param` above 32 MiB returns at once with no read; any other
`param` has the four bytes `param .. param + 3` read for the pointer, and when the call
returns every character was read at an index below 32 MiB. -/
theorem kputs_reads {P : Type} (rdram : Nat → Nat) (fuel param : Nat) (e e1 : core.Emulator P)
    (t : core.KputsTrace) (h : e.ee_kputs rdram fuel param = some (t, e1)) :
    (param > core.rdram_size → t.pointer_reads = [] ∧ t.char_reads = [] ∧ e1 = e) ∧
    (param ≤ core.rdram_size →
      t.pointer_reads = [param, param + 1, param + 2, param + 3]) ∧
    (∀ i ∈ t.char_reads, i < core.rdram_size) := by
  unfold core.Emulator.ee_kputs at h
  by_cases hp : param > 1024 * 1024 * 32
  · rw [if_pos hp] at h
    cases h
    refine ⟨fun _ => ⟨rfl, rfl, rfl⟩, fun h2 => ?_, by simp⟩
    unfold core.rdram_size at h2
    omega
  · rw [if_neg hp] at h
    cases hl : core.kputs_loop rdram fuel (loadLE rdram param 4) [] [] with
    | none =>
      simp only [hl] at h
      cases h
    | some r =>
      obtain ⟨reads, out⟩ := r
      simp only [hl] at h
      cases h
      refine ⟨fun h2 => ?_, fun _ => rfl, ?_⟩
      · unfold core.rdram_size at h2
        omega
      · exact kputs_loop_reads rdram fuel _ [] [] reads out (by simp) hl

/-- C35 fails at the end of RDRAM.  For `param = 0x2000000` (32 MiB) the guard
`param > 32 MiB` does not return: on the zeroed test memory the call reads the pointer at
byte indices `0x2000000 .. 0x2000003`, none of which is below 32 MiB, and then one
character at index 0.  The same happens for `param = 0x1FFFFFD`, whose last three pointer
bytes lie outside. -/
theorem C35_kputs_pointer_read_past_rdram :
    core.rdram_size = 0x2000000 ∧
    core.bench_emulator.ee_kputs core.bench_rdram 1 0x2000000 =
      some ({ pointer_reads := [0x2000000, 0x2000001, 0x2000002, 0x2000003],
              char_reads := [0] },
            { core.bench_emulator with
              log := [core.LogLine.kputs_param 0], ee_log := [0] }) ∧
    (∀ i ∈ [0x2000000, 0x2000001, 0x2000002, 0x2000003], ¬ i < core.rdram_size) ∧
    (∃ t e1, core.bench_emulator.ee_kputs core.bench_rdram 1 0x1FFFFFD = some (t, e1) ∧
      t.pointer_reads = [0x1FFFFFD, 0x1FFFFFE, 0x1FFFFFF, 0x2000000]) := by
  refine ⟨by decide, rfl, by decide, ⟨_, _, rfl, rfl⟩⟩

/-! ### The swap test and the broadcast decoders of the VU interpreter -/

/-- C36 fails: `check_swapops` compares the destination of the upper instruction with
bits 11-15 of the upper word, not of the lower word.  For every pair of words it returns
true exactly when the I bit of the upper word is clear and the upper destination equals
bits 11-15 of the upper word or bits 16-20 of the lower word.  With the upper word
`0x1068` (`fd = 1`, `fs = 2`) and the lower word `0x30800` (`fs = 1`, `ft = 3`) it
returns false although the upper destination is the lower `fs`; with the upper word
`0x868` (`fd = 1`, `fs = 1`) and the lower word `0x31000` (`fs = 2`, `ft = 3`) it returns
true although the upper destination is neither field of the lower word. -/
theorem C36_check_swapops_reads_upper_fs :
    (∀ upper_instr lower_instr : Nat,
      (VU_Interpreter.check_swapops upper_instr lower_instr = true ↔
        (upper_instr &&& (1 <<< 31) = 0 ∧
          ((if (upper_instr >>> 2) &&& 0xf = 0xf then (upper_instr >>> 16) &&& 0x1F
              else (upper_instr >>> 6) &&& 0x1F) = (upper_instr >>> 11) &&& 0x1F ∨
           (if (upper_instr >>> 2) &&& 0xf = 0xf then (upper_instr >>> 16) &&& 0x1F
              else (upper_instr >>> 6) &&& 0x1F) = (lower_instr >>> 16) &&& 0x1F)))) ∧
    VU_Interpreter.check_swapops 0x1068 0x30800 = false ∧
    VU_Interpreter.swapops_by_lower_fields 0x1068 0x30800 = true ∧
    VU_Interpreter.check_swapops 0x868 0x31000 = true ∧
    VU_Interpreter.swapops_by_lower_fields 0x868 0x31000 = false := by
  refine ⟨?_, by decide, by decide, by decide, by decide⟩
  intro u l
  simp only [VU_Interpreter.check_swapops, ne_eq, not_not]
  constructor
  · intro h
    by_contra hn
    rw [if_neg (fun hc => hn ⟨hc.2, hc.1⟩)] at h
    cases h
  · intro h
    rw [if_pos ⟨h.2, h.1⟩]

/-- C37 fails for MULbc.  Starting from the cleared decoder, `addbc`, `subbc`, `maddbc`,
`msubbc`, `maxbc` and `minibc` record `vf_write[0] = fd` and `vf_read0[0] = fs` with the
dest field mask and `vf_read1[0] = ft` with the mask `1 << (3 - bc)`, for every
instruction word.  `mulbc` stores `ft` into `vf_read0[0]`, over `fs`, and leaves
`vf_read1[0]` at 0: for the word `0x01E3109A` (`fd = 2`, `fs = 2`, `ft = 3`, `bc = 2`)
the decoder has `vf_read0[0] = 3` and `vf_read1[0] = 0`. -/
theorem C37_mulbc_records_ft_as_read0 :
    (∀ instr : Nat,
      VU_Interpreter.broadcast_records
        (VU_Interpreter.addbc VU_Interpreter.cleared_decoder instr) instr ∧
      VU_Interpreter.broadcast_records
        (VU_Interpreter.subbc VU_Interpreter.cleared_decoder instr) instr ∧
      VU_Interpreter.broadcast_records
        (VU_Interpreter.maddbc VU_Interpreter.cleared_decoder instr) instr ∧
      VU_Interpreter.broadcast_records
        (VU_Interpreter.msubbc VU_Interpreter.cleared_decoder instr) instr ∧
      VU_Interpreter.broadcast_records
        (VU_Interpreter.maxbc VU_Interpreter.cleared_decoder instr) instr ∧
      VU_Interpreter.broadcast_records
        (VU_Interpreter.minibc VU_Interpreter.cleared_decoder instr) instr) ∧
    (∀ instr : Nat,
      (VU_Interpreter.mulbc VU_Interpreter.cleared_decoder instr).vf_read0.1 =
        (instr >>> 16) &&& 0x1F ∧
      (VU_Interpreter.mulbc VU_Interpreter.cleared_decoder instr).vf_read1.1 = 0) ∧
    VU_Interpreter.upper_broadcast VU_Interpreter.cleared_decoder 0x01E3109A =
      some (VU_Interpreter.mulbc VU_Interpreter.cleared_decoder 0x01E3109A) ∧
    (0x01E3109A >>> 11) &&& 0x1F = 2 ∧ (0x01E3109A >>> 16) &&& 0x1F = 3 ∧
    (VU_Interpreter.mulbc VU_Interpreter.cleared_decoder 0x01E3109A).vf_read0.1 = 3 ∧
    (VU_Interpreter.mulbc VU_Interpreter.cleared_decoder 0x01E3109A).vf_read1.1 = 0 ∧
    ¬ VU_Interpreter.broadcast_records
        (VU_Interpreter.mulbc VU_Interpreter.cleared_decoder 0x01E3109A) 0x01E3109A := by
  refine ⟨fun instr => ⟨?_, ?_, ?_, ?_, ?_, ?_⟩, fun instr => ⟨rfl, rfl⟩, by decide,
    by decide, by decide, by decide, by decide, by decide⟩ <;>
  exact ⟨rfl, rfl, rfl, rfl, rfl, rfl⟩

/-! ### Save state of the subsystem interface -/

/-- The drain loop moves the words of the queue into consecutive words of the buffer and
leaves the words before them alone. -/
theorem drain_fifo_spec (ws : List Nat) (hfit : ∀ w ∈ ws, w < 4294967296) (i : Nat)
    (buffer : Nat → Nat) (rest : List Nat) (hi : i + ws.length ≤ 32) :
    ∃ buf : Nat → Nat, core.drain_fifo ws.length i buffer (ws ++ rest) = some (buf, rest) ∧
      (∀ k, k < ws.length → loadLE buf (4 * (i + k)) 4 = ws.getD k 0) ∧
      (∀ j, j < i → loadLE buf (4 * j) 4 = loadLE buffer (4 * j) 4) := by
  induction ws generalizing i buffer with
  | nil => exact ⟨buffer, rfl, fun k hk => absurd hk (by simp), fun _ _ => rfl⟩
  | cons w ws ih =>
    have hlen : (w :: ws).length = ws.length + 1 := rfl
    obtain ⟨buf, hd, hk, hj⟩ := ih (fun x hx => hfit x (List.mem_cons_of_mem w hx)) (i + 1)
      (storeLE buffer (4 * i) 4 w) (by rw [hlen] at hi; omega)
    have hi32 : i < 32 := by rw [hlen] at hi; omega
    refine ⟨buf, ?_, ?_, ?_⟩
    · simp only [List.length_cons, List.cons_append, core.drain_fifo, if_pos hi32]
      exact hd
    · intro k hk2
      cases k with
      | zero =>
        rw [Nat.add_zero, hj i (by omega), loadLE_storeLE_same]
        have hw := hfit w (List.mem_cons_self w ws)
        simp only [List.getD_cons_zero]
        exact Nat.mod_eq_of_lt (by norm_num; exact hw)
      | succ k =>
        have := hk k (by rw [hlen] at hk2; omega)
        have e : i + (k + 1) = i + 1 + k := by omega
        rw [e, this]
        simp
    · intro j hj2
      rw [hj j (by omega)]
      exact loadLE_storeLE_disjoint buffer (4 * i) 4 w (4 * j) 4 (by omega)

/-- The refill loop appends the words of the buffer to the queue. -/
theorem refill_fifo_spec (ws : List Nat) (i : Nat) (buffer : Nat → Nat) (fifo : List Nat)
    (hw : ∀ k, k < ws.length → loadLE buffer (4 * (i + k)) 4 = ws.getD k 0) :
    core.refill_fifo ws.length i buffer fifo = fifo ++ ws := by
  induction ws generalizing i fifo with
  | nil => simp [core.refill_fifo]
  | cons w ws ih =>
    have h0 := hw 0 (by simp)
    simp only [Nat.add_zero, List.getD_cons_zero] at h0
    simp only [List.length_cons, core.refill_fifo, h0]
    rw [ih (i + 1) (fifo ++ [w])]
    · simp
    · intro k hk
      have := hw (k + 1) (by simp; omega)
      have e : i + (k + 1) = i + 1 + k := by omega
      rw [e] at this
      rw [this]
      simp

/-- A queue size of at most 32 survives the conversion to `int`, the four bytes of the
stream and the conversion back, and the byte count of that many words is four times it. -/
theorem fifo_size_roundtrip (n : Nat) (h : n ≤ 32) :
    signed32 n = (n : Int) ∧
    signed32 (wrap32 (n : Int) % 256 ^ 4) = (n : Int) ∧
    core.fifo_bytes (n : Int) = 4 * n := by
  have h1 : signed32 n = (n : Int) := by
    unfold signed32
    split <;> omega
  have h2 : wrap32 (n : Int) = n := by
    unfold wrap32
    omega
  have h3 : n % 256 ^ 4 = n := Nat.mod_eq_of_lt (by norm_num; omega)
  have h4 : wrap64 (n : Int) = n := by
    unfold wrap64
    omega
  refine ⟨h1, ?_, ?_⟩
  · rw [h2, h3, h1]
  · unfold core.fifo_bytes
    rw [h4]
    omega

/-- C38. The subsystem interface survives a save state.  For an interface whose two
queues hold at most 32 words each (registers and words being 32-bit values),
`save_state` returns and leaves the interface, both queues included, exactly as it was;
and `load_state` applied to the bytes written (followed by anything), on an interface
with both queues empty, returns that interface: `mscom`, `smcom`, `msflag`, `smflag`,
`control` and both queues in the same order, and consumes exactly the bytes written. -/
theorem C38_sif_roundtrip (sif sif0 : core.SubsystemInterface) (buffer buffer2 : Nat → Nat)
    (size_local rest : List Nat)
    (h0 : sif.SIF0_FIFO.length ≤ core.MAX_FIFO_SIZE)
    (h1 : sif.SIF1_FIFO.length ≤ core.MAX_FIFO_SIZE)
    (hfit : sif.words_fit) (he0 : sif0.SIF0_FIFO = []) (he1 : sif0.SIF1_FIFO = []) :
    ∃ bytes : List Nat, sif.save_state buffer = some (bytes, sif) ∧
      sif0.load_state size_local buffer2 (bytes ++ rest) = some (sif, rest) := by
  obtain ⟨f1, f2, f3, f4, f5, fw0, fw1⟩ := hfit
  unfold core.MAX_FIFO_SIZE at h0 h1
  have hs0 := fifo_size_roundtrip sif.SIF0_FIFO.length h0
  have hs1 := fifo_size_roundtrip sif.SIF1_FIFO.length h1
  obtain ⟨buf0, hd0, hk0, _⟩ := drain_fifo_spec sif.SIF0_FIFO fw0 0 buffer [] (by omega)
  obtain ⟨buf1, hd1, hk1, _⟩ := drain_fifo_spec sif.SIF1_FIFO fw1 0 buf0 [] (by omega)
  rw [List.append_nil] at hd0 hd1
  have hr0 := refill_fifo_spec sif.SIF0_FIFO 0 buf0 [] hk0
  have hr1 := refill_fifo_spec sif.SIF1_FIFO 0 buf1 [] hk1
  rw [List.nil_append] at hr0 hr1
  have hl0 := refill_fifo_spec sif.SIF0_FIFO 0
    (core.fill buffer2 (core.dump buf0 (4 * sif.SIF0_FIFO.length))) [] (by
      intro k hk
      rw [loadLE_fill_dump _ _ _ _ _ (by omega)]
      exact hk0 k hk)
  have hl1 := refill_fifo_spec sif.SIF1_FIFO 0
    (core.fill (core.fill buffer2 (core.dump buf0 (4 * sif.SIF0_FIFO.length)))
      (core.dump buf1 (4 * sif.SIF1_FIFO.length))) [] (by
      intro k hk
      rw [loadLE_fill_dump _ _ _ _ _ (by omega)]
      exact hk1 k hk)
  rw [List.nil_append] at hl0 hl1
  have hm : ∀ v : Nat, v < 4294967296 → v % 256 ^ 4 = v :=
    fun v hv => Nat.mod_eq_of_lt (by norm_num; exact hv)
  have hsave : sif.save_state buffer = some
      (core.le_bytes 4 sif.mscom ++ (core.le_bytes 4 sif.smcom ++ (core.le_bytes 4 sif.msflag ++
        (core.le_bytes 4 sif.smflag ++ core.le_bytes 4 sif.control))) ++
        ((core.le_bytes 4 (wrap32 (sif.SIF0_FIFO.length : Int)) ++
            core.dump buf0 (4 * sif.SIF0_FIFO.length)) ++
          (core.le_bytes 4 (wrap32 (sif.SIF1_FIFO.length : Int)) ++
            core.dump buf1 (4 * sif.SIF1_FIFO.length))), sif) := by
    simp only [core.SubsystemInterface.save_state, hs0.1, hs0.2.2, Int.toNat_ofNat, hd0, hr0,
      hs1.1, hs1.2.2, hd1, hr1]
  refine ⟨_, hsave, ?_⟩
  have hc0 : ¬ 4 * sif.SIF0_FIFO.length > 4 * 32 := by omega
  have hc1 : ¬ 4 * sif.SIF1_FIFO.length > 4 * 32 := by omega
  simp only [core.SubsystemInterface.load_state, List.append_assoc, stream_read_le_bytes,
    le_value_le_bytes, hs0.2.1, hs0.2.2, hs1.2.1, hs1.2.2, if_neg hc0, if_neg hc1,
    stream_read_dump, Int.toNat_ofNat, he0, he1, hl0, hl1, hm _ f1, hm _ f2, hm _ f3,
    hm _ f4, hm _ f5]

/-- Witness for C38: the test interface with three and two queued words is saved
unchanged and read back into a reset interface. -/
theorem C38_sif_roundtrip_witness :
    ∃ bytes : List Nat,
      core.bench_sif.save_state core.bench_rdram = some (bytes, core.bench_sif) ∧
      core.bench_sif_reset.load_state [0, 0, 0, 0] core.bench_rdram (bytes ++ [0xEE]) =
        some (core.bench_sif, [0xEE]) :=
  C38_sif_roundtrip core.bench_sif core.bench_sif_reset core.bench_rdram core.bench_rdram
    [0, 0, 0, 0] [0xEE] (by decide) (by decide)
    ⟨by decide, by decide, by decide, by decide, by decide, by decide, by decide⟩ rfl rfl

/-! ### Requests to load and save a state -/

/-- C39 fails: the result of `EmuThread::load_state` and `EmuThread::save_state` is the
flag `fail`.  For every thread and file, `request_load_state` and `request_save_state`
return whether the file could be opened (and then schedule the load or save), and the
thread functions return the negation: false when the request was accepted, true when it
was rejected.  `EmuWindow` prints its failure line when the result is false: on the test
thread (pause event 3), for a state file that exists and can be opened the load is scheduled and
"Failed to load" is printed, the save is scheduled and "Failed to save" is printed, and
for a file that cannot be opened neither request is scheduled and nothing is printed. -/
theorem C39_thread_result_is_failure_flag :
    (∀ (opened : Bool) (name : String) (t : EmuThread Unit),
      (t.e.request_load_state opened name).1 = opened ∧
      (t.e.request_load_state opened name).2.load_requested = (opened || t.e.load_requested) ∧
      (t.load_state opened name).1 = !opened ∧
      (t.load_state opened name).2.e = (t.e.request_load_state opened name).2 ∧
      (t.e.request_save_state opened name).1 = opened ∧
      (t.e.request_save_state opened name).2.save_requested = (opened || t.e.save_requested) ∧
      (t.save_state opened name).1 = !opened ∧
      (t.save_state opened name).2.e = (t.e.request_save_state opened name).2) ∧
    (bench_thread.load_state true bench_state_file).1 = false ∧
    (bench_thread.load_state true bench_state_file).2.e.load_requested = true ∧
    (EmuWindow.load_state 3 bench_state_file true true bench_thread).1 =
      [WindowLine.failed_to_load bench_state_file] ∧
    (EmuWindow.load_state 3 bench_state_file true true bench_thread).2.e.load_requested = true ∧
    (EmuWindow.load_state 3 bench_state_file true false bench_thread).1 = [] ∧
    (EmuWindow.load_state 3 bench_state_file true false bench_thread).2.e.load_requested = false ∧
    (EmuWindow.save_state 3 bench_state_file true bench_thread).1 =
      [WindowLine.failed_to_save bench_state_file] ∧
    (EmuWindow.save_state 3 bench_state_file true bench_thread).2.e.save_requested = true ∧
    (EmuWindow.save_state 3 bench_state_file false bench_thread).1 = [] ∧
    (EmuWindow.save_state 3 bench_state_file false bench_thread).2.e.save_requested = false := by
  refine ⟨?_, rfl, rfl, rfl, rfl, rfl, rfl, rfl, rfl, rfl, rfl⟩
  intro opened name t
  cases opened <;> exact ⟨rfl, rfl, rfl, rfl, rfl, rfl, rfl, rfl⟩

/-! ### Delay slot of the IOP run loop -/

/-- A loop entered with the budget used up ends at once. -/
theorem run_loop_done {E : Type} (b : iop.Collaborators E) (fuel : Nat) (m : iop.Machine E)
    (h : m.cpu.cycles_to_run ≤ 0) : iop.run_loop b fuel m = iop.RunResult.ok m := by
  have hc : ¬ m.cpu.cycles_to_run > 0 := by omega
  cases fuel <;> simp only [iop.run_loop, if_neg hc]

/-- C2 (as amended).  Delay slot of the IOP run loop.  In a call `run(cycles)` on a
processor that is not halted, let the loop reach after `k` iterations a state `m` in
which the instruction at `A = PC` is executed with no branch pending and its handler
calls `jp(T)` (its result is `c1.jp T` for a state `c1` whose `PC` is still `A` and that
has no branch pending), with `T` a multiple of 4.  Let `m1` be the state after that
iteration, let the budget still be positive there, and let the handler of the next
instruction return normally leaving `PC`, `new_PC`, `will_branch` and `branch_delay`
alone.  Then the first iteration ends at `PC = A + 4` with the branch pending, the next
iteration fetches and executes the word at `A + 4`, and it ends in a state `m2` with
`PC = T` and `will_branch` cleared: the instructions executed are exactly the one at `A`
and then, once, the one at `A + 4`.  What is fetched next depends on the budget.  If it
is still positive the loop goes on with an iteration that fetches from `T`.  If it is
used up `run` returns after its interrupt test: with no enabled interrupt pending the
processor is left as in `m2`, and a next call that enters its loop from there fetches
first from `T`; with one pending the interrupt is taken with `EPC = T` and the
delay-slot flag clear, and a next call that enters its loop from there fetches first
from `0x80000080`. -/
theorem C2_delay_slot_executes_once {E : Type} (b : iop.Collaborators E)
    (m0 m m1 : iop.Machine E) (cycles : Int) (k : Nat) (T : Nat) (c1 c2 : iop.IOP)
    (e1 e2 : E) (fuel : Nat)
    (hrunning : m0.cpu.wait_for_IRQ = false)
    (hreach : ∀ f : Nat, iop.run_loop b (k + f)
      { m0 with cpu := { m0.cpu with cycles_to_run := m0.cpu.cycles_to_run + cycles } } =
      iop.run_loop b f m)
    (hbudget : 0 < m.cpu.cycles_to_run)
    (hjump : iop.exec_result b m = some (c1.jp T, e1))
    (hc1pc : c1.PC = m.cpu.PC)
    (hc1wb : c1.will_branch = false)
    (hT : T % 4 = 0)
    (hstep1 : iop.step b m = some m1)
    (hbudget1 : 0 < m1.cpu.cycles_to_run)
    (hslot : iop.exec_result b m1 = some (c2, e2))
    (hc2pc : c2.PC = m1.cpu.PC)
    (hc2new : c2.new_PC = m1.cpu.new_PC)
    (hc2wb : c2.will_branch = m1.cpu.will_branch)
    (hc2bd : c2.branch_delay = m1.cpu.branch_delay) :
    m1.cpu.PC = (m.cpu.PC + 4) % 4294967296 ∧
    m1.cpu.will_branch = true ∧
    m1.cpu.new_PC = T ∧
    m1.executed = m.executed ++ [(m.cpu.PC, (iop.fetch_phase b m).1)] ∧
    ∃ m2 : iop.Machine E,
      iop.step b m1 = some m2 ∧
      m2.cpu.PC = T ∧
      m2.cpu.will_branch = false ∧
      m2.executed = m.executed ++
        [(m.cpu.PC, (iop.fetch_phase b m).1),
         ((m.cpu.PC + 4) % 4294967296, (iop.fetch_phase b m1).1)] ∧
      iop.run_loop b (fuel + 2) m = iop.run_loop b fuel m2 ∧
      (0 < m2.cpu.cycles_to_run →
        iop.run_loop b (fuel + 3) m =
          (match iop.step b m2 with
           | none => iop.RunResult.die
           | some m3 => iop.run_loop b fuel m3) ∧
        (∀ m3 : iop.Machine E, iop.step b m2 = some m3 →
          m3.executed = m2.executed ++ [(T, (iop.fetch_phase b m2).1)])) ∧
      (m2.cpu.cycles_to_run ≤ 0 →
        iop.run b (k + (fuel + 2)) m0 cycles =
          iop.RunResult.ok { m2 with cpu := iop.interrupt_poll m2.cpu } ∧
        (¬ (m2.cpu.cop0.status.IEc = true ∧
            (m2.cpu.cop0.status.Im &&& m2.cpu.cop0.cause.int_pending) ≠ 0) →
          iop.interrupt_poll m2.cpu = m2.cpu ∧
          ∀ cycles2 : Int,
            (iop.fetch_phase b
              { m2 with cpu := { iop.interrupt_poll m2.cpu with
                cycles_to_run := (iop.interrupt_poll m2.cpu).cycles_to_run + cycles2 } }).2.executed =
              m2.executed ++ [(T, (iop.fetch_phase b
                { m2 with cpu := { iop.interrupt_poll m2.cpu with
                  cycles_to_run := (iop.interrupt_poll m2.cpu).cycles_to_run + cycles2 } }).1)]) ∧
        ((m2.cpu.cop0.status.IEc = true ∧
            (m2.cpu.cop0.status.Im &&& m2.cpu.cop0.cause.int_pending) ≠ 0) →
          iop.interrupt_poll m2.cpu = m2.cpu.interrupt ∧
          (iop.interrupt_poll m2.cpu).PC = 0x80000080 ∧
          (iop.interrupt_poll m2.cpu).cop0.EPC = T ∧
          (iop.interrupt_poll m2.cpu).cop0.cause.bd = false ∧
          (iop.interrupt_poll m2.cpu).will_branch = false ∧
          (iop.interrupt_poll m2.cpu).wait_for_IRQ = false ∧
          ∀ cycles2 : Int,
            (iop.fetch_phase b
              { m2 with cpu := { iop.interrupt_poll m2.cpu with
                cycles_to_run := (iop.interrupt_poll m2.cpu).cycles_to_run + cycles2 } }).2.executed =
              m2.executed ++ [(0x80000080, (iop.fetch_phase b
                { m2 with cpu := { iop.interrupt_poll m2.cpu with
                  cycles_to_run := (iop.interrupt_poll m2.cpu).cycles_to_run + cycles2 } }).1)])) := by
  have hjp : c1.jp T = { c1 with new_PC := T, will_branch := true, branch_delay := 1 } := by
    simp [iop.IOP.jp, hc1wb]
  have hf := fetch_phase_control b m
  have hf1 := fetch_phase_control b m1
  -- first iteration
  have hm1 : m1.cpu.PC = (m.cpu.PC + 4) % 4294967296 ∧ m1.cpu.will_branch = true ∧
      m1.cpu.new_PC = T ∧ m1.cpu.branch_delay = 0 ∧
      m1.executed = m.executed ++ [(m.cpu.PC, (iop.fetch_phase b m).1)] := by
    have h := hstep1
    simp only [iop.step, hjump, hjp, iop.advance] at h
    simp at h
    subst h
    simp [hc1pc, hf.2.2.2.2]
  obtain ⟨hpc1, hwb1, hnew1, hbd1, hex1⟩ := hm1
  refine ⟨hpc1, hwb1, hnew1, hex1, ?_⟩
  -- second iteration
  have hand : T &&& 0x3 = 0 := and_three_of_mod_four T hT
  have hadv : iop.advance c2 = some { c2 with PC := T, will_branch := false } := by
    simp [iop.advance, hc2wb, hwb1, hc2bd, hbd1, hc2new, hnew1, hand]
  have hstep2 : ∃ m2 : iop.Machine E, iop.step b m1 = some m2 ∧ m2.cpu.PC = T ∧
      m2.cpu.will_branch = false ∧ m2.executed = (iop.fetch_phase b m1).2.executed := by
    simp only [iop.step, hslot, hadv]
    exact ⟨_, rfl, rfl, rfl, rfl⟩
  obtain ⟨m2, hs2, hpc2, hwb2, hex2⟩ := hstep2
  have hb : m.cpu.cycles_to_run > 0 := hbudget
  have hb1 : m1.cpu.cycles_to_run > 0 := hbudget1
  have hloop : ∀ f : Nat, iop.run_loop b (f + 2) m = iop.run_loop b f m2 := by
    intro f
    show iop.run_loop b (f + 1 + 1) m = iop.run_loop b f m2
    simp only [iop.run_loop, hb, hb1, hstep1, hs2, if_true]
  have hfetch : ∀ (cpu : iop.IOP), (iop.fetch_phase b { m2 with cpu := cpu }).2.executed =
      m2.executed ++ [(cpu.PC, (iop.fetch_phase b { m2 with cpu := cpu }).1)] :=
    fun cpu => (fetch_phase_control b { m2 with cpu := cpu }).2.2.2.2
  refine ⟨m2, hs2, hpc2, hwb2, ?_, hloop fuel, ?_, ?_⟩
  · rw [hex2, hf1.2.2.2.2, hex1, hpc1]
    simp
  · intro hb2
    have hb2' : m2.cpu.cycles_to_run > 0 := hb2
    constructor
    · rw [hloop (fuel + 1)]
      simp only [iop.run_loop, hb2', if_true]
    · intro m3 h3
      have hf2 := fetch_phase_control b m2
      unfold iop.step at h3
      cases hx : iop.exec_result b m2 with
      | none =>
        rw [hx] at h3
        cases h3
      | some r =>
        obtain ⟨c3, e3⟩ := r
        rw [hx] at h3
        cases ha : iop.advance c3 with
        | none =>
          simp only [ha] at h3
          cases h3
        | some c4 =>
          simp only [ha] at h3
          cases h3
          show (iop.fetch_phase b m2).2.executed = _
          rw [hf2.2.2.2.2, hpc2]
  · intro hdone
    have hrun : iop.run b (k + (fuel + 2)) m0 cycles =
        iop.RunResult.ok { m2 with cpu := iop.interrupt_poll m2.cpu } := by
      unfold iop.run
      rw [if_pos (by simp [hrunning]), hreach (fuel + 2), hloop fuel,
        run_loop_done b fuel m2 hdone]
    have hc := interrupt_poll_cases m2.cpu
    refine ⟨hrun, ?_, ?_⟩
    · intro hno
      have hp := hc.2 hno
      refine ⟨hp, ?_⟩
      intro cycles2
      rw [hfetch]
      show _ ++ [((iop.interrupt_poll m2.cpu).PC, _)] = _
      rw [hp, hpc2]
    · intro hyes
      have hp := hc.1 hyes
      have hepc : (m2.cpu.interrupt).cop0.EPC = T ∧ (m2.cpu.interrupt).cop0.cause.bd = false := by
        simp [iop.IOP.interrupt, iop.IOP.unhalt, iop.IOP.handle_exception, hwb2, hpc2]
      refine ⟨hp.1, hp.2.2.2.1, ?_, ?_, hp.2.2.2.2, hp.2.2.1, ?_⟩
      · rw [hp.1]
        exact hepc.1
      · rw [hp.1]
        exact hepc.2
      · intro cycles2
        rw [hfetch]
        show _ ++ [((iop.interrupt_poll m2.cpu).PC, _)] = _
        rw [hp.2.2.2.1]

/-- Witness for C2 on the test bench.  With a budget of two cycles and an enabled
interrupt pending, the jump at `0x100` is followed by exactly one execution of the word
at `0x104`, then `run` returns with the interrupt taken, `EPC = 0x200`.  With a budget
of ten cycles the loop goes on from `0x200`. -/
theorem C2_delay_slot_witness :
    (∃ m2 : iop.Machine Unit,
      m2.cpu.PC = 0x200 ∧ m2.executed = [(0x100, 1), (0x104, 0)] ∧
      iop.run iop.bench_collaborators 2 iop.bench_jump_irq 2 =
        iop.RunResult.ok { m2 with cpu := iop.interrupt_poll m2.cpu } ∧
      (iop.interrupt_poll m2.cpu).PC = 0x80000080 ∧
      (iop.interrupt_poll m2.cpu).cop0.EPC = 0x200) ∧
    (∃ m2 : iop.Machine Unit,
      m2.cpu.PC = 0x200 ∧ m2.executed = [(0x100, 1), (0x104, 0)] ∧
      iop.run_loop iop.bench_collaborators 3 iop.bench_machine =
        (match iop.step iop.bench_collaborators m2 with
         | none => iop.RunResult.die
         | some m3 => iop.run_loop iop.bench_collaborators 0 m3)) := by
  constructor
  · obtain ⟨m2, h1, h2, _, h4, _, _, hend⟩ :=
      (C2_delay_slot_executes_once iop.bench_collaborators iop.bench_jump_irq
        { iop.bench_jump_irq with cpu := { iop.bench_jump_irq.cpu with
            cycles_to_run := iop.bench_jump_irq.cpu.cycles_to_run + 2 } }
        { cpu :=
            { iop.bench_jump_irq.cpu with
              cycles_to_run := 1, PC := 0x104, new_PC := 0x200, will_branch := true,
              branch_delay := 0 },
          env := (), executed := [(0x100, 1)] }
        2 0 0x200 { iop.bench_jump_irq.cpu with cycles_to_run := 1 }
        { iop.bench_jump_irq.cpu with
          cycles_to_run := 0, PC := 0x104, new_PC := 0x200, will_branch := true,
          branch_delay := 0 } () () 0
        rfl (fun f => by rw [Nat.zero_add]) (by decide) rfl rfl rfl (by decide) rfl
        (by decide) rfl rfl rfl rfl rfl).2.2.2.2
    have hm2 : m2 =
        { cpu :=
            { iop.bench_jump_irq.cpu with
              cycles_to_run := 0, PC := 0x200, new_PC := 0x200, will_branch := false,
              branch_delay := 0 },
          env := (), executed := [(0x100, 1), (0x104, 0)] } :=
      (Option.some.inj h1).symm
    subst hm2
    have he := hend (by decide)
    have hi := he.2.2 ⟨rfl, by decide⟩
    exact ⟨_, h2, h4, he.1, hi.2.1, hi.2.2.1⟩
  · obtain ⟨m2, h1, h2, _, h4, _, hgo, _⟩ :=
      (C2_delay_slot_executes_once iop.bench_collaborators iop.bench_machine
        { iop.bench_machine with cpu := { iop.bench_machine.cpu with
            cycles_to_run := iop.bench_machine.cpu.cycles_to_run + 0 } }
        iop.bench_machine1 0 0 0x200 { iop.bench_iop with cycles_to_run := 9 }
        { iop.bench_machine1.cpu with cycles_to_run := 8 } () () 0
        rfl (fun f => by rw [Nat.zero_add]) (by decide) rfl rfl rfl (by decide) rfl
        (by decide) rfl rfl rfl rfl rfl).2.2.2.2
    have hm2 : m2 =
        { cpu :=
            { iop.bench_machine1.cpu with
              cycles_to_run := 8, PC := 0x200, will_branch := false },
          env := (), executed := [(0x100, 1), (0x104, 0)] } :=
      (Option.some.inj h1).symm
    subst hm2
    exact ⟨_, h2, h4, (hgo (by decide)).1⟩

/-- C2, counterexample to the claim as stated.  On the test bench the handler of the
word at `0x100` calls `jp(0x200)` with no branch pending, the word at `0x104` does
nothing, and `run(2)` on an empty budget covers both instructions; interrupts are enabled
and line 2 is pending.  The word at `0x104` is executed once, but `run` then takes the
interrupt: it returns with `PC = 0x80000080` and `EPC = 0x200`, and the fetch that
follows the delay slot is from `0x80000080`, not from `0x200`. -/
theorem C2_interrupt_after_delay_slot :
    iop.exec_result iop.bench_collaborators
        { iop.bench_jump_irq with cpu := { iop.bench_jump_irq.cpu with cycles_to_run := 2 } } =
      some (({ iop.bench_jump_irq.cpu with cycles_to_run := 1 } : iop.IOP).jp 0x200, ()) ∧
    iop.bench_jump_irq.cpu.will_branch = false ∧
    ∃ mf : iop.Machine Unit,
      iop.run iop.bench_collaborators 2 iop.bench_jump_irq 2 = iop.RunResult.ok mf ∧
      mf.executed = [(0x100, 1), (0x104, 0)] ∧
      mf.cpu.PC = 0x80000080 ∧ mf.cpu.PC ≠ 0x200 ∧ mf.cpu.cop0.EPC = 0x200 ∧
      mf.cpu.will_branch = false ∧
      (iop.fetch_phase iop.bench_collaborators
        { mf with cpu := { mf.cpu with cycles_to_run := mf.cpu.cycles_to_run + 1 } }).2.executed =
        [(0x100, 1), (0x104, 0), (0x80000080, 0)] := by
  refine ⟨rfl, rfl, _, rfl, ?_, ?_, ?_, ?_, ?_, ?_⟩ <;> decide
